import Mathlib

/-!
# Verification of the Gauntlet sound-ROM disassembler/renderer

Shallow embedding of `gauntlet_disasm.py` (ROM accessor, command resolver,
bytecode interpreter, POKEY polynomial tables and renderer, TMS5220
fixed-point arithmetic, MIDI writer, static disassembler) together with
proofs and refutations of the specification's claims.

Modelling conventions:
* Python byte buffers (`bytes`) are modelled as an index function `ℕ → ℕ`
  paired with a length, so reads are `data (addr - base)` guarded by the
  same range checks as the source.
* Python `int` is `ℤ` (or `ℕ` where the source value is provably
  nonnegative); `x & mask` on nonnegative values is `%` / `Nat.land`,
  matching Python semantics.
* Python floats that only carry event *times* (frame accumulators,
  durations) are modelled as `ℚ`; the claims under study concern order and
  counting, which the exact-rational model preserves.
* Functions that can raise `ValueError` return `Except String _`; an
  uncaught exception in a caller is modelled by propagating the error.
-/

set_option allowUnsafeReducibility true

attribute [local semireducible] Rat.mul Rat.div Rat.sub Rat.inv Rat.add Rat.ofScientific Rat.blt

namespace Gauntlet

/-- ROM layout constants from the source header. -/
def ROM_BASE : ℕ := 0x4000

def ROM_END : ℕ := 0xFFFF

def ROM_SIZE : ℕ := 0xC000

/-- `GauntletROM`: the loaded file, modelled as length + index function.
`data i` is the byte at file offset `i` (only offsets `< size` are ever
meaningful). -/
structure Rom where
  size : ℕ
  data : ℕ → ℕ

namespace Rom

/-- `GauntletROM._offset`: CPU address to file offset, with range checks. -/
def offset (rom : Rom) (addr : ℕ) : Except String ℕ :=
  if addr < ROM_BASE then .error "outside ROM range"
  else if ROM_END < addr then .error "outside ROM range"
  else if rom.size ≤ addr - ROM_BASE then .error "beyond end of ROM data"
  else .ok (addr - ROM_BASE)

/-- `GauntletROM.read_byte`. -/
def readByte (rom : Rom) (addr : ℕ) : Except String ℕ :=
  (rom.offset addr).map rom.data

/-- `GauntletROM.read_word`: 16-bit little-endian. -/
def readWord (rom : Rom) (addr : ℕ) : Except String ℕ := do
  let off ← rom.offset addr
  if rom.size ≤ off + 1 then .error "word read extends beyond ROM"
  else .ok (rom.data off + rom.data (off + 1) * 256)

end Rom

end Gauntlet

namespace Gauntlet

/-- A ROM is a *full image* when the file is exactly 48 KiB. -/
def Rom.full (rom : Rom) : Prop := rom.size = ROM_SIZE

/-- C5 helper: the claim's byte-read failure condition. -/
def byteReadFails (rom : Rom) (addr : ℕ) : Prop :=
  addr < 0x4000 ∨ 0xFFFF < addr ∨ rom.size ≤ addr - 0x4000

instance (rom : Rom) (addr : ℕ) : Decidable (byteReadFails rom addr) := by
  unfold byteReadFails; infer_instance

end Gauntlet

namespace Gauntlet

/-- Reduction of monadic bind on `Except.error`. -/
theorem except_bind_error {α β : Type} (e : String) (f : α → Except String β) :
    (Except.error e >>= f) = Except.error e := rfl

/-- Reduction of monadic bind on `Except.ok`. -/
theorem except_bind_ok {α β : Type} (a : α) (f : α → Except String β) :
    (Except.ok a >>= f) = f a := rfl

/-- Either branch of `Except` holds. -/
theorem rom_offset_cases (rom : Rom) (addr : ℕ) :
    (byteReadFails rom addr ∧ ∃ e, rom.offset addr = .error e) ∨
    (¬ byteReadFails rom addr ∧ rom.offset addr = .ok (addr - 0x4000)) := by
  unfold Rom.offset byteReadFails ROM_BASE ROM_END
  by_cases h1 : addr < 0x4000
  · exact Or.inl ⟨Or.inl h1, by rw [if_pos h1]; exact ⟨_, rfl⟩⟩
  by_cases h2 : 0xFFFF < addr
  · exact Or.inl ⟨Or.inr (Or.inl h2), by rw [if_neg h1, if_pos h2]; exact ⟨_, rfl⟩⟩
  by_cases h3 : rom.size ≤ addr - 0x4000
  · exact Or.inl ⟨Or.inr (Or.inr h3),
      by rw [if_neg h1, if_neg h2, if_pos h3]; exact ⟨_, rfl⟩⟩
  · exact Or.inr ⟨by tauto, by rw [if_neg h1, if_neg h2, if_neg h3]⟩

/-- `read_u8` fails exactly under the claimed out-of-range condition,
and in-range reads return the mapped byte. -/
theorem readByte_fails_iff (rom : Rom) (addr : ℕ) :
    ((∃ e, rom.readByte addr = .error e) ↔ byteReadFails rom addr) ∧
    (¬ byteReadFails rom addr →
      rom.readByte addr = .ok (rom.data (addr - 0x4000))) := by
  rcases rom_offset_cases rom addr with ⟨hf, e, he⟩ | ⟨hf, he⟩
  · refine ⟨⟨fun _ => hf, fun _ => ⟨e, ?_⟩⟩, fun h => absurd hf h⟩
    simp [Rom.readByte, he, Except.map]
  · constructor
    · constructor
      · rintro ⟨e', he'⟩
        simp [Rom.readByte, he, Except.map] at he'
      · intro h; exact absurd h hf
    · intro _; simp [Rom.readByte, he, Except.map]

/-- `read_u16_le` fails exactly when the byte-read
condition holds or the second byte lies past the end of the file; otherwise
it returns the two mapped bytes in little-endian order. -/
theorem readWord_fails_iff (rom : Rom) (addr : ℕ) :
    ((∃ e, rom.readWord addr = .error e) ↔
      (byteReadFails rom addr ∨ rom.size ≤ (addr - 0x4000) + 1)) ∧
    (¬ byteReadFails rom addr → ¬ rom.size ≤ (addr - 0x4000) + 1 →
      rom.readWord addr =
        .ok (rom.data (addr - 0x4000) + rom.data ((addr - 0x4000) + 1) * 256)) := by
  rcases rom_offset_cases rom addr with ⟨hf, e, he⟩ | ⟨hf, he⟩
  · refine ⟨⟨fun _ => Or.inl hf, fun _ => ⟨e, ?_⟩⟩, fun h => absurd hf h⟩
    simp only [Rom.readWord, he, except_bind_error]
  · by_cases h2 : rom.size ≤ (addr - 0x4000) + 1
    · refine ⟨⟨fun _ => Or.inr h2, fun _ => ?_⟩, fun _ h => absurd h2 h⟩
      refine ⟨"word read extends beyond ROM", ?_⟩
      simp only [Rom.readWord, he, except_bind_ok]
      rw [if_pos h2]
    · constructor
      · constructor
        · rintro ⟨e', he'⟩
          simp only [Rom.readWord, he, except_bind_ok] at he'
          rw [if_neg h2] at he'
          cases he'
        · rintro (h | h)
          · exact absurd h hf
          · exact absurd h h2
      · intro _ _
        simp only [Rom.readWord, he, except_bind_ok]
        rw [if_neg h2]

end Gauntlet

namespace Gauntlet

/-- Claim C5: for every address, the ROM accessor's byte read fails
with an out-of-range error exactly when `addr < 0x4000`, `addr > 0xFFFF`,
or `addr - 0x4000 ≥ len(file)`; a 16-bit word read additionally fails when
its second byte would lie past the end of the file; in-range reads never
raise and return the mapped byte(s). -/
theorem claim_C5_rom_accessor (rom : Rom) (addr : ℕ) :
    ((∃ e, rom.readByte addr = .error e) ↔ byteReadFails rom addr) ∧
    ((∃ e, rom.readWord addr = .error e) ↔
      (byteReadFails rom addr ∨ rom.size ≤ (addr - 0x4000) + 1)) ∧
    (¬ byteReadFails rom addr →
      rom.readByte addr = .ok (rom.data (addr - 0x4000))) ∧
    (¬ byteReadFails rom addr → ¬ rom.size ≤ (addr - 0x4000) + 1 →
      rom.readWord addr =
        .ok (rom.data (addr - 0x4000) + rom.data ((addr - 0x4000) + 1) * 256)) :=
  ⟨(readByte_fails_iff rom addr).1, (readWord_fails_iff rom addr).1,
   (readByte_fails_iff rom addr).2, (readWord_fails_iff rom addr).2⟩

/-- A concrete 5-byte ROM used to witness the accessor claims. -/
def tinyRom : Rom := ⟨5, fun i => if i = 2 then 0xAB else if i = 3 then 0x12 else 7⟩

/-- Witness for claim C5 evaluated on `tinyRom`: the in-range read at
`0x4002` succeeds with the mapped byte, the word read returns little-endian
`0x12AB`, and the read at `0x4005` fails. -/
theorem claim_C5_rom_accessor_witness :
    tinyRom.readByte 0x4002 = .ok 0xAB ∧
    tinyRom.readWord 0x4002 = .ok 0x12AB ∧
    byteReadFails tinyRom 0x4005 := by
  refine ⟨?_, ?_, by decide⟩
  · have h := (claim_C5_rom_accessor tinyRom 0x4002).2.2.1 (by decide)
    simpa using h
  · have h := (claim_C5_rom_accessor tinyRom 0x4002).2.2.2 (by decide) (by decide)
    simpa using h

end Gauntlet

namespace Gauntlet

/-- Dispatch-table and SFX-table addresses from the source header. -/
def DISPATCH_TYPE_TABLE : ℕ := 0x5DEA

def DISPATCH_PARAM_TABLE : ℕ := 0x5EC5

def SFX_OFFSET_TABLE : ℕ := 0x5FA8

def SFX_PRIORITY_TABLE : ℕ := 0x6024

def SFX_CHANNEL_TABLE : ℕ := 0x60DA

def SFX_SEQ_PTR_TABLE : ℕ := 0x6190

def SFX_NEXT_TABLE : ℕ := 0x62FC

def MUSIC_INDEX_TABLE : ℕ := 0x63B2

def MUSIC_SEQ_PTR_TABLE : ℕ := 0x8449

def MUSIC_SEQ_LEN_TABLE : ℕ := 0x85C3

def DURATION_TABLE_ADDR : ℕ := 0x5C5F

def FREQ_TABLE_ADDR : ℕ := 0x5A35

/-- `ChannelInfo`: per-channel data collected by the type-7 chain walk. -/
structure ChannelInfo where
  offset : ℕ
  priority : ℕ
  channel : ℕ
  seqPtr : ℕ
  deriving DecidableEq, Repr

/-- `CommandInfo` (fields that are `None` until filled are `Option`). -/
structure CommandInfo where
  cmd : ℕ
  handlerType : ℕ
  param : ℕ
  seqPtr : Option ℕ := none
  seqLen : Option ℕ := none
  priority : Option ℕ := none
  channel : Option ℕ := none
  offset : Option ℕ := none
  hasSequence : Bool := false
  isSpeech : Bool := false
  channels : Option (List ChannelInfo) := none
  deriving DecidableEq, Repr

/-- The `while cur != 0 and cur not in seen and len(channels) < 30` chain
walk of `resolve_command`.  The source bounds the loop by
`len(channels) < 30`; here `fuel` carries `30 - len(channels)` so the
recursion is structural (the two guards are equivalent because `fuel`
starts at 30 with an empty channel list and both drop in lockstep). -/
def walkChainAux (rom : Rom) :
    ℕ → List ℕ → List ChannelInfo → ℕ → Except String (List ChannelInfo)
  | 0, _, channels, _ => .ok channels
  | fuel + 1, seen, channels, cur =>
    if cur ≠ 0 ∧ cur ∉ seen then do
      let priority ← rom.readByte (SFX_PRIORITY_TABLE + cur)
      let channel ← rom.readByte (SFX_CHANNEL_TABLE + cur)
      let seqPtr ← rom.readWord (SFX_SEQ_PTR_TABLE + cur * 2)
      let next ← rom.readByte (SFX_NEXT_TABLE + cur)
      walkChainAux rom fuel (cur :: seen) (channels ++ [⟨cur, priority, channel, seqPtr⟩]) next
    else .ok channels

/-- The chain walk as started by `resolve_command` (empty seen set, empty
channel list, 30-entry hard limit). -/
def walkChain (rom : Rom) (offset : ℕ) : Except String (List ChannelInfo) :=
  walkChainAux rom 30 [] [] offset

/-- `resolve_command`: command id to handler info.  Returns `none` for ids
above `0xDA` (the source also checks `cmd < 0`, impossible for `ℕ`). -/
def resolveCommand (rom : Rom) (cmd : ℕ) : Except String (Option CommandInfo) :=
  if 0xDA < cmd then .ok none
  else do
    let handlerType ← rom.readByte (DISPATCH_TYPE_TABLE + cmd)
    let param ← rom.readByte (DISPATCH_PARAM_TABLE + cmd)
    if handlerType = 7 then do
      let offset ← rom.readByte (SFX_OFFSET_TABLE + param)
      let channels ← walkChain rom offset
      .ok (some { cmd, handlerType, param,
                  seqPtr := channels.head?.map (·.seqPtr),
                  priority := channels.head?.map (·.priority),
                  channel := channels.head?.map (·.channel),
                  offset := some offset,
                  hasSequence := true,
                  channels := some channels })
    else if handlerType = 11 then do
      let index ← rom.readByte (MUSIC_INDEX_TABLE + param)
      let seqPtr ← rom.readWord (MUSIC_SEQ_PTR_TABLE + index * 2)
      let seqLen ← rom.readWord (MUSIC_SEQ_LEN_TABLE + index * 2)
      .ok (some { cmd, handlerType, param, seqPtr := some seqPtr,
                  seqLen := some seqLen, offset := some index,
                  hasSequence := true, isSpeech := true })
    else .ok (some { cmd, handlerType, param })

/-- On a full 48 KiB image, in-range byte reads succeed. -/
theorem readByte_full_ok (rom : Rom) (hfull : rom.full) {addr : ℕ}
    (h1 : 0x4000 ≤ addr) (h2 : addr ≤ 0xFFFF) :
    rom.readByte addr = .ok (rom.data (addr - 0x4000)) := by
  apply (readByte_fails_iff rom addr).2
  unfold byteReadFails
  unfold Rom.full ROM_SIZE at hfull
  omega

/-- On a full 48 KiB image, word reads up to `0xFFFE` succeed. -/
theorem readWord_full_ok (rom : Rom) (hfull : rom.full) {addr : ℕ}
    (h1 : 0x4000 ≤ addr) (h2 : addr ≤ 0xFFFE) :
    rom.readWord addr =
      .ok (rom.data (addr - 0x4000) + rom.data ((addr - 0x4000) + 1) * 256) := by
  unfold Rom.full ROM_SIZE at hfull
  apply (readWord_fails_iff rom addr).2
  · unfold byteReadFails; omega
  · omega

end Gauntlet

namespace Gauntlet

/-- Chain-walk invariant: on a full byte-valued ROM the walk never fails,
appends only fresh nonzero offsets, and never grows past the fuel. -/
theorem walkChainAux_spec (rom : Rom) (hfull : rom.full)
    (hb : ∀ i, rom.data i < 256) :
    ∀ (fuel : ℕ) (seen : List ℕ) (channels : List ChannelInfo) (cur : ℕ),
      cur < 256 →
      ∃ chs : List ChannelInfo,
        walkChainAux rom fuel seen channels cur = .ok chs ∧
        ∃ tail : List ChannelInfo,
          chs = channels ++ tail ∧
          tail.length ≤ fuel ∧
          (∀ ci ∈ tail, ci.offset ≠ 0 ∧ ci.offset ∉ seen) ∧
          (tail.map (·.offset)).Nodup := by
  intro fuel
  induction fuel with
  | zero =>
    intro seen channels cur _
    exact ⟨channels, rfl, [], by simp, by simp, by simp, by simp⟩
  | succ n ih =>
    intro seen channels cur hcur
    by_cases hc : cur ≠ 0 ∧ cur ∉ seen
    · have hp := @readByte_full_ok rom hfull
        (SFX_PRIORITY_TABLE + cur)
        (by unfold SFX_PRIORITY_TABLE; omega) (by unfold SFX_PRIORITY_TABLE; omega)
      have hch := @readByte_full_ok rom hfull
        (SFX_CHANNEL_TABLE + cur)
        (by unfold SFX_CHANNEL_TABLE; omega) (by unfold SFX_CHANNEL_TABLE; omega)
      have hw := @readWord_full_ok rom hfull
        (SFX_SEQ_PTR_TABLE + cur * 2)
        (by unfold SFX_SEQ_PTR_TABLE; omega) (by unfold SFX_SEQ_PTR_TABLE; omega)
      have hn := @readByte_full_ok rom hfull
        (SFX_NEXT_TABLE + cur)
        (by unfold SFX_NEXT_TABLE; omega) (by unfold SFX_NEXT_TABLE; omega)
      obtain ⟨chs, hrun, tail, htail, hlen, hfresh, hnodup⟩ :=
        ih (cur :: seen)
          (channels ++ [⟨cur, rom.data (SFX_PRIORITY_TABLE + cur - 0x4000),
            rom.data (SFX_CHANNEL_TABLE + cur - 0x4000),
            rom.data (SFX_SEQ_PTR_TABLE + cur * 2 - 0x4000) +
              rom.data (SFX_SEQ_PTR_TABLE + cur * 2 - 0x4000 + 1) * 256⟩])
          (rom.data (SFX_NEXT_TABLE + cur - 0x4000)) (hb _)
      refine ⟨chs, ?_,
        (⟨cur, rom.data (SFX_PRIORITY_TABLE + cur - 0x4000),
          rom.data (SFX_CHANNEL_TABLE + cur - 0x4000),
          rom.data (SFX_SEQ_PTR_TABLE + cur * 2 - 0x4000) +
            rom.data (SFX_SEQ_PTR_TABLE + cur * 2 - 0x4000 + 1) * 256⟩ :
          ChannelInfo) :: tail, ?_, ?_, ?_, ?_⟩
      · simp only [walkChainAux]
        rw [if_pos hc, hp, except_bind_ok, hch, except_bind_ok, hw,
          except_bind_ok, hn, except_bind_ok]
        exact hrun
      · rw [htail]; simp
      · simpa using hlen
      · intro ci hci
        rcases List.mem_cons.mp hci with h | h
        · subst h; exact ⟨hc.1, hc.2⟩
        · have := hfresh ci h
          exact ⟨this.1, fun hm => this.2 (List.mem_cons_of_mem _ hm)⟩
      · simp only [List.map_cons, List.nodup_cons]
        refine ⟨?_, hnodup⟩
        intro hmem
        obtain ⟨ci, hci, hoff⟩ := List.mem_map.mp hmem
        exact (hfresh ci hci).2 (hoff ▸ List.mem_cons_self _ _)
    · exact ⟨channels, by unfold walkChainAux; rw [if_neg hc], [],
        by simp, by simp, by simp, by simp⟩

end Gauntlet

namespace Gauntlet

/-- Claim C3: for every command `c ∈ [0, 219)` and full byte-valued 48 KiB
ROM image, `resolve_command` terminates with a descriptor and never raises;
when the handler type is 7 the channel chain holds at most 30 entries whose
offsets are nonzero and pairwise distinct (the walk stops at a zero
next-offset or on any repeated offset). -/
theorem claim_C3_resolve_command (rom : Rom) (cmd : ℕ) (hfull : rom.full)
    (hb : ∀ i, rom.data i < 256) (hcmd : cmd < 219) :
    ∃ ci : CommandInfo, resolveCommand rom cmd = .ok (some ci) ∧
      ∀ chs, ci.channels = some chs →
        chs.length ≤ 30 ∧ (chs.map (·.offset)).Nodup ∧
        ∀ c ∈ chs, c.offset ≠ 0 := by
  have htype := @readByte_full_ok rom hfull (DISPATCH_TYPE_TABLE + cmd)
    (by unfold DISPATCH_TYPE_TABLE; omega) (by unfold DISPATCH_TYPE_TABLE; omega)
  have hparam := @readByte_full_ok rom hfull (DISPATCH_PARAM_TABLE + cmd)
    (by unfold DISPATCH_PARAM_TABLE; omega) (by unfold DISPATCH_PARAM_TABLE; omega)
  unfold resolveCommand
  rw [if_neg (by omega), htype, except_bind_ok, hparam, except_bind_ok]
  set ht := rom.data (DISPATCH_TYPE_TABLE + cmd - 0x4000) with hht
  set pa := rom.data (DISPATCH_PARAM_TABLE + cmd - 0x4000) with hpa
  have hpa256 : pa < 256 := hb _
  by_cases h7 : ht = 7
  · rw [if_pos h7]
    have hoff := @readByte_full_ok rom hfull (SFX_OFFSET_TABLE + pa)
      (by unfold SFX_OFFSET_TABLE; omega) (by unfold SFX_OFFSET_TABLE; omega)
    rw [hoff, except_bind_ok]
    obtain ⟨chs, hrun, tail, htail, hlen, hfresh, hnodup⟩ :=
      walkChainAux_spec rom hfull hb 30 [] []
        (rom.data (SFX_OFFSET_TABLE + pa - 0x4000)) (hb _)
    rw [show walkChain rom (rom.data (SFX_OFFSET_TABLE + pa - 0x4000)) =
      walkChainAux rom 30 [] [] (rom.data (SFX_OFFSET_TABLE + pa - 0x4000)) from rfl,
      hrun, except_bind_ok]
    refine ⟨_, rfl, ?_⟩
    intro chs' hchs'
    have heq : chs = chs' := by
      simpa using hchs'
    subst heq
    simp only [List.nil_append] at htail
    subst htail
    exact ⟨by simpa using hlen, hnodup, fun c hc => (hfresh c hc).1⟩
  · rw [if_neg h7]
    by_cases h11 : ht = 11
    · rw [if_pos h11]
      have hidx := @readByte_full_ok rom hfull (MUSIC_INDEX_TABLE + pa)
        (by unfold MUSIC_INDEX_TABLE; omega) (by unfold MUSIC_INDEX_TABLE; omega)
      rw [hidx, except_bind_ok]
      have hidx256 : rom.data (MUSIC_INDEX_TABLE + pa - 0x4000) < 256 := hb _
      have hptr := @readWord_full_ok rom hfull
        (MUSIC_SEQ_PTR_TABLE + rom.data (MUSIC_INDEX_TABLE + pa - 0x4000) * 2)
        (by unfold MUSIC_SEQ_PTR_TABLE; omega) (by unfold MUSIC_SEQ_PTR_TABLE; omega)
      rw [hptr, except_bind_ok]
      have hlenr := @readWord_full_ok rom hfull
        (MUSIC_SEQ_LEN_TABLE + rom.data (MUSIC_INDEX_TABLE + pa - 0x4000) * 2)
        (by unfold MUSIC_SEQ_LEN_TABLE; omega) (by unfold MUSIC_SEQ_LEN_TABLE; omega)
      rw [hlenr, except_bind_ok]
      exact ⟨_, rfl, by intro chs hchs; cases hchs⟩
    · rw [if_neg h11]
      exact ⟨_, rfl, by intro chs hchs; cases hchs⟩

/-- Concrete full 48 KiB test image: command 0 has handler type 7, its
param selects chain offset 5, whose next-offset is 9, whose next-offset
is 0. -/
def resRomC3 : Rom :=
  ⟨0xC000, fun i =>
    if i = 0x1DEA then 7
    else if i = 0x1FA8 then 5
    else if i = 0x2301 then 9
    else 0⟩

/-- Witness for claim C3: all hypotheses hold for `resRomC3` and command 0,
and the resolver produces a descriptor there. -/
theorem claim_C3_resolve_command_witness :
    resRomC3.full ∧ (∀ i, resRomC3.data i < 256) ∧ (0 < 219) ∧
    (∃ ci : CommandInfo, resolveCommand resRomC3 0 = .ok (some ci) ∧
      ∀ chs, ci.channels = some chs →
        chs.length ≤ 30 ∧ (chs.map (·.offset)).Nodup ∧
        ∀ c ∈ chs, c.offset ≠ 0) := by
  have hf : resRomC3.full := by unfold Rom.full resRomC3 ROM_SIZE; rfl
  have hb : ∀ i, resRomC3.data i < 256 := by
    intro i; unfold resRomC3; dsimp only; split_ifs <;> omega
  exact ⟨hf, hb, by norm_num,
    claim_C3_resolve_command resRomC3 0 hf hb (by norm_num)⟩

end Gauntlet

namespace Gauntlet

/-- `TMS5220Emulator._matrix_multiply`: 10-bit × 14-bit fixed-point
multiply with `>> 9` shift (Python `%` on a positive modulus is `emod`,
Python `>>` is an arithmetic shift). -/
def matrixMultiply (a b : ℤ) : ℤ :=
  (((a + 512) % 1024 - 512) * ((b + 16384) % 32768 - 16384)) >>> (9 : ℤ)

/-- Lattice-filter state: `u`, `x`, `current_k`, energies, excitation. -/
structure LatticeState where
  u : Fin 11 → ℤ
  x : Fin 10 → ℤ
  currentK : Fin 10 → ℤ
  previousEnergy : ℤ
  currentEnergy : ℤ
  excitationData : ℤ

/-- `TMS5220Emulator._lattice_filter`: forward `u` chain, backward `x`
updates, energy rollover; returns the new state and `u[0]`
(`excitation_data << 6` is `* 64`). -/
def latticeFilter (s : LatticeState) : LatticeState × ℤ :=
  let u10 := matrixMultiply s.previousEnergy (s.excitationData * 64)
  let u9 := u10 - matrixMultiply (s.currentK 9) (s.x 9)
  let u8 := u9 - matrixMultiply (s.currentK 8) (s.x 8)
  let u7 := u8 - matrixMultiply (s.currentK 7) (s.x 7)
  let u6 := u7 - matrixMultiply (s.currentK 6) (s.x 6)
  let u5 := u6 - matrixMultiply (s.currentK 5) (s.x 5)
  let u4 := u5 - matrixMultiply (s.currentK 4) (s.x 4)
  let u3 := u4 - matrixMultiply (s.currentK 3) (s.x 3)
  let u2 := u3 - matrixMultiply (s.currentK 2) (s.x 2)
  let u1 := u2 - matrixMultiply (s.currentK 1) (s.x 1)
  let u0 := u1 - matrixMultiply (s.currentK 0) (s.x 0)
  let x9 := s.x 8 + matrixMultiply (s.currentK 8) u8
  let x8 := s.x 7 + matrixMultiply (s.currentK 7) u7
  let x7 := s.x 6 + matrixMultiply (s.currentK 6) u6
  let x6 := s.x 5 + matrixMultiply (s.currentK 5) u5
  let x5 := s.x 4 + matrixMultiply (s.currentK 4) u4
  let x4 := s.x 3 + matrixMultiply (s.currentK 3) u3
  let x3 := s.x 2 + matrixMultiply (s.currentK 2) u2
  let x2 := s.x 1 + matrixMultiply (s.currentK 1) u1
  let x1 := s.x 0 + matrixMultiply (s.currentK 0) u0
  let x0 := u0
  ({ s with
      u := ![u0, u1, u2, u3, u4, u5, u6, u7, u8, u9, u10]
      x := ![x0, x1, x2, x3, x4, x5, x6, x7, x8, x9]
      previousEnergy := s.currentEnergy }, u0)

/-- Spec-worded fixed-point multiply (for the refinement comparison):
wrap `a` into `[-512, 511]` and `b` into `[-16384, 16383]` as the unique
congruent representatives, multiply, arithmetic shift right by 9 (floor
division by 512; `/` on `ℤ` here is floor division for the positive
divisors involved). -/
def specWrap10 (a : ℤ) : ℤ := a - 1024 * ((a + 512) / 1024)

/-- Spec-worded wrap of the second operand into `[-16384, 16383]`. -/
def specWrap14 (b : ℤ) : ℤ := b - 32768 * ((b + 16384) / 32768)

/-- Spec-worded multiply. -/
def specFixMul (a b : ℤ) : ℤ := specWrap10 a * specWrap14 b / 512

/-- Arithmetic shift right by 9 on `ℤ` is floor division by 512. -/
theorem int_shiftRight9_eq_div (x : ℤ) : x >>> (9 : ℤ) = x / 512 := by
  cases x with
  | ofNat n =>
    have h : (Int.ofNat n) >>> (9 : ℤ) = ((n >>> 9 : ℕ) : ℤ) :=
      Int.shiftRight_coe_nat n 9
    rw [h, Nat.shiftRight_eq_div_pow]
    show ((n / 2 ^ 9 : ℕ) : ℤ) = (n : ℤ) / 512
    omega
  | negSucc n =>
    have h : (Int.negSucc n) >>> (9 : ℤ) = Int.negSucc (n >>> 9) :=
      Int.shiftRight_negSucc n 9
    rw [h, Nat.shiftRight_eq_div_pow]
    simp only [Int.negSucc_eq]
    omega

/-- The lattice filter with every multiply replaced by the spec-worded
fixed-point operation (refinement twin of `latticeFilter`). -/
def specLatticeFilter (s : LatticeState) : LatticeState × ℤ :=
  let u10 := specFixMul s.previousEnergy (s.excitationData * 64)
  let u9 := u10 - specFixMul (s.currentK 9) (s.x 9)
  let u8 := u9 - specFixMul (s.currentK 8) (s.x 8)
  let u7 := u8 - specFixMul (s.currentK 7) (s.x 7)
  let u6 := u7 - specFixMul (s.currentK 6) (s.x 6)
  let u5 := u6 - specFixMul (s.currentK 5) (s.x 5)
  let u4 := u5 - specFixMul (s.currentK 4) (s.x 4)
  let u3 := u4 - specFixMul (s.currentK 3) (s.x 3)
  let u2 := u3 - specFixMul (s.currentK 2) (s.x 2)
  let u1 := u2 - specFixMul (s.currentK 1) (s.x 1)
  let u0 := u1 - specFixMul (s.currentK 0) (s.x 0)
  let x9 := s.x 8 + specFixMul (s.currentK 8) u8
  let x8 := s.x 7 + specFixMul (s.currentK 7) u7
  let x7 := s.x 6 + specFixMul (s.currentK 6) u6
  let x6 := s.x 5 + specFixMul (s.currentK 5) u5
  let x5 := s.x 4 + specFixMul (s.currentK 4) u4
  let x4 := s.x 3 + specFixMul (s.currentK 3) u3
  let x3 := s.x 2 + specFixMul (s.currentK 2) u2
  let x2 := s.x 1 + specFixMul (s.currentK 1) u1
  let x1 := s.x 0 + specFixMul (s.currentK 0) u0
  let x0 := u0
  ({ s with
      u := ![u0, u1, u2, u3, u4, u5, u6, u7, u8, u9, u10]
      x := ![x0, x1, x2, x3, x4, x5, x6, x7, x8, x9]
      previousEnergy := s.currentEnergy }, u0)

/-- The source multiply agrees pointwise with the spec-worded one. -/
theorem matrixMultiply_eq_spec : matrixMultiply = specFixMul := by
  funext a b
  have h1 : (a + 512) % 1024 - 512 = specWrap10 a := by
    unfold specWrap10; rw [Int.emod_def]; ring
  have h2 : (b + 16384) % 32768 - 16384 = specWrap14 b := by
    unfold specWrap14; rw [Int.emod_def]; ring
  unfold matrixMultiply specFixMul
  rw [int_shiftRight9_eq_div, h1, h2]

/-- Claim C8: every multiply in the 10-stage lattice filter is the
fixed-point operation "wrap `a` into `[-512, 511]`, wrap `b` into
`[-16384, 16383]`, multiply, arithmetic shift right by 9" for all integer
inputs: the wraps are the congruent representatives in those ranges
(wrapping, not saturation), the source multiply equals the spec-worded one,
and the whole filter step refines its spec-worded twin. -/
theorem claim_C8_lattice_fixed_point (a b : ℤ) (s : LatticeState) :
    matrixMultiply a b = specFixMul a b ∧
    (-512 ≤ specWrap10 a ∧ specWrap10 a ≤ 511 ∧
      (1024 : ℤ) ∣ (a - specWrap10 a)) ∧
    (-16384 ≤ specWrap14 b ∧ specWrap14 b ≤ 16383 ∧
      (32768 : ℤ) ∣ (b - specWrap14 b)) ∧
    latticeFilter s = specLatticeFilter s := by
  refine ⟨by rw [matrixMultiply_eq_spec], ⟨?_, ?_, ?_⟩, ⟨?_, ?_, ?_⟩, ?_⟩
  · unfold specWrap10; omega
  · unfold specWrap10; omega
  · exact ⟨(a + 512) / 1024, by unfold specWrap10; ring⟩
  · unfold specWrap14; omega
  · unfold specWrap14; omega
  · exact ⟨(b + 16384) / 32768, by unfold specWrap14; ring⟩
  · unfold latticeFilter specLatticeFilter
    rw [matrixMultiply_eq_spec]

/-- Generator loop shared by the polynomial-table initialisers: advance the
LFSR, append the new state, repeat `n` times. -/
def polyGen (f : ℕ → ℕ) : ℕ → ℕ → List ℕ
  | 0, _ => []
  | n + 1, l => (f l) :: polyGen f n (f l)

/-- One step of `POKEYEmulator._init_poly4_5`'s LFSR
(`~x & 1` on a nonnegative Python int is `1 - (x &&& 1)`). -/
def poly45Step (size : ℕ) (lfsr : ℕ) : ℕ :=
  ((lfsr <<< 1) ||| (1 - (((lfsr >>> 2) ^^^ (lfsr >>> (size - 1))) &&& 1)))
    &&& (2 ^ size - 1)

/-- One step of the 9-bit LFSR in `POKEYEmulator._init_poly9_17`
(also `POKEYEmulator._step_one_clock`'s polynomial). -/
def poly9Step (lfsr : ℕ) : ℕ :=
  (lfsr >>> 1) ||| ((((lfsr >>> 0) ^^^ (lfsr >>> 5)) &&& 1) <<< 8)

/-- One step of the 17-bit LFSR in `POKEYEmulator._init_poly9_17`. -/
def poly17Step (lfsr : ℕ) : ℕ :=
  ((lfsr &&& 1) <<< 16) |||
    (((lfsr >>> 1) &&& 0xFF7F) ||| ((((lfsr >>> 8) ^^^ (lfsr >>> 13)) &&& 1) <<< 7))

/-- `POKEYEmulator._init_poly4_5`: starts from 0, emits `2^size - 1`
states. -/
def initPoly45 (size : ℕ) : List ℕ :=
  polyGen (poly45Step size) (2 ^ size - 1) 0

/-- `POKEYEmulator._init_poly9_17`: starts from the all-ones mask, emits
`2^size - 1` states. -/
def initPoly917 (size : ℕ) : List ℕ :=
  if size = 17 then polyGen poly17Step (2 ^ size - 1) (2 ^ size - 1)
  else polyGen poly9Step (2 ^ size - 1) (2 ^ size - 1)

/-- Length of the generator output. -/
theorem polyGen_length (f : ℕ → ℕ) : ∀ (n l : ℕ), (polyGen f n l).length = n := by
  intro n
  induction n with
  | zero => intro l; rfl
  | succ m ih => intro l; simp [polyGen, ih]

/-- The `k`-th table entry is the `(k+1)`-st LFSR state. -/
theorem polyGen_get (f : ℕ → ℕ) :
    ∀ (n l k : ℕ), k < n → (polyGen f n l)[k]? = some (f^[k + 1] l) := by
  intro n
  induction n with
  | zero => intro l k hk; omega
  | succ m ih =>
    intro l k hk
    cases k with
    | zero => simp [polyGen]
    | succ j =>
      have := ih (f l) j (by omega)
      simp only [polyGen, List.getElem?_cons_succ, this,
        Function.iterate_succ_apply]

/-- Return times are closed under `Nat.gcd`. -/
theorem iterate_fixed_gcd {α : Type} (f : α → α) (x : α) :
    ∀ (a b : ℕ), f^[a] x = x → f^[b] x = x → f^[Nat.gcd a b] x = x := by
  intro a
  induction a using Nat.strong_induction_on with
  | _ a ih =>
    intro b ha hb
    rcases Nat.eq_zero_or_pos a with rfl | hpos
    · simpa using hb
    · rw [Nat.gcd_rec]
      refine ih (b % a) (Nat.mod_lt _ hpos) a ?_ ha
      have hq : f^[a * (b / a)] x = x := by
        rw [Function.iterate_mul]
        exact Function.iterate_fixed ha _
      have : f^[b % a + a * (b / a)] x = x := by
        rw [Nat.mod_add_div b a]
        exact hb
      rwa [Function.iterate_add_apply, hq] at this

/-- If the state returns after `N` steps but after no proper divisor of
`N`, then it returns after no `k` with `0 < k < N` at all: `N` is the
minimal period. -/
theorem minimal_period_of_divisors {α : Type} (f : α → α) (x : α) (N : ℕ)
    (hN : f^[N] x = x)
    (hdiv : ∀ d, d ∣ N → d ≠ N → 0 < d → f^[d] x ≠ x) :
    ∀ k, 0 < k → k < N → f^[k] x ≠ x := by
  intro k hk hkN hret
  have hg := iterate_fixed_gcd f x k N hret hN
  refine hdiv (Nat.gcd k N) (Nat.gcd_dvd_right k N) ?_
    (Nat.gcd_pos_of_pos_left _ hk) hg
  intro he
  have := Nat.le_of_dvd hk (Nat.gcd_dvd_left k N)
  omega

set_option maxRecDepth 20000

/-- Intermediate LFSR states for the 17-bit polynomial, 256 steps at
a time (the kernel cannot unfold 131 071 steps in one reduction). -/
theorem poly17_acc_1 : poly17Step^[256] 131071 = 12428 := by decide

theorem poly17_acc_2 : poly17Step^[512] 131071 = 39111 := by
  rw [show (512 : ℕ) = 256 + 256 from by norm_num,
    Function.iterate_add_apply, poly17_acc_1]
  decide

theorem poly17_acc_3 : poly17Step^[768] 131071 = 77365 := by
  rw [show (768 : ℕ) = 256 + 512 from by norm_num,
    Function.iterate_add_apply, poly17_acc_2]
  decide

theorem poly17_acc_4 : poly17Step^[1024] 131071 = 106594 := by
  rw [show (1024 : ℕ) = 256 + 768 from by norm_num,
    Function.iterate_add_apply, poly17_acc_3]
  decide

theorem poly17_acc_5 : poly17Step^[1280] 131071 = 49678 := by
  rw [show (1280 : ℕ) = 256 + 1024 from by norm_num,
    Function.iterate_add_apply, poly17_acc_4]
  decide

theorem poly17_acc_6 : poly17Step^[1536] 131071 = 64693 := by
  rw [show (1536 : ℕ) = 256 + 1280 from by norm_num,
    Function.iterate_add_apply, poly17_acc_5]
  decide

theorem poly17_acc_7 : poly17Step^[1792] 131071 = 86701 := by
  rw [show (1792 : ℕ) = 256 + 1536 from by norm_num,
    Function.iterate_add_apply, poly17_acc_6]
  decide

theorem poly17_acc_8 : poly17Step^[2048] 131071 = 30997 := by
  rw [show (2048 : ℕ) = 256 + 1792 from by norm_num,
    Function.iterate_add_apply, poly17_acc_7]
  decide

theorem poly17_acc_9 : poly17Step^[2304] 131071 = 10805 := by
  rw [show (2304 : ℕ) = 256 + 2048 from by norm_num,
    Function.iterate_add_apply, poly17_acc_8]
  decide

theorem poly17_acc_10 : poly17Step^[2560] 131071 = 29883 := by
  rw [show (2560 : ℕ) = 256 + 2304 from by norm_num,
    Function.iterate_add_apply, poly17_acc_9]
  decide

theorem poly17_acc_11 : poly17Step^[2816] 131071 = 76723 := by
  rw [show (2816 : ℕ) = 256 + 2560 from by norm_num,
    Function.iterate_add_apply, poly17_acc_10]
  decide

theorem poly17_acc_12 : poly17Step^[3072] 131071 = 27011 := by
  rw [show (3072 : ℕ) = 256 + 2816 from by norm_num,
    Function.iterate_add_apply, poly17_acc_11]
  decide

theorem poly17_acc_13 : poly17Step^[3328] 131071 = 96123 := by
  rw [show (3328 : ℕ) = 256 + 3072 from by norm_num,
    Function.iterate_add_apply, poly17_acc_12]
  decide

theorem poly17_acc_14 : poly17Step^[3584] 131071 = 95081 := by
  rw [show (3584 : ℕ) = 256 + 3328 from by norm_num,
    Function.iterate_add_apply, poly17_acc_13]
  decide

theorem poly17_acc_15 : poly17Step^[3840] 131071 = 58933 := by
  rw [show (3840 : ℕ) = 256 + 3584 from by norm_num,
    Function.iterate_add_apply, poly17_acc_14]
  decide

theorem poly17_acc_16 : poly17Step^[4096] 131071 = 23340 := by
  rw [show (4096 : ℕ) = 256 + 3840 from by norm_num,
    Function.iterate_add_apply, poly17_acc_15]
  decide

theorem poly17_acc_17 : poly17Step^[4352] 131071 = 81393 := by
  rw [show (4352 : ℕ) = 256 + 4096 from by norm_num,
    Function.iterate_add_apply, poly17_acc_16]
  decide

theorem poly17_acc_18 : poly17Step^[4608] 131071 = 52281 := by
  rw [show (4608 : ℕ) = 256 + 4352 from by norm_num,
    Function.iterate_add_apply, poly17_acc_17]
  decide

theorem poly17_acc_19 : poly17Step^[4864] 131071 = 117354 := by
  rw [show (4864 : ℕ) = 256 + 4608 from by norm_num,
    Function.iterate_add_apply, poly17_acc_18]
  decide

theorem poly17_acc_20 : poly17Step^[5120] 131071 = 87840 := by
  rw [show (5120 : ℕ) = 256 + 4864 from by norm_num,
    Function.iterate_add_apply, poly17_acc_19]
  decide

theorem poly17_acc_21 : poly17Step^[5376] 131071 = 100951 := by
  rw [show (5376 : ℕ) = 256 + 5120 from by norm_num,
    Function.iterate_add_apply, poly17_acc_20]
  decide

theorem poly17_acc_22 : poly17Step^[5632] 131071 = 46773 := by
  rw [show (5632 : ℕ) = 256 + 5376 from by norm_num,
    Function.iterate_add_apply, poly17_acc_21]
  decide

theorem poly17_acc_23 : poly17Step^[5888] 131071 = 120582 := by
  rw [show (5888 : ℕ) = 256 + 5632 from by norm_num,
    Function.iterate_add_apply, poly17_acc_22]
  decide

theorem poly17_acc_24 : poly17Step^[6144] 131071 = 80686 := by
  rw [show (6144 : ℕ) = 256 + 5888 from by norm_num,
    Function.iterate_add_apply, poly17_acc_23]
  decide

theorem poly17_acc_25 : poly17Step^[6400] 131071 = 69230 := by
  rw [show (6400 : ℕ) = 256 + 6144 from by norm_num,
    Function.iterate_add_apply, poly17_acc_24]
  decide

theorem poly17_acc_26 : poly17Step^[6656] 131071 = 88412 := by
  rw [show (6656 : ℕ) = 256 + 6400 from by norm_num,
    Function.iterate_add_apply, poly17_acc_25]
  decide

theorem poly17_acc_27 : poly17Step^[6912] 131071 = 37518 := by
  rw [show (6912 : ℕ) = 256 + 6656 from by norm_num,
    Function.iterate_add_apply, poly17_acc_26]
  decide

theorem poly17_acc_28 : poly17Step^[7168] 131071 = 94367 := by
  rw [show (7168 : ℕ) = 256 + 6912 from by norm_num,
    Function.iterate_add_apply, poly17_acc_27]
  decide

theorem poly17_acc_29 : poly17Step^[7424] 131071 = 87154 := by
  rw [show (7424 : ℕ) = 256 + 7168 from by norm_num,
    Function.iterate_add_apply, poly17_acc_28]
  decide

theorem poly17_acc_30 : poly17Step^[7680] 131071 = 113474 := by
  rw [show (7680 : ℕ) = 256 + 7424 from by norm_num,
    Function.iterate_add_apply, poly17_acc_29]
  decide

theorem poly17_acc_31 : poly17Step^[7936] 131071 = 47363 := by
  rw [show (7936 : ℕ) = 256 + 7680 from by norm_num,
    Function.iterate_add_apply, poly17_acc_30]
  decide

theorem poly17_acc_32 : poly17Step^[8192] 131071 = 110869 := by
  rw [show (8192 : ℕ) = 256 + 7936 from by norm_num,
    Function.iterate_add_apply, poly17_acc_31]
  decide

theorem poly17_acc_33 : poly17Step^[8448] 131071 = 119163 := by
  rw [show (8448 : ℕ) = 256 + 8192 from by norm_num,
    Function.iterate_add_apply, poly17_acc_32]
  decide

theorem poly17_acc_34 : poly17Step^[8704] 131071 = 101188 := by
  rw [show (8704 : ℕ) = 256 + 8448 from by norm_num,
    Function.iterate_add_apply, poly17_acc_33]
  decide

theorem poly17_acc_35 : poly17Step^[8960] 131071 = 72511 := by
  rw [show (8960 : ℕ) = 256 + 8704 from by norm_num,
    Function.iterate_add_apply, poly17_acc_34]
  decide

theorem poly17_acc_36 : poly17Step^[9216] 131071 = 61764 := by
  rw [show (9216 : ℕ) = 256 + 8960 from by norm_num,
    Function.iterate_add_apply, poly17_acc_35]
  decide

theorem poly17_acc_37 : poly17Step^[9472] 131071 = 22862 := by
  rw [show (9472 : ℕ) = 256 + 9216 from by norm_num,
    Function.iterate_add_apply, poly17_acc_36]
  decide

theorem poly17_acc_38 : poly17Step^[9728] 131071 = 54027 := by
  rw [show (9728 : ℕ) = 256 + 9472 from by norm_num,
    Function.iterate_add_apply, poly17_acc_37]
  decide

theorem poly17_acc_39 : poly17Step^[9984] 131071 = 9275 := by
  rw [show (9984 : ℕ) = 256 + 9728 from by norm_num,
    Function.iterate_add_apply, poly17_acc_38]
  decide

theorem poly17_acc_40 : poly17Step^[10240] 131071 = 42905 := by
  rw [show (10240 : ℕ) = 256 + 9984 from by norm_num,
    Function.iterate_add_apply, poly17_acc_39]
  decide

theorem poly17_acc_41 : poly17Step^[10496] 131071 = 28508 := by
  rw [show (10496 : ℕ) = 256 + 10240 from by norm_num,
    Function.iterate_add_apply, poly17_acc_40]
  decide

theorem poly17_acc_42 : poly17Step^[10752] 131071 = 46380 := by
  rw [show (10752 : ℕ) = 256 + 10496 from by norm_num,
    Function.iterate_add_apply, poly17_acc_41]
  decide

theorem poly17_acc_43 : poly17Step^[11008] 131071 = 122975 := by
  rw [show (11008 : ℕ) = 256 + 10752 from by norm_num,
    Function.iterate_add_apply, poly17_acc_42]
  decide

theorem poly17_acc_44 : poly17Step^[11264] 131071 = 74651 := by
  rw [show (11264 : ℕ) = 256 + 11008 from by norm_num,
    Function.iterate_add_apply, poly17_acc_43]
  decide

theorem poly17_acc_45 : poly17Step^[11520] 131071 = 41444 := by
  rw [show (11520 : ℕ) = 256 + 11264 from by norm_num,
    Function.iterate_add_apply, poly17_acc_44]
  decide

theorem poly17_acc_46 : poly17Step^[11776] 131071 = 57142 := by
  rw [show (11776 : ℕ) = 256 + 11520 from by norm_num,
    Function.iterate_add_apply, poly17_acc_45]
  decide

theorem poly17_acc_47 : poly17Step^[12032] 131071 = 41085 := by
  rw [show (12032 : ℕ) = 256 + 11776 from by norm_num,
    Function.iterate_add_apply, poly17_acc_46]
  decide

theorem poly17_acc_48 : poly17Step^[12288] 131071 = 18503 := by
  rw [show (12288 : ℕ) = 256 + 12032 from by norm_num,
    Function.iterate_add_apply, poly17_acc_47]
  decide

theorem poly17_acc_49 : poly17Step^[12544] 131071 = 125019 := by
  rw [show (12544 : ℕ) = 256 + 12288 from by norm_num,
    Function.iterate_add_apply, poly17_acc_48]
  decide

theorem poly17_acc_50 : poly17Step^[12800] 131071 = 66160 := by
  rw [show (12800 : ℕ) = 256 + 12544 from by norm_num,
    Function.iterate_add_apply, poly17_acc_49]
  decide

theorem poly17_acc_51 : poly17Step^[13056] 131071 = 110463 := by
  rw [show (13056 : ℕ) = 256 + 12800 from by norm_num,
    Function.iterate_add_apply, poly17_acc_50]
  decide

theorem poly17_acc_52 : poly17Step^[13312] 131071 = 113830 := by
  rw [show (13312 : ℕ) = 256 + 13056 from by norm_num,
    Function.iterate_add_apply, poly17_acc_51]
  decide

theorem poly17_acc_53 : poly17Step^[13568] 131071 = 40472 := by
  rw [show (13568 : ℕ) = 256 + 13312 from by norm_num,
    Function.iterate_add_apply, poly17_acc_52]
  decide

theorem poly17_acc_54 : poly17Step^[13824] 131071 = 60514 := by
  rw [show (13824 : ℕ) = 256 + 13568 from by norm_num,
    Function.iterate_add_apply, poly17_acc_53]
  decide

theorem poly17_acc_55 : poly17Step^[14080] 131071 = 78676 := by
  rw [show (14080 : ℕ) = 256 + 13824 from by norm_num,
    Function.iterate_add_apply, poly17_acc_54]
  decide

theorem poly17_acc_56 : poly17Step^[14336] 131071 = 67488 := by
  rw [show (14336 : ℕ) = 256 + 14080 from by norm_num,
    Function.iterate_add_apply, poly17_acc_55]
  decide

theorem poly17_acc_57 : poly17Step^[14592] 131071 = 1661 := by
  rw [show (14592 : ℕ) = 256 + 14336 from by norm_num,
    Function.iterate_add_apply, poly17_acc_56]
  decide

theorem poly17_acc_58 : poly17Step^[14848] 131071 = 45162 := by
  rw [show (14848 : ℕ) = 256 + 14592 from by norm_num,
    Function.iterate_add_apply, poly17_acc_57]
  decide

theorem poly17_acc_59 : poly17Step^[15104] 131071 = 5457 := by
  rw [show (15104 : ℕ) = 256 + 14848 from by norm_num,
    Function.iterate_add_apply, poly17_acc_58]
  decide

theorem poly17_acc_60 : poly17Step^[15360] 131071 = 108568 := by
  rw [show (15360 : ℕ) = 256 + 15104 from by norm_num,
    Function.iterate_add_apply, poly17_acc_59]
  decide

theorem poly17_acc_61 : poly17Step^[15616] 131071 = 52160 := by
  rw [show (15616 : ℕ) = 256 + 15360 from by norm_num,
    Function.iterate_add_apply, poly17_acc_60]
  decide

theorem poly17_acc_62 : poly17Step^[15872] 131071 = 107412 := by
  rw [show (15872 : ℕ) = 256 + 15616 from by norm_num,
    Function.iterate_add_apply, poly17_acc_61]
  decide

theorem poly17_acc_63 : poly17Step^[16128] 131071 = 94281 := by
  rw [show (16128 : ℕ) = 256 + 15872 from by norm_num,
    Function.iterate_add_apply, poly17_acc_62]
  decide

theorem poly17_acc_64 : poly17Step^[16384] 131071 = 72923 := by
  rw [show (16384 : ℕ) = 256 + 16128 from by norm_num,
    Function.iterate_add_apply, poly17_acc_63]
  decide

theorem poly17_acc_65 : poly17Step^[16640] 131071 = 54879 := by
  rw [show (16640 : ℕ) = 256 + 16384 from by norm_num,
    Function.iterate_add_apply, poly17_acc_64]
  decide

theorem poly17_acc_66 : poly17Step^[16896] 131071 = 66617 := by
  rw [show (16896 : ℕ) = 256 + 16640 from by norm_num,
    Function.iterate_add_apply, poly17_acc_65]
  decide

theorem poly17_acc_67 : poly17Step^[17152] 131071 = 12580 := by
  rw [show (17152 : ℕ) = 256 + 16896 from by norm_num,
    Function.iterate_add_apply, poly17_acc_66]
  decide

theorem poly17_acc_68 : poly17Step^[17408] 131071 = 43231 := by
  rw [show (17408 : ℕ) = 256 + 17152 from by norm_num,
    Function.iterate_add_apply, poly17_acc_67]
  decide

theorem poly17_acc_69 : poly17Step^[17664] 131071 = 113371 := by
  rw [show (17664 : ℕ) = 256 + 17408 from by norm_num,
    Function.iterate_add_apply, poly17_acc_68]
  decide

theorem poly17_acc_70 : poly17Step^[17920] 131071 = 11890 := by
  rw [show (17920 : ℕ) = 256 + 17664 from by norm_num,
    Function.iterate_add_apply, poly17_acc_69]
  decide

theorem poly17_acc_71 : poly17Step^[18176] 131071 = 63795 := by
  rw [show (18176 : ℕ) = 256 + 17920 from by norm_num,
    Function.iterate_add_apply, poly17_acc_70]
  decide

theorem poly17_acc_72 : poly17Step^[18432] 131071 = 39756 := by
  rw [show (18432 : ℕ) = 256 + 18176 from by norm_num,
    Function.iterate_add_apply, poly17_acc_71]
  decide

theorem poly17_acc_73 : poly17Step^[18688] 131071 = 117856 := by
  rw [show (18688 : ℕ) = 256 + 18432 from by norm_num,
    Function.iterate_add_apply, poly17_acc_72]
  decide

theorem poly17_acc_74 : poly17Step^[18944] 131071 = 108009 := by
  rw [show (18944 : ℕ) = 256 + 18688 from by norm_num,
    Function.iterate_add_apply, poly17_acc_73]
  decide

theorem poly17_acc_75 : poly17Step^[19200] 131071 = 114723 := by
  rw [show (19200 : ℕ) = 256 + 18944 from by norm_num,
    Function.iterate_add_apply, poly17_acc_74]
  decide

theorem poly17_acc_76 : poly17Step^[19456] 131071 = 67978 := by
  rw [show (19456 : ℕ) = 256 + 19200 from by norm_num,
    Function.iterate_add_apply, poly17_acc_75]
  decide

theorem poly17_acc_77 : poly17Step^[19712] 131071 = 97863 := by
  rw [show (19712 : ℕ) = 256 + 19456 from by norm_num,
    Function.iterate_add_apply, poly17_acc_76]
  decide

theorem poly17_acc_78 : poly17Step^[19968] 131071 = 118777 := by
  rw [show (19968 : ℕ) = 256 + 19712 from by norm_num,
    Function.iterate_add_apply, poly17_acc_77]
  decide

theorem poly17_acc_79 : poly17Step^[20224] 131071 = 103088 := by
  rw [show (20224 : ℕ) = 256 + 19968 from by norm_num,
    Function.iterate_add_apply, poly17_acc_78]
  decide

theorem poly17_acc_80 : poly17Step^[20480] 131071 = 120982 := by
  rw [show (20480 : ℕ) = 256 + 20224 from by norm_num,
    Function.iterate_add_apply, poly17_acc_79]
  decide

theorem poly17_acc_81 : poly17Step^[20736] 131071 = 42496 := by
  rw [show (20736 : ℕ) = 256 + 20480 from by norm_num,
    Function.iterate_add_apply, poly17_acc_80]
  decide

theorem poly17_acc_82 : poly17Step^[20992] 131071 = 63533 := by
  rw [show (20992 : ℕ) = 256 + 20736 from by norm_num,
    Function.iterate_add_apply, poly17_acc_81]
  decide

theorem poly17_acc_83 : poly17Step^[21248] 131071 = 130314 := by
  rw [show (21248 : ℕ) = 256 + 20992 from by norm_num,
    Function.iterate_add_apply, poly17_acc_82]
  decide

theorem poly17_acc_84 : poly17Step^[21504] 131071 = 43624 := by
  rw [show (21504 : ℕ) = 256 + 21248 from by norm_num,
    Function.iterate_add_apply, poly17_acc_83]
  decide

theorem poly17_acc_85 : poly17Step^[21760] 131071 = 91327 := by
  rw [show (21760 : ℕ) = 256 + 21504 from by norm_num,
    Function.iterate_add_apply, poly17_acc_84]
  decide

theorem poly17_acc_86 : poly17Step^[22016] 131071 = 7986 := by
  rw [show (22016 : ℕ) = 256 + 21760 from by norm_num,
    Function.iterate_add_apply, poly17_acc_85]
  decide

theorem poly17_acc_87 : poly17Step^[22272] 131071 = 126545 := by
  rw [show (22272 : ℕ) = 256 + 22016 from by norm_num,
    Function.iterate_add_apply, poly17_acc_86]
  decide

theorem poly17_acc_88 : poly17Step^[22528] 131071 = 127161 := by
  rw [show (22528 : ℕ) = 256 + 22272 from by norm_num,
    Function.iterate_add_apply, poly17_acc_87]
  decide

theorem poly17_acc_89 : poly17Step^[22784] 131071 = 124171 := by
  rw [show (22784 : ℕ) = 256 + 22528 from by norm_num,
    Function.iterate_add_apply, poly17_acc_88]
  decide

theorem poly17_acc_90 : poly17Step^[23040] 131071 = 921 := by
  rw [show (23040 : ℕ) = 256 + 22784 from by norm_num,
    Function.iterate_add_apply, poly17_acc_89]
  decide

theorem poly17_acc_91 : poly17Step^[23296] 131071 = 14169 := by
  rw [show (23296 : ℕ) = 256 + 23040 from by norm_num,
    Function.iterate_add_apply, poly17_acc_90]
  decide

theorem poly17_acc_92 : poly17Step^[23552] 131071 = 6325 := by
  rw [show (23552 : ℕ) = 256 + 23296 from by norm_num,
    Function.iterate_add_apply, poly17_acc_91]
  decide

theorem poly17_acc_93 : poly17Step^[23808] 131071 = 110474 := by
  rw [show (23808 : ℕ) = 256 + 23552 from by norm_num,
    Function.iterate_add_apply, poly17_acc_92]
  decide

theorem poly17_acc_94 : poly17Step^[24064] 131071 = 99946 := by
  rw [show (24064 : ℕ) = 256 + 23808 from by norm_num,
    Function.iterate_add_apply, poly17_acc_93]
  decide

theorem poly17_acc_95 : poly17Step^[24320] 131071 = 13043 := by
  rw [show (24320 : ℕ) = 256 + 24064 from by norm_num,
    Function.iterate_add_apply, poly17_acc_94]
  decide

theorem poly17_acc_96 : poly17Step^[24576] 131071 = 80088 := by
  rw [show (24576 : ℕ) = 256 + 24320 from by norm_num,
    Function.iterate_add_apply, poly17_acc_95]
  decide

theorem poly17_acc_97 : poly17Step^[24832] 131071 = 48169 := by
  rw [show (24832 : ℕ) = 256 + 24576 from by norm_num,
    Function.iterate_add_apply, poly17_acc_96]
  decide

theorem poly17_acc_98 : poly17Step^[25088] 131071 = 47410 := by
  rw [show (25088 : ℕ) = 256 + 24832 from by norm_num,
    Function.iterate_add_apply, poly17_acc_97]
  decide

theorem poly17_acc_99 : poly17Step^[25344] 131071 = 71292 := by
  rw [show (25344 : ℕ) = 256 + 25088 from by norm_num,
    Function.iterate_add_apply, poly17_acc_98]
  decide

theorem poly17_acc_100 : poly17Step^[25600] 131071 = 3507 := by
  rw [show (25600 : ℕ) = 256 + 25344 from by norm_num,
    Function.iterate_add_apply, poly17_acc_99]
  decide

theorem poly17_acc_101 : poly17Step^[25856] 131071 = 85859 := by
  rw [show (25856 : ℕ) = 256 + 25600 from by norm_num,
    Function.iterate_add_apply, poly17_acc_100]
  decide

theorem poly17_acc_102 : poly17Step^[26112] 131071 = 91942 := by
  rw [show (26112 : ℕ) = 256 + 25856 from by norm_num,
    Function.iterate_add_apply, poly17_acc_101]
  decide

theorem poly17_acc_103 : poly17Step^[26368] 131071 = 10347 := by
  rw [show (26368 : ℕ) = 256 + 26112 from by norm_num,
    Function.iterate_add_apply, poly17_acc_102]
  decide

theorem poly17_acc_104 : poly17Step^[26624] 131071 = 128740 := by
  rw [show (26624 : ℕ) = 256 + 26368 from by norm_num,
    Function.iterate_add_apply, poly17_acc_103]
  decide

theorem poly17_acc_105 : poly17Step^[26880] 131071 = 24371 := by
  rw [show (26880 : ℕ) = 256 + 26624 from by norm_num,
    Function.iterate_add_apply, poly17_acc_104]
  decide

theorem poly17_acc_106 : poly17Step^[27136] 131071 = 25441 := by
  rw [show (27136 : ℕ) = 256 + 26880 from by norm_num,
    Function.iterate_add_apply, poly17_acc_105]
  decide

theorem poly17_acc_107 : poly17Step^[27392] 131071 = 12650 := by
  rw [show (27392 : ℕ) = 256 + 27136 from by norm_num,
    Function.iterate_add_apply, poly17_acc_106]
  decide

theorem poly17_acc_108 : poly17Step^[27648] 131071 = 69505 := by
  rw [show (27648 : ℕ) = 256 + 27392 from by norm_num,
    Function.iterate_add_apply, poly17_acc_107]
  decide

theorem poly17_acc_109 : poly17Step^[27904] 131071 = 42140 := by
  rw [show (27904 : ℕ) = 256 + 27648 from by norm_num,
    Function.iterate_add_apply, poly17_acc_108]
  decide

theorem poly17_acc_110 : poly17Step^[28160] 131071 = 71352 := by
  rw [show (28160 : ℕ) = 256 + 27904 from by norm_num,
    Function.iterate_add_apply, poly17_acc_109]
  decide

theorem poly17_acc_111 : poly17Step^[28416] 131071 = 36886 := by
  rw [show (28416 : ℕ) = 256 + 28160 from by norm_num,
    Function.iterate_add_apply, poly17_acc_110]
  decide

theorem poly17_acc_112 : poly17Step^[28672] 131071 = 16192 := by
  rw [show (28672 : ℕ) = 256 + 28416 from by norm_num,
    Function.iterate_add_apply, poly17_acc_111]
  decide

theorem poly17_acc_113 : poly17Step^[28928] 131071 = 30651 := by
  rw [show (28928 : ℕ) = 256 + 28672 from by norm_num,
    Function.iterate_add_apply, poly17_acc_112]
  decide

theorem poly17_acc_114 : poly17Step^[29184] 131071 = 121615 := by
  rw [show (29184 : ℕ) = 256 + 28928 from by norm_num,
    Function.iterate_add_apply, poly17_acc_113]
  decide

theorem poly17_acc_115 : poly17Step^[29440] 131071 = 37209 := by
  rw [show (29440 : ℕ) = 256 + 29184 from by norm_num,
    Function.iterate_add_apply, poly17_acc_114]
  decide

theorem poly17_acc_116 : poly17Step^[29696] 131071 = 57496 := by
  rw [show (29696 : ℕ) = 256 + 29440 from by norm_num,
    Function.iterate_add_apply, poly17_acc_115]
  decide

theorem poly17_acc_117 : poly17Step^[29952] 131071 = 21120 := by
  rw [show (29952 : ℕ) = 256 + 29696 from by norm_num,
    Function.iterate_add_apply, poly17_acc_116]
  decide

theorem poly17_acc_118 : poly17Step^[30208] 131071 = 76802 := by
  rw [show (30208 : ℕ) = 256 + 29952 from by norm_num,
    Function.iterate_add_apply, poly17_acc_117]
  decide

theorem poly17_acc_119 : poly17Step^[30464] 131071 = 87628 := by
  rw [show (30464 : ℕ) = 256 + 30208 from by norm_num,
    Function.iterate_add_apply, poly17_acc_118]
  decide

theorem poly17_acc_120 : poly17Step^[30720] 131071 = 75754 := by
  rw [show (30720 : ℕ) = 256 + 30464 from by norm_num,
    Function.iterate_add_apply, poly17_acc_119]
  decide

theorem poly17_acc_121 : poly17Step^[30976] 131071 = 86648 := by
  rw [show (30976 : ℕ) = 256 + 30720 from by norm_num,
    Function.iterate_add_apply, poly17_acc_120]
  decide

theorem poly17_acc_122 : poly17Step^[31232] 131071 = 84363 := by
  rw [show (31232 : ℕ) = 256 + 30976 from by norm_num,
    Function.iterate_add_apply, poly17_acc_121]
  decide

theorem poly17_acc_123 : poly17Step^[31488] 131071 = 62327 := by
  rw [show (31488 : ℕ) = 256 + 31232 from by norm_num,
    Function.iterate_add_apply, poly17_acc_122]
  decide

theorem poly17_acc_124 : poly17Step^[31744] 131071 = 3626 := by
  rw [show (31744 : ℕ) = 256 + 31488 from by norm_num,
    Function.iterate_add_apply, poly17_acc_123]
  decide

theorem poly17_acc_125 : poly17Step^[32000] 131071 = 96314 := by
  rw [show (32000 : ℕ) = 256 + 31744 from by norm_num,
    Function.iterate_add_apply, poly17_acc_124]
  decide

theorem poly17_acc_126 : poly17Step^[32256] 131071 = 98195 := by
  rw [show (32256 : ℕ) = 256 + 32000 from by norm_num,
    Function.iterate_add_apply, poly17_acc_125]
  decide

theorem poly17_acc_127 : poly17Step^[32512] 131071 = 100321 := by
  rw [show (32512 : ℕ) = 256 + 32256 from by norm_num,
    Function.iterate_add_apply, poly17_acc_126]
  decide

theorem poly17_acc_128 : poly17Step^[32768] 131071 = 28814 := by
  rw [show (32768 : ℕ) = 256 + 32512 from by norm_num,
    Function.iterate_add_apply, poly17_acc_127]
  decide

theorem poly17_acc_129 : poly17Step^[33024] 131071 = 28096 := by
  rw [show (33024 : ℕ) = 256 + 32768 from by norm_num,
    Function.iterate_add_apply, poly17_acc_128]
  decide

theorem poly17_acc_130 : poly17Step^[33280] 131071 = 89017 := by
  rw [show (33280 : ℕ) = 256 + 33024 from by norm_num,
    Function.iterate_add_apply, poly17_acc_129]
  decide

theorem poly17_acc_131 : poly17Step^[33536] 131071 = 36163 := by
  rw [show (33536 : ℕ) = 256 + 33280 from by norm_num,
    Function.iterate_add_apply, poly17_acc_130]
  decide

theorem poly17_acc_132 : poly17Step^[33792] 131071 = 112307 := by
  rw [show (33792 : ℕ) = 256 + 33536 from by norm_num,
    Function.iterate_add_apply, poly17_acc_131]
  decide

theorem poly17_acc_133 : poly17Step^[34048] 131071 = 111328 := by
  rw [show (34048 : ℕ) = 256 + 33792 from by norm_num,
    Function.iterate_add_apply, poly17_acc_132]
  decide

theorem poly17_acc_134 : poly17Step^[34304] 131071 = 72459 := by
  rw [show (34304 : ℕ) = 256 + 34048 from by norm_num,
    Function.iterate_add_apply, poly17_acc_133]
  decide

theorem poly17_acc_135 : poly17Step^[34560] 131071 = 122741 := by
  rw [show (34560 : ℕ) = 256 + 34304 from by norm_num,
    Function.iterate_add_apply, poly17_acc_134]
  decide

theorem poly17_acc_136 : poly17Step^[34816] 131071 = 88166 := by
  rw [show (34816 : ℕ) = 256 + 34560 from by norm_num,
    Function.iterate_add_apply, poly17_acc_135]
  decide

theorem poly17_acc_137 : poly17Step^[35072] 131071 = 24528 := by
  rw [show (35072 : ℕ) = 256 + 34816 from by norm_num,
    Function.iterate_add_apply, poly17_acc_136]
  decide

theorem poly17_acc_138 : poly17Step^[35328] 131071 = 11755 := by
  rw [show (35328 : ℕ) = 256 + 35072 from by norm_num,
    Function.iterate_add_apply, poly17_acc_137]
  decide

theorem poly17_acc_139 : poly17Step^[35584] 131071 = 52842 := by
  rw [show (35584 : ℕ) = 256 + 35328 from by norm_num,
    Function.iterate_add_apply, poly17_acc_138]
  decide

theorem poly17_acc_140 : poly17Step^[35840] 131071 = 33785 := by
  rw [show (35840 : ℕ) = 256 + 35584 from by norm_num,
    Function.iterate_add_apply, poly17_acc_139]
  decide

theorem poly17_acc_141 : poly17Step^[36096] 131071 = 25578 := by
  rw [show (36096 : ℕ) = 256 + 35840 from by norm_num,
    Function.iterate_add_apply, poly17_acc_140]
  decide

theorem poly17_acc_142 : poly17Step^[36352] 131071 = 9091 := by
  rw [show (36352 : ℕ) = 256 + 36096 from by norm_num,
    Function.iterate_add_apply, poly17_acc_141]
  decide

theorem poly17_acc_143 : poly17Step^[36608] 131071 = 127696 := by
  rw [show (36608 : ℕ) = 256 + 36352 from by norm_num,
    Function.iterate_add_apply, poly17_acc_142]
  decide

theorem poly17_acc_144 : poly17Step^[36864] 131071 = 12626 := by
  rw [show (36864 : ℕ) = 256 + 36608 from by norm_num,
    Function.iterate_add_apply, poly17_acc_143]
  decide

theorem poly17_acc_145 : poly17Step^[37120] 131071 = 115310 := by
  rw [show (37120 : ℕ) = 256 + 36864 from by norm_num,
    Function.iterate_add_apply, poly17_acc_144]
  decide

theorem poly17_acc_146 : poly17Step^[37376] 131071 = 95947 := by
  rw [show (37376 : ℕ) = 256 + 37120 from by norm_num,
    Function.iterate_add_apply, poly17_acc_145]
  decide

theorem poly17_acc_147 : poly17Step^[37632] 131071 = 33996 := by
  rw [show (37632 : ℕ) = 256 + 37376 from by norm_num,
    Function.iterate_add_apply, poly17_acc_146]
  decide

theorem poly17_acc_148 : poly17Step^[37888] 131071 = 120101 := by
  rw [show (37888 : ℕ) = 256 + 37632 from by norm_num,
    Function.iterate_add_apply, poly17_acc_147]
  decide

theorem poly17_acc_149 : poly17Step^[38144] 131071 = 125283 := by
  rw [show (38144 : ℕ) = 256 + 37888 from by norm_num,
    Function.iterate_add_apply, poly17_acc_148]
  decide

theorem poly17_acc_150 : poly17Step^[38400] 131071 = 106251 := by
  rw [show (38400 : ℕ) = 256 + 38144 from by norm_num,
    Function.iterate_add_apply, poly17_acc_149]
  decide

theorem poly17_acc_151 : poly17Step^[38656] 131071 = 120161 := by
  rw [show (38656 : ℕ) = 256 + 38400 from by norm_num,
    Function.iterate_add_apply, poly17_acc_150]
  decide

theorem poly17_acc_152 : poly17Step^[38912] 131071 = 89228 := by
  rw [show (38912 : ℕ) = 256 + 38656 from by norm_num,
    Function.iterate_add_apply, poly17_acc_151]
  decide

theorem poly17_acc_153 : poly17Step^[39168] 131071 = 80780 := by
  rw [show (39168 : ℕ) = 256 + 38912 from by norm_num,
    Function.iterate_add_apply, poly17_acc_152]
  decide

theorem poly17_acc_154 : poly17Step^[39424] 131071 = 31827 := by
  rw [show (39424 : ℕ) = 256 + 39168 from by norm_num,
    Function.iterate_add_apply, poly17_acc_153]
  decide

theorem poly17_acc_155 : poly17Step^[39680] 131071 = 122683 := by
  rw [show (39680 : ℕ) = 256 + 39424 from by norm_num,
    Function.iterate_add_apply, poly17_acc_154]
  decide

theorem poly17_acc_156 : poly17Step^[39936] 131071 = 65336 := by
  rw [show (39936 : ℕ) = 256 + 39680 from by norm_num,
    Function.iterate_add_apply, poly17_acc_155]
  decide

theorem poly17_acc_157 : poly17Step^[40192] 131071 = 82327 := by
  rw [show (40192 : ℕ) = 256 + 39936 from by norm_num,
    Function.iterate_add_apply, poly17_acc_156]
  decide

theorem poly17_acc_158 : poly17Step^[40448] 131071 = 70945 := by
  rw [show (40448 : ℕ) = 256 + 40192 from by norm_num,
    Function.iterate_add_apply, poly17_acc_157]
  decide

theorem poly17_acc_159 : poly17Step^[40704] 131071 = 42831 := by
  rw [show (40704 : ℕ) = 256 + 40448 from by norm_num,
    Function.iterate_add_apply, poly17_acc_158]
  decide

theorem poly17_acc_160 : poly17Step^[40960] 131071 = 10229 := by
  rw [show (40960 : ℕ) = 256 + 40704 from by norm_num,
    Function.iterate_add_apply, poly17_acc_159]
  decide

theorem poly17_acc_161 : poly17Step^[41216] 131071 = 120881 := by
  rw [show (41216 : ℕ) = 256 + 40960 from by norm_num,
    Function.iterate_add_apply, poly17_acc_160]
  decide

theorem poly17_acc_162 : poly17Step^[41472] 131071 = 23909 := by
  rw [show (41472 : ℕ) = 256 + 41216 from by norm_num,
    Function.iterate_add_apply, poly17_acc_161]
  decide

theorem poly17_acc_163 : poly17Step^[41728] 131071 = 41898 := by
  rw [show (41728 : ℕ) = 256 + 41472 from by norm_num,
    Function.iterate_add_apply, poly17_acc_162]
  decide

theorem poly17_acc_164 : poly17Step^[41984] 131071 = 120896 := by
  rw [show (41984 : ℕ) = 256 + 41728 from by norm_num,
    Function.iterate_add_apply, poly17_acc_163]
  decide

theorem poly17_acc_165 : poly17Step^[42240] 131071 = 61097 := by
  rw [show (42240 : ℕ) = 256 + 41984 from by norm_num,
    Function.iterate_add_apply, poly17_acc_164]
  decide

theorem poly17_acc_166 : poly17Step^[42496] 131071 = 103728 := by
  rw [show (42496 : ℕ) = 256 + 42240 from by norm_num,
    Function.iterate_add_apply, poly17_acc_165]
  decide

theorem poly17_acc_167 : poly17Step^[42752] 131071 = 16432 := by
  rw [show (42752 : ℕ) = 256 + 42496 from by norm_num,
    Function.iterate_add_apply, poly17_acc_166]
  decide

theorem poly17_acc_168 : poly17Step^[43008] 131071 = 76377 := by
  rw [show (43008 : ℕ) = 256 + 42752 from by norm_num,
    Function.iterate_add_apply, poly17_acc_167]
  decide

theorem poly17_acc_169 : poly17Step^[43264] 131071 = 7451 := by
  rw [show (43264 : ℕ) = 256 + 43008 from by norm_num,
    Function.iterate_add_apply, poly17_acc_168]
  decide

theorem poly17_acc_170 : poly17Step^[43520] 131071 = 11949 := by
  rw [show (43520 : ℕ) = 256 + 43264 from by norm_num,
    Function.iterate_add_apply, poly17_acc_169]
  decide

theorem poly17_acc_171 : poly17Step^[43776] 131071 = 56092 := by
  rw [show (43776 : ℕ) = 256 + 43520 from by norm_num,
    Function.iterate_add_apply, poly17_acc_170]
  decide

theorem poly17_acc_172 : poly17Step^[44032] 131071 = 129230 := by
  rw [show (44032 : ℕ) = 256 + 43776 from by norm_num,
    Function.iterate_add_apply, poly17_acc_171]
  decide

theorem poly17_acc_173 : poly17Step^[44288] 131071 = 75529 := by
  rw [show (44288 : ℕ) = 256 + 44032 from by norm_num,
    Function.iterate_add_apply, poly17_acc_172]
  decide

theorem poly17_acc_174 : poly17Step^[44544] 131071 = 72946 := by
  rw [show (44544 : ℕ) = 256 + 44288 from by norm_num,
    Function.iterate_add_apply, poly17_acc_173]
  decide

theorem poly17_acc_175 : poly17Step^[44800] 131071 = 112267 := by
  rw [show (44800 : ℕ) = 256 + 44544 from by norm_num,
    Function.iterate_add_apply, poly17_acc_174]
  decide

theorem poly17_acc_176 : poly17Step^[45056] 131071 = 98063 := by
  rw [show (45056 : ℕ) = 256 + 44800 from by norm_num,
    Function.iterate_add_apply, poly17_acc_175]
  decide

theorem poly17_acc_177 : poly17Step^[45312] 131071 = 51548 := by
  rw [show (45312 : ℕ) = 256 + 45056 from by norm_num,
    Function.iterate_add_apply, poly17_acc_176]
  decide

theorem poly17_acc_178 : poly17Step^[45568] 131071 = 19713 := by
  rw [show (45568 : ℕ) = 256 + 45312 from by norm_num,
    Function.iterate_add_apply, poly17_acc_177]
  decide

theorem poly17_acc_179 : poly17Step^[45824] 131071 = 7509 := by
  rw [show (45824 : ℕ) = 256 + 45568 from by norm_num,
    Function.iterate_add_apply, poly17_acc_178]
  decide

theorem poly17_acc_180 : poly17Step^[46080] 131071 = 100851 := by
  rw [show (46080 : ℕ) = 256 + 45824 from by norm_num,
    Function.iterate_add_apply, poly17_acc_179]
  decide

theorem poly17_acc_181 : poly17Step^[46336] 131071 = 116059 := by
  rw [show (46336 : ℕ) = 256 + 46080 from by norm_num,
    Function.iterate_add_apply, poly17_acc_180]
  decide

theorem poly17_acc_182 : poly17Step^[46592] 131071 = 49156 := by
  rw [show (46592 : ℕ) = 256 + 46336 from by norm_num,
    Function.iterate_add_apply, poly17_acc_181]
  decide

theorem poly17_acc_183 : poly17Step^[46848] 131071 = 85548 := by
  rw [show (46848 : ℕ) = 256 + 46592 from by norm_num,
    Function.iterate_add_apply, poly17_acc_182]
  decide

theorem poly17_acc_184 : poly17Step^[47104] 131071 = 112894 := by
  rw [show (47104 : ℕ) = 256 + 46848 from by norm_num,
    Function.iterate_add_apply, poly17_acc_183]
  decide

theorem poly17_acc_185 : poly17Step^[47360] 131071 = 3408 := by
  rw [show (47360 : ℕ) = 256 + 47104 from by norm_num,
    Function.iterate_add_apply, poly17_acc_184]
  decide

theorem poly17_acc_186 : poly17Step^[47616] 131071 = 66025 := by
  rw [show (47616 : ℕ) = 256 + 47360 from by norm_num,
    Function.iterate_add_apply, poly17_acc_185]
  decide

theorem poly17_acc_187 : poly17Step^[47872] 131071 = 104486 := by
  rw [show (47872 : ℕ) = 256 + 47616 from by norm_num,
    Function.iterate_add_apply, poly17_acc_186]
  decide

theorem poly17_acc_188 : poly17Step^[48128] 131071 = 107539 := by
  rw [show (48128 : ℕ) = 256 + 47872 from by norm_num,
    Function.iterate_add_apply, poly17_acc_187]
  decide

theorem poly17_acc_189 : poly17Step^[48384] 131071 = 78226 := by
  rw [show (48384 : ℕ) = 256 + 48128 from by norm_num,
    Function.iterate_add_apply, poly17_acc_188]
  decide

theorem poly17_acc_190 : poly17Step^[48640] 131071 = 92680 := by
  rw [show (48640 : ℕ) = 256 + 48384 from by norm_num,
    Function.iterate_add_apply, poly17_acc_189]
  decide

theorem poly17_acc_191 : poly17Step^[48896] 131071 = 65959 := by
  rw [show (48896 : ℕ) = 256 + 48640 from by norm_num,
    Function.iterate_add_apply, poly17_acc_190]
  decide

theorem poly17_acc_192 : poly17Step^[49152] 131071 = 16248 := by
  rw [show (49152 : ℕ) = 256 + 48896 from by norm_num,
    Function.iterate_add_apply, poly17_acc_191]
  decide

theorem poly17_acc_193 : poly17Step^[49408] 131071 = 47700 := by
  rw [show (49408 : ℕ) = 256 + 49152 from by norm_num,
    Function.iterate_add_apply, poly17_acc_192]
  decide

theorem poly17_acc_194 : poly17Step^[49664] 131071 = 2392 := by
  rw [show (49664 : ℕ) = 256 + 49408 from by norm_num,
    Function.iterate_add_apply, poly17_acc_193]
  decide

theorem poly17_acc_195 : poly17Step^[49920] 131071 = 66349 := by
  rw [show (49920 : ℕ) = 256 + 49664 from by norm_num,
    Function.iterate_add_apply, poly17_acc_194]
  decide

theorem poly17_acc_196 : poly17Step^[50176] 131071 = 107947 := by
  rw [show (50176 : ℕ) = 256 + 49920 from by norm_num,
    Function.iterate_add_apply, poly17_acc_195]
  decide

theorem poly17_acc_197 : poly17Step^[50432] 131071 = 99491 := by
  rw [show (50432 : ℕ) = 256 + 50176 from by norm_num,
    Function.iterate_add_apply, poly17_acc_196]
  decide

theorem poly17_acc_198 : poly17Step^[50688] 131071 = 50354 := by
  rw [show (50688 : ℕ) = 256 + 50432 from by norm_num,
    Function.iterate_add_apply, poly17_acc_197]
  decide

theorem poly17_acc_199 : poly17Step^[50944] 131071 = 88098 := by
  rw [show (50944 : ℕ) = 256 + 50688 from by norm_num,
    Function.iterate_add_apply, poly17_acc_198]
  decide

theorem poly17_acc_200 : poly17Step^[51200] 131071 = 59967 := by
  rw [show (51200 : ℕ) = 256 + 50944 from by norm_num,
    Function.iterate_add_apply, poly17_acc_199]
  decide

theorem poly17_acc_201 : poly17Step^[51456] 131071 = 35180 := by
  rw [show (51456 : ℕ) = 256 + 51200 from by norm_num,
    Function.iterate_add_apply, poly17_acc_200]
  decide

theorem poly17_acc_202 : poly17Step^[51712] 131071 = 91992 := by
  rw [show (51712 : ℕ) = 256 + 51456 from by norm_num,
    Function.iterate_add_apply, poly17_acc_201]
  decide

theorem poly17_acc_203 : poly17Step^[51968] 131071 = 78 := by
  rw [show (51968 : ℕ) = 256 + 51712 from by norm_num,
    Function.iterate_add_apply, poly17_acc_202]
  decide

theorem poly17_acc_204 : poly17Step^[52224] 131071 = 108382 := by
  rw [show (52224 : ℕ) = 256 + 51968 from by norm_num,
    Function.iterate_add_apply, poly17_acc_203]
  decide

theorem poly17_acc_205 : poly17Step^[52480] 131071 = 73287 := by
  rw [show (52480 : ℕ) = 256 + 52224 from by norm_num,
    Function.iterate_add_apply, poly17_acc_204]
  decide

theorem poly17_acc_206 : poly17Step^[52736] 131071 = 80074 := by
  rw [show (52736 : ℕ) = 256 + 52480 from by norm_num,
    Function.iterate_add_apply, poly17_acc_205]
  decide

theorem poly17_acc_207 : poly17Step^[52992] 131071 = 26917 := by
  rw [show (52992 : ℕ) = 256 + 52736 from by norm_num,
    Function.iterate_add_apply, poly17_acc_206]
  decide

theorem poly17_acc_208 : poly17Step^[53248] 131071 = 41996 := by
  rw [show (53248 : ℕ) = 256 + 52992 from by norm_num,
    Function.iterate_add_apply, poly17_acc_207]
  decide

theorem poly17_acc_209 : poly17Step^[53504] 131071 = 113627 := by
  rw [show (53504 : ℕ) = 256 + 53248 from by norm_num,
    Function.iterate_add_apply, poly17_acc_208]
  decide

theorem poly17_acc_210 : poly17Step^[53760] 131071 = 32486 := by
  rw [show (53760 : ℕ) = 256 + 53504 from by norm_num,
    Function.iterate_add_apply, poly17_acc_209]
  decide

theorem poly17_acc_211 : poly17Step^[54016] 131071 = 86394 := by
  rw [show (54016 : ℕ) = 256 + 53760 from by norm_num,
    Function.iterate_add_apply, poly17_acc_210]
  decide

theorem poly17_acc_212 : poly17Step^[54272] 131071 = 125202 := by
  rw [show (54272 : ℕ) = 256 + 54016 from by norm_num,
    Function.iterate_add_apply, poly17_acc_211]
  decide

theorem poly17_acc_213 : poly17Step^[54528] 131071 = 76999 := by
  rw [show (54528 : ℕ) = 256 + 54272 from by norm_num,
    Function.iterate_add_apply, poly17_acc_212]
  decide

theorem poly17_acc_214 : poly17Step^[54784] 131071 = 58363 := by
  rw [show (54784 : ℕ) = 256 + 54528 from by norm_num,
    Function.iterate_add_apply, poly17_acc_213]
  decide

theorem poly17_acc_215 : poly17Step^[55040] 131071 = 50428 := by
  rw [show (55040 : ℕ) = 256 + 54784 from by norm_num,
    Function.iterate_add_apply, poly17_acc_214]
  decide

theorem poly17_acc_216 : poly17Step^[55296] 131071 = 65404 := by
  rw [show (55296 : ℕ) = 256 + 55040 from by norm_num,
    Function.iterate_add_apply, poly17_acc_215]
  decide

theorem poly17_acc_217 : poly17Step^[55552] 131071 = 128120 := by
  rw [show (55552 : ℕ) = 256 + 55296 from by norm_num,
    Function.iterate_add_apply, poly17_acc_216]
  decide

theorem poly17_acc_218 : poly17Step^[55808] 131071 = 111014 := by
  rw [show (55808 : ℕ) = 256 + 55552 from by norm_num,
    Function.iterate_add_apply, poly17_acc_217]
  decide

theorem poly17_acc_219 : poly17Step^[56064] 131071 = 69245 := by
  rw [show (56064 : ℕ) = 256 + 55808 from by norm_num,
    Function.iterate_add_apply, poly17_acc_218]
  decide

theorem poly17_acc_220 : poly17Step^[56320] 131071 = 42050 := by
  rw [show (56320 : ℕ) = 256 + 56064 from by norm_num,
    Function.iterate_add_apply, poly17_acc_219]
  decide

theorem poly17_acc_221 : poly17Step^[56576] 131071 = 7301 := by
  rw [show (56576 : ℕ) = 256 + 56320 from by norm_num,
    Function.iterate_add_apply, poly17_acc_220]
  decide

theorem poly17_acc_222 : poly17Step^[56832] 131071 = 90273 := by
  rw [show (56832 : ℕ) = 256 + 56576 from by norm_num,
    Function.iterate_add_apply, poly17_acc_221]
  decide

theorem poly17_acc_223 : poly17Step^[57088] 131071 = 27056 := by
  rw [show (57088 : ℕ) = 256 + 56832 from by norm_num,
    Function.iterate_add_apply, poly17_acc_222]
  decide

theorem poly17_acc_224 : poly17Step^[57344] 131071 = 98359 := by
  rw [show (57344 : ℕ) = 256 + 57088 from by norm_num,
    Function.iterate_add_apply, poly17_acc_223]
  decide

theorem poly17_acc_225 : poly17Step^[57600] 131071 = 100555 := by
  rw [show (57600 : ℕ) = 256 + 57344 from by norm_num,
    Function.iterate_add_apply, poly17_acc_224]
  decide

theorem poly17_acc_226 : poly17Step^[57856] 131071 = 88096 := by
  rw [show (57856 : ℕ) = 256 + 57600 from by norm_num,
    Function.iterate_add_apply, poly17_acc_225]
  decide

theorem poly17_acc_227 : poly17Step^[58112] 131071 = 47642 := by
  rw [show (58112 : ℕ) = 256 + 57856 from by norm_num,
    Function.iterate_add_apply, poly17_acc_226]
  decide

theorem poly17_acc_228 : poly17Step^[58368] 131071 = 110086 := by
  rw [show (58368 : ℕ) = 256 + 58112 from by norm_num,
    Function.iterate_add_apply, poly17_acc_227]
  decide

theorem poly17_acc_229 : poly17Step^[58624] 131071 = 7530 := by
  rw [show (58624 : ℕ) = 256 + 58368 from by norm_num,
    Function.iterate_add_apply, poly17_acc_228]
  decide

theorem poly17_acc_230 : poly17Step^[58880] 131071 = 40289 := by
  rw [show (58880 : ℕ) = 256 + 58624 from by norm_num,
    Function.iterate_add_apply, poly17_acc_229]
  decide

theorem poly17_acc_231 : poly17Step^[59136] 131071 = 126342 := by
  rw [show (59136 : ℕ) = 256 + 58880 from by norm_num,
    Function.iterate_add_apply, poly17_acc_230]
  decide

theorem poly17_acc_232 : poly17Step^[59392] 131071 = 24766 := by
  rw [show (59392 : ℕ) = 256 + 59136 from by norm_num,
    Function.iterate_add_apply, poly17_acc_231]
  decide

theorem poly17_acc_233 : poly17Step^[59648] 131071 = 58361 := by
  rw [show (59648 : ℕ) = 256 + 59392 from by norm_num,
    Function.iterate_add_apply, poly17_acc_232]
  decide

theorem poly17_acc_234 : poly17Step^[59904] 131071 = 38105 := by
  rw [show (59904 : ℕ) = 256 + 59648 from by norm_num,
    Function.iterate_add_apply, poly17_acc_233]
  decide

theorem poly17_acc_235 : poly17Step^[60160] 131071 = 120854 := by
  rw [show (60160 : ℕ) = 256 + 59904 from by norm_num,
    Function.iterate_add_apply, poly17_acc_234]
  decide

theorem poly17_acc_236 : poly17Step^[60416] 131071 = 36426 := by
  rw [show (60416 : ℕ) = 256 + 60160 from by norm_num,
    Function.iterate_add_apply, poly17_acc_235]
  decide

theorem poly17_acc_237 : poly17Step^[60672] 131071 = 76937 := by
  rw [show (60672 : ℕ) = 256 + 60416 from by norm_num,
    Function.iterate_add_apply, poly17_acc_236]
  decide

theorem poly17_acc_238 : poly17Step^[60928] 131071 = 83109 := by
  rw [show (60928 : ℕ) = 256 + 60672 from by norm_num,
    Function.iterate_add_apply, poly17_acc_237]
  decide

theorem poly17_acc_239 : poly17Step^[61184] 131071 = 121531 := by
  rw [show (61184 : ℕ) = 256 + 60928 from by norm_num,
    Function.iterate_add_apply, poly17_acc_238]
  decide

theorem poly17_acc_240 : poly17Step^[61440] 131071 = 116662 := by
  rw [show (61440 : ℕ) = 256 + 61184 from by norm_num,
    Function.iterate_add_apply, poly17_acc_239]
  decide

theorem poly17_acc_241 : poly17Step^[61696] 131071 = 105821 := by
  rw [show (61696 : ℕ) = 256 + 61440 from by norm_num,
    Function.iterate_add_apply, poly17_acc_240]
  decide

theorem poly17_acc_242 : poly17Step^[61952] 131071 = 71082 := by
  rw [show (61952 : ℕ) = 256 + 61696 from by norm_num,
    Function.iterate_add_apply, poly17_acc_241]
  decide

theorem poly17_acc_243 : poly17Step^[62208] 131071 = 46502 := by
  rw [show (62208 : ℕ) = 256 + 61952 from by norm_num,
    Function.iterate_add_apply, poly17_acc_242]
  decide

theorem poly17_acc_244 : poly17Step^[62464] 131071 = 55972 := by
  rw [show (62464 : ℕ) = 256 + 62208 from by norm_num,
    Function.iterate_add_apply, poly17_acc_243]
  decide

theorem poly17_acc_245 : poly17Step^[62720] 131071 = 85503 := by
  rw [show (62720 : ℕ) = 256 + 62464 from by norm_num,
    Function.iterate_add_apply, poly17_acc_244]
  decide

theorem poly17_acc_246 : poly17Step^[62976] 131071 = 35251 := by
  rw [show (62976 : ℕ) = 256 + 62720 from by norm_num,
    Function.iterate_add_apply, poly17_acc_245]
  decide

theorem poly17_acc_247 : poly17Step^[63232] 131071 = 83319 := by
  rw [show (63232 : ℕ) = 256 + 62976 from by norm_num,
    Function.iterate_add_apply, poly17_acc_246]
  decide

theorem poly17_acc_248 : poly17Step^[63488] 131071 = 91084 := by
  rw [show (63488 : ℕ) = 256 + 63232 from by norm_num,
    Function.iterate_add_apply, poly17_acc_247]
  decide

theorem poly17_acc_249 : poly17Step^[63744] 131071 = 85047 := by
  rw [show (63744 : ℕ) = 256 + 63488 from by norm_num,
    Function.iterate_add_apply, poly17_acc_248]
  decide

theorem poly17_acc_250 : poly17Step^[64000] 131071 = 108380 := by
  rw [show (64000 : ℕ) = 256 + 63744 from by norm_num,
    Function.iterate_add_apply, poly17_acc_249]
  decide

theorem poly17_acc_251 : poly17Step^[64256] 131071 = 85602 := by
  rw [show (64256 : ℕ) = 256 + 64000 from by norm_num,
    Function.iterate_add_apply, poly17_acc_250]
  decide

theorem poly17_acc_252 : poly17Step^[64512] 131071 = 8096 := by
  rw [show (64512 : ℕ) = 256 + 64256 from by norm_num,
    Function.iterate_add_apply, poly17_acc_251]
  decide

theorem poly17_acc_253 : poly17Step^[64768] 131071 = 70423 := by
  rw [show (64768 : ℕ) = 256 + 64512 from by norm_num,
    Function.iterate_add_apply, poly17_acc_252]
  decide

theorem poly17_acc_254 : poly17Step^[65024] 131071 = 14627 := by
  rw [show (65024 : ℕ) = 256 + 64768 from by norm_num,
    Function.iterate_add_apply, poly17_acc_253]
  decide

theorem poly17_acc_255 : poly17Step^[65280] 131071 = 127235 := by
  rw [show (65280 : ℕ) = 256 + 65024 from by norm_num,
    Function.iterate_add_apply, poly17_acc_254]
  decide

theorem poly17_acc_256 : poly17Step^[65536] 131071 = 65567 := by
  rw [show (65536 : ℕ) = 256 + 65280 from by norm_num,
    Function.iterate_add_apply, poly17_acc_255]
  decide

theorem poly17_acc_257 : poly17Step^[65792] 131071 = 35401 := by
  rw [show (65792 : ℕ) = 256 + 65536 from by norm_num,
    Function.iterate_add_apply, poly17_acc_256]
  decide

theorem poly17_acc_258 : poly17Step^[66048] 131071 = 70894 := by
  rw [show (66048 : ℕ) = 256 + 65792 from by norm_num,
    Function.iterate_add_apply, poly17_acc_257]
  decide

theorem poly17_acc_259 : poly17Step^[66304] 131071 = 20701 := by
  rw [show (66304 : ℕ) = 256 + 66048 from by norm_num,
    Function.iterate_add_apply, poly17_acc_258]
  decide

theorem poly17_acc_260 : poly17Step^[66560] 131071 = 120426 := by
  rw [show (66560 : ℕ) = 256 + 66304 from by norm_num,
    Function.iterate_add_apply, poly17_acc_259]
  decide

theorem poly17_acc_261 : poly17Step^[66816] 131071 = 104083 := by
  rw [show (66816 : ℕ) = 256 + 66560 from by norm_num,
    Function.iterate_add_apply, poly17_acc_260]
  decide

theorem poly17_acc_262 : poly17Step^[67072] 131071 = 60067 := by
  rw [show (67072 : ℕ) = 256 + 66816 from by norm_num,
    Function.iterate_add_apply, poly17_acc_261]
  decide

theorem poly17_acc_263 : poly17Step^[67328] 131071 = 116689 := by
  rw [show (67328 : ℕ) = 256 + 67072 from by norm_num,
    Function.iterate_add_apply, poly17_acc_262]
  decide

theorem poly17_acc_264 : poly17Step^[67584] 131071 = 88791 := by
  rw [show (67584 : ℕ) = 256 + 67328 from by norm_num,
    Function.iterate_add_apply, poly17_acc_263]
  decide

theorem poly17_acc_265 : poly17Step^[67840] 131071 = 28891 := by
  rw [show (67840 : ℕ) = 256 + 67584 from by norm_num,
    Function.iterate_add_apply, poly17_acc_264]
  decide

theorem poly17_acc_266 : poly17Step^[68096] 131071 = 95508 := by
  rw [show (68096 : ℕ) = 256 + 67840 from by norm_num,
    Function.iterate_add_apply, poly17_acc_265]
  decide

theorem poly17_acc_267 : poly17Step^[68352] 131071 = 22111 := by
  rw [show (68352 : ℕ) = 256 + 68096 from by norm_num,
    Function.iterate_add_apply, poly17_acc_266]
  decide

theorem poly17_acc_268 : poly17Step^[68608] 131071 = 20093 := by
  rw [show (68608 : ℕ) = 256 + 68352 from by norm_num,
    Function.iterate_add_apply, poly17_acc_267]
  decide

theorem poly17_acc_269 : poly17Step^[68864] 131071 = 38377 := by
  rw [show (68864 : ℕ) = 256 + 68608 from by norm_num,
    Function.iterate_add_apply, poly17_acc_268]
  decide

theorem poly17_acc_270 : poly17Step^[69120] 131071 = 2041 := by
  rw [show (69120 : ℕ) = 256 + 68864 from by norm_num,
    Function.iterate_add_apply, poly17_acc_269]
  decide

theorem poly17_acc_271 : poly17Step^[69376] 131071 = 27134 := by
  rw [show (69376 : ℕ) = 256 + 69120 from by norm_num,
    Function.iterate_add_apply, poly17_acc_270]
  decide

theorem poly17_acc_272 : poly17Step^[69632] 131071 = 10089 := by
  rw [show (69632 : ℕ) = 256 + 69376 from by norm_num,
    Function.iterate_add_apply, poly17_acc_271]
  decide

theorem poly17_acc_273 : poly17Step^[69888] 131071 = 38540 := by
  rw [show (69888 : ℕ) = 256 + 69632 from by norm_num,
    Function.iterate_add_apply, poly17_acc_272]
  decide

theorem poly17_acc_274 : poly17Step^[70144] 131071 = 24810 := by
  rw [show (70144 : ℕ) = 256 + 69888 from by norm_num,
    Function.iterate_add_apply, poly17_acc_273]
  decide

theorem poly17_acc_275 : poly17Step^[70400] 131071 = 54079 := by
  rw [show (70400 : ℕ) = 256 + 70144 from by norm_num,
    Function.iterate_add_apply, poly17_acc_274]
  decide

theorem poly17_acc_276 : poly17Step^[70656] 131071 = 68106 := by
  rw [show (70656 : ℕ) = 256 + 70400 from by norm_num,
    Function.iterate_add_apply, poly17_acc_275]
  decide

theorem poly17_acc_277 : poly17Step^[70912] 131071 = 108209 := by
  rw [show (70912 : ℕ) = 256 + 70656 from by norm_num,
    Function.iterate_add_apply, poly17_acc_276]
  decide

theorem poly17_acc_278 : poly17Step^[71168] 131071 = 58247 := by
  rw [show (71168 : ℕ) = 256 + 70912 from by norm_num,
    Function.iterate_add_apply, poly17_acc_277]
  decide

theorem poly17_acc_279 : poly17Step^[71424] 131071 = 48380 := by
  rw [show (71424 : ℕ) = 256 + 71168 from by norm_num,
    Function.iterate_add_apply, poly17_acc_278]
  decide

theorem poly17_acc_280 : poly17Step^[71680] 131071 = 100780 := by
  rw [show (71680 : ℕ) = 256 + 71424 from by norm_num,
    Function.iterate_add_apply, poly17_acc_279]
  decide

theorem poly17_acc_281 : poly17Step^[71936] 131071 = 118590 := by
  rw [show (71936 : ℕ) = 256 + 71680 from by norm_num,
    Function.iterate_add_apply, poly17_acc_280]
  decide

theorem poly17_acc_282 : poly17Step^[72192] 131071 = 30498 := by
  rw [show (72192 : ℕ) = 256 + 71936 from by norm_num,
    Function.iterate_add_apply, poly17_acc_281]
  decide

theorem poly17_acc_283 : poly17Step^[72448] 131071 = 72938 := by
  rw [show (72448 : ℕ) = 256 + 72192 from by norm_num,
    Function.iterate_add_apply, poly17_acc_282]
  decide

theorem poly17_acc_284 : poly17Step^[72704] 131071 = 28982 := by
  rw [show (72704 : ℕ) = 256 + 72448 from by norm_num,
    Function.iterate_add_apply, poly17_acc_283]
  decide

theorem poly17_acc_285 : poly17Step^[72960] 131071 = 55537 := by
  rw [show (72960 : ℕ) = 256 + 72704 from by norm_num,
    Function.iterate_add_apply, poly17_acc_284]
  decide

theorem poly17_acc_286 : poly17Step^[73216] 131071 = 62723 := by
  rw [show (73216 : ℕ) = 256 + 72960 from by norm_num,
    Function.iterate_add_apply, poly17_acc_285]
  decide

theorem poly17_acc_287 : poly17Step^[73472] 131071 = 54470 := by
  rw [show (73472 : ℕ) = 256 + 73216 from by norm_num,
    Function.iterate_add_apply, poly17_acc_286]
  decide

theorem poly17_acc_288 : poly17Step^[73728] 131071 = 91124 := by
  rw [show (73728 : ℕ) = 256 + 73472 from by norm_num,
    Function.iterate_add_apply, poly17_acc_287]
  decide

theorem poly17_acc_289 : poly17Step^[73984] 131071 = 98776 := by
  rw [show (73984 : ℕ) = 256 + 73728 from by norm_num,
    Function.iterate_add_apply, poly17_acc_288]
  decide

theorem poly17_acc_290 : poly17Step^[74240] 131071 = 29963 := by
  rw [show (74240 : ℕ) = 256 + 73984 from by norm_num,
    Function.iterate_add_apply, poly17_acc_289]
  decide

theorem poly17_acc_291 : poly17Step^[74496] 131071 = 56342 := by
  rw [show (74496 : ℕ) = 256 + 74240 from by norm_num,
    Function.iterate_add_apply, poly17_acc_290]
  decide

theorem poly17_acc_292 : poly17Step^[74752] 131071 = 88723 := by
  rw [show (74752 : ℕ) = 256 + 74496 from by norm_num,
    Function.iterate_add_apply, poly17_acc_291]
  decide

theorem poly17_acc_293 : poly17Step^[75008] 131071 = 50484 := by
  rw [show (75008 : ℕ) = 256 + 74752 from by norm_num,
    Function.iterate_add_apply, poly17_acc_292]
  decide

theorem poly17_acc_294 : poly17Step^[75264] 131071 = 119187 := by
  rw [show (75264 : ℕ) = 256 + 75008 from by norm_num,
    Function.iterate_add_apply, poly17_acc_293]
  decide

theorem poly17_acc_295 : poly17Step^[75520] 131071 = 130925 := by
  rw [show (75520 : ℕ) = 256 + 75264 from by norm_num,
    Function.iterate_add_apply, poly17_acc_294]
  decide

theorem poly17_acc_296 : poly17Step^[75776] 131071 = 52682 := by
  rw [show (75776 : ℕ) = 256 + 75520 from by norm_num,
    Function.iterate_add_apply, poly17_acc_295]
  decide

theorem poly17_acc_297 : poly17Step^[76032] 131071 = 86365 := by
  rw [show (76032 : ℕ) = 256 + 75776 from by norm_num,
    Function.iterate_add_apply, poly17_acc_296]
  decide

theorem poly17_acc_298 : poly17Step^[76288] 131071 = 80445 := by
  rw [show (76288 : ℕ) = 256 + 76032 from by norm_num,
    Function.iterate_add_apply, poly17_acc_297]
  decide

theorem poly17_acc_299 : poly17Step^[76544] 131071 = 41956 := by
  rw [show (76544 : ℕ) = 256 + 76288 from by norm_num,
    Function.iterate_add_apply, poly17_acc_298]
  decide

theorem poly17_acc_300 : poly17Step^[76800] 131071 = 32542 := by
  rw [show (76800 : ℕ) = 256 + 76544 from by norm_num,
    Function.iterate_add_apply, poly17_acc_299]
  decide

theorem poly17_acc_301 : poly17Step^[77056] 131071 = 127214 := by
  rw [show (77056 : ℕ) = 256 + 76800 from by norm_num,
    Function.iterate_add_apply, poly17_acc_300]
  decide

theorem poly17_acc_302 : poly17Step^[77312] 131071 = 44538 := by
  rw [show (77312 : ℕ) = 256 + 77056 from by norm_num,
    Function.iterate_add_apply, poly17_acc_301]
  decide

theorem poly17_acc_303 : poly17Step^[77568] 131071 = 10517 := by
  rw [show (77568 : ℕ) = 256 + 77312 from by norm_num,
    Function.iterate_add_apply, poly17_acc_302]
  decide

theorem poly17_acc_304 : poly17Step^[77824] 131071 = 101973 := by
  rw [show (77824 : ℕ) = 256 + 77568 from by norm_num,
    Function.iterate_add_apply, poly17_acc_303]
  decide

theorem poly17_acc_305 : poly17Step^[78080] 131071 = 108224 := by
  rw [show (78080 : ℕ) = 256 + 77824 from by norm_num,
    Function.iterate_add_apply, poly17_acc_304]
  decide

theorem poly17_acc_306 : poly17Step^[78336] 131071 = 20555 := by
  rw [show (78336 : ℕ) = 256 + 78080 from by norm_num,
    Function.iterate_add_apply, poly17_acc_305]
  decide

theorem poly17_acc_307 : poly17Step^[78592] 131071 = 100966 := by
  rw [show (78592 : ℕ) = 256 + 78336 from by norm_num,
    Function.iterate_add_apply, poly17_acc_306]
  decide

theorem poly17_acc_308 : poly17Step^[78848] 131071 = 4572 := by
  rw [show (78848 : ℕ) = 256 + 78592 from by norm_num,
    Function.iterate_add_apply, poly17_acc_307]
  decide

theorem poly17_acc_309 : poly17Step^[79104] 131071 = 3022 := by
  rw [show (79104 : ℕ) = 256 + 78848 from by norm_num,
    Function.iterate_add_apply, poly17_acc_308]
  decide

theorem poly17_acc_310 : poly17Step^[79360] 131071 = 130825 := by
  rw [show (79360 : ℕ) = 256 + 79104 from by norm_num,
    Function.iterate_add_apply, poly17_acc_309]
  decide

theorem poly17_acc_311 : poly17Step^[79616] 131071 = 94839 := by
  rw [show (79616 : ℕ) = 256 + 79360 from by norm_num,
    Function.iterate_add_apply, poly17_acc_310]
  decide

theorem poly17_acc_312 : poly17Step^[79872] 131071 = 98419 := by
  rw [show (79872 : ℕ) = 256 + 79616 from by norm_num,
    Function.iterate_add_apply, poly17_acc_311]
  decide

theorem poly17_acc_313 : poly17Step^[80128] 131071 = 81188 := by
  rw [show (80128 : ℕ) = 256 + 79872 from by norm_num,
    Function.iterate_add_apply, poly17_acc_312]
  decide

theorem poly17_acc_314 : poly17Step^[80384] 131071 = 130215 := by
  rw [show (80384 : ℕ) = 256 + 80128 from by norm_num,
    Function.iterate_add_apply, poly17_acc_313]
  decide

theorem poly17_acc_315 : poly17Step^[80640] 131071 = 70440 := by
  rw [show (80640 : ℕ) = 256 + 80384 from by norm_num,
    Function.iterate_add_apply, poly17_acc_314]
  decide

theorem poly17_acc_316 : poly17Step^[80896] 131071 = 77233 := by
  rw [show (80896 : ℕ) = 256 + 80640 from by norm_num,
    Function.iterate_add_apply, poly17_acc_315]
  decide

theorem poly17_acc_317 : poly17Step^[81152] 131071 = 121310 := by
  rw [show (81152 : ℕ) = 256 + 80896 from by norm_num,
    Function.iterate_add_apply, poly17_acc_316]
  decide

theorem poly17_acc_318 : poly17Step^[81408] 131071 = 106661 := by
  rw [show (81408 : ℕ) = 256 + 81152 from by norm_num,
    Function.iterate_add_apply, poly17_acc_317]
  decide

theorem poly17_acc_319 : poly17Step^[81664] 131071 = 75676 := by
  rw [show (81664 : ℕ) = 256 + 81408 from by norm_num,
    Function.iterate_add_apply, poly17_acc_318]
  decide

theorem poly17_acc_320 : poly17Step^[81920] 131071 = 14537 := by
  rw [show (81920 : ℕ) = 256 + 81664 from by norm_num,
    Function.iterate_add_apply, poly17_acc_319]
  decide

theorem poly17_acc_321 : poly17Step^[82176] 131071 = 99739 := by
  rw [show (82176 : ℕ) = 256 + 81920 from by norm_num,
    Function.iterate_add_apply, poly17_acc_320]
  decide

theorem poly17_acc_322 : poly17Step^[82432] 131071 = 22985 := by
  rw [show (82432 : ℕ) = 256 + 82176 from by norm_num,
    Function.iterate_add_apply, poly17_acc_321]
  decide

theorem poly17_acc_323 : poly17Step^[82688] 131071 = 74300 := by
  rw [show (82688 : ℕ) = 256 + 82432 from by norm_num,
    Function.iterate_add_apply, poly17_acc_322]
  decide

theorem poly17_acc_324 : poly17Step^[82944] 131071 = 2581 := by
  rw [show (82944 : ℕ) = 256 + 82688 from by norm_num,
    Function.iterate_add_apply, poly17_acc_323]
  decide

theorem poly17_acc_325 : poly17Step^[83200] 131071 = 77048 := by
  rw [show (83200 : ℕ) = 256 + 82944 from by norm_num,
    Function.iterate_add_apply, poly17_acc_324]
  decide

theorem poly17_acc_326 : poly17Step^[83456] 131071 = 128873 := by
  rw [show (83456 : ℕ) = 256 + 83200 from by norm_num,
    Function.iterate_add_apply, poly17_acc_325]
  decide

theorem poly17_acc_327 : poly17Step^[83712] 131071 = 60449 := by
  rw [show (83712 : ℕ) = 256 + 83456 from by norm_num,
    Function.iterate_add_apply, poly17_acc_326]
  decide

theorem poly17_acc_328 : poly17Step^[83968] 131071 = 24518 := by
  rw [show (83968 : ℕ) = 256 + 83712 from by norm_num,
    Function.iterate_add_apply, poly17_acc_327]
  decide

theorem poly17_acc_329 : poly17Step^[84224] 131071 = 22957 := by
  rw [show (84224 : ℕ) = 256 + 83968 from by norm_num,
    Function.iterate_add_apply, poly17_acc_328]
  decide

theorem poly17_acc_330 : poly17Step^[84480] 131071 = 40321 := by
  rw [show (84480 : ℕ) = 256 + 84224 from by norm_num,
    Function.iterate_add_apply, poly17_acc_329]
  decide

theorem poly17_acc_331 : poly17Step^[84736] 131071 = 56123 := by
  rw [show (84736 : ℕ) = 256 + 84480 from by norm_num,
    Function.iterate_add_apply, poly17_acc_330]
  decide

theorem poly17_acc_332 : poly17Step^[84992] 131071 = 76769 := by
  rw [show (84992 : ℕ) = 256 + 84736 from by norm_num,
    Function.iterate_add_apply, poly17_acc_331]
  decide

theorem poly17_acc_333 : poly17Step^[85248] 131071 = 43050 := by
  rw [show (85248 : ℕ) = 256 + 84992 from by norm_num,
    Function.iterate_add_apply, poly17_acc_332]
  decide

theorem poly17_acc_334 : poly17Step^[85504] 131071 = 98327 := by
  rw [show (85504 : ℕ) = 256 + 85248 from by norm_num,
    Function.iterate_add_apply, poly17_acc_333]
  decide

theorem poly17_acc_335 : poly17Step^[85760] 131071 = 33433 := by
  rw [show (85760 : ℕ) = 256 + 85504 from by norm_num,
    Function.iterate_add_apply, poly17_acc_334]
  decide

theorem poly17_acc_336 : poly17Step^[86016] 131071 = 77193 := by
  rw [show (86016 : ℕ) = 256 + 85760 from by norm_num,
    Function.iterate_add_apply, poly17_acc_335]
  decide

theorem poly17_acc_337 : poly17Step^[86272] 131071 = 70705 := by
  rw [show (86272 : ℕ) = 256 + 86016 from by norm_num,
    Function.iterate_add_apply, poly17_acc_336]
  decide

theorem poly17_acc_338 : poly17Step^[86528] 131071 = 29426 := by
  rw [show (86528 : ℕ) = 256 + 86272 from by norm_num,
    Function.iterate_add_apply, poly17_acc_337]
  decide

theorem poly17_acc_339 : poly17Step^[86784] 131071 = 46568 := by
  rw [show (86784 : ℕ) = 256 + 86528 from by norm_num,
    Function.iterate_add_apply, poly17_acc_338]
  decide

theorem poly17_acc_340 : poly17Step^[87040] 131071 = 97786 := by
  rw [show (87040 : ℕ) = 256 + 86784 from by norm_num,
    Function.iterate_add_apply, poly17_acc_339]
  decide

theorem poly17_acc_341 : poly17Step^[87296] 131071 = 21432 := by
  rw [show (87296 : ℕ) = 256 + 87040 from by norm_num,
    Function.iterate_add_apply, poly17_acc_340]
  decide

theorem poly17_acc_342 : poly17Step^[87552] 131071 = 110969 := by
  rw [show (87552 : ℕ) = 256 + 87296 from by norm_num,
    Function.iterate_add_apply, poly17_acc_341]
  decide

theorem poly17_acc_343 : poly17Step^[87808] 131071 = 76882 := by
  rw [show (87808 : ℕ) = 256 + 87552 from by norm_num,
    Function.iterate_add_apply, poly17_acc_342]
  decide

theorem poly17_acc_344 : poly17Step^[88064] 131071 = 116672 := by
  rw [show (88064 : ℕ) = 256 + 87808 from by norm_num,
    Function.iterate_add_apply, poly17_acc_343]
  decide

theorem poly17_acc_345 : poly17Step^[88320] 131071 = 63468 := by
  rw [show (88320 : ℕ) = 256 + 88064 from by norm_num,
    Function.iterate_add_apply, poly17_acc_344]
  decide

theorem poly17_acc_346 : poly17Step^[88576] 131071 = 121274 := by
  rw [show (88576 : ℕ) = 256 + 88320 from by norm_num,
    Function.iterate_add_apply, poly17_acc_345]
  decide

theorem poly17_acc_347 : poly17Step^[88832] 131071 = 7960 := by
  rw [show (88832 : ℕ) = 256 + 88576 from by norm_num,
    Function.iterate_add_apply, poly17_acc_346]
  decide

theorem poly17_acc_348 : poly17Step^[89088] 131071 = 128690 := by
  rw [show (89088 : ℕ) = 256 + 88832 from by norm_num,
    Function.iterate_add_apply, poly17_acc_347]
  decide

theorem poly17_acc_349 : poly17Step^[89344] 131071 = 16336 := by
  rw [show (89344 : ℕ) = 256 + 89088 from by norm_num,
    Function.iterate_add_apply, poly17_acc_348]
  decide

theorem poly17_acc_350 : poly17Step^[89600] 131071 = 56024 := by
  rw [show (89600 : ℕ) = 256 + 89344 from by norm_num,
    Function.iterate_add_apply, poly17_acc_349]
  decide

theorem poly17_acc_351 : poly17Step^[89856] 131071 = 79359 := by
  rw [show (89856 : ℕ) = 256 + 89600 from by norm_num,
    Function.iterate_add_apply, poly17_acc_350]
  decide

theorem poly17_acc_352 : poly17Step^[90112] 131071 = 130915 := by
  rw [show (90112 : ℕ) = 256 + 89856 from by norm_num,
    Function.iterate_add_apply, poly17_acc_351]
  decide

theorem poly17_acc_353 : poly17Step^[90368] 131071 = 97841 := by
  rw [show (90368 : ℕ) = 256 + 90112 from by norm_num,
    Function.iterate_add_apply, poly17_acc_352]
  decide

theorem poly17_acc_354 : poly17Step^[90624] 131071 = 42312 := by
  rw [show (90624 : ℕ) = 256 + 90368 from by norm_num,
    Function.iterate_add_apply, poly17_acc_353]
  decide

theorem poly17_acc_355 : poly17Step^[90880] 131071 = 89760 := by
  rw [show (90880 : ℕ) = 256 + 90624 from by norm_num,
    Function.iterate_add_apply, poly17_acc_354]
  decide

theorem poly17_acc_356 : poly17Step^[91136] 131071 = 94760 := by
  rw [show (91136 : ℕ) = 256 + 90880 from by norm_num,
    Function.iterate_add_apply, poly17_acc_355]
  decide

theorem poly17_acc_357 : poly17Step^[91392] 131071 = 100886 := by
  rw [show (91392 : ℕ) = 256 + 91136 from by norm_num,
    Function.iterate_add_apply, poly17_acc_356]
  decide

theorem poly17_acc_358 : poly17Step^[91648] 131071 = 100866 := by
  rw [show (91648 : ℕ) = 256 + 91392 from by norm_num,
    Function.iterate_add_apply, poly17_acc_357]
  decide

theorem poly17_acc_359 : poly17Step^[91904] 131071 = 110177 := by
  rw [show (91904 : ℕ) = 256 + 91648 from by norm_num,
    Function.iterate_add_apply, poly17_acc_358]
  decide

theorem poly17_acc_360 : poly17Step^[92160] 131071 = 56032 := by
  rw [show (92160 : ℕ) = 256 + 91904 from by norm_num,
    Function.iterate_add_apply, poly17_acc_359]
  decide

theorem poly17_acc_361 : poly17Step^[92416] 131071 = 129040 := by
  rw [show (92416 : ℕ) = 256 + 92160 from by norm_num,
    Function.iterate_add_apply, poly17_acc_360]
  decide

theorem poly17_acc_362 : poly17Step^[92672] 131071 = 11572 := by
  rw [show (92672 : ℕ) = 256 + 92416 from by norm_num,
    Function.iterate_add_apply, poly17_acc_361]
  decide

theorem poly17_acc_363 : poly17Step^[92928] 131071 = 60485 := by
  rw [show (92928 : ℕ) = 256 + 92672 from by norm_num,
    Function.iterate_add_apply, poly17_acc_362]
  decide

theorem poly17_acc_364 : poly17Step^[93184] 131071 = 123003 := by
  rw [show (93184 : ℕ) = 256 + 92928 from by norm_num,
    Function.iterate_add_apply, poly17_acc_363]
  decide

theorem poly17_acc_365 : poly17Step^[93440] 131071 = 34947 := by
  rw [show (93440 : ℕ) = 256 + 93184 from by norm_num,
    Function.iterate_add_apply, poly17_acc_364]
  decide

theorem poly17_acc_366 : poly17Step^[93696] 131071 = 39576 := by
  rw [show (93696 : ℕ) = 256 + 93440 from by norm_num,
    Function.iterate_add_apply, poly17_acc_365]
  decide

theorem poly17_acc_367 : poly17Step^[93952] 131071 = 99448 := by
  rw [show (93952 : ℕ) = 256 + 93696 from by norm_num,
    Function.iterate_add_apply, poly17_acc_366]
  decide

theorem poly17_acc_368 : poly17Step^[94208] 131071 = 18391 := by
  rw [show (94208 : ℕ) = 256 + 93952 from by norm_num,
    Function.iterate_add_apply, poly17_acc_367]
  decide

theorem poly17_acc_369 : poly17Step^[94464] 131071 = 30069 := by
  rw [show (94464 : ℕ) = 256 + 94208 from by norm_num,
    Function.iterate_add_apply, poly17_acc_368]
  decide

theorem poly17_acc_370 : poly17Step^[94720] 131071 = 62515 := by
  rw [show (94720 : ℕ) = 256 + 94464 from by norm_num,
    Function.iterate_add_apply, poly17_acc_369]
  decide

theorem poly17_acc_371 : poly17Step^[94976] 131071 = 68393 := by
  rw [show (94976 : ℕ) = 256 + 94720 from by norm_num,
    Function.iterate_add_apply, poly17_acc_370]
  decide

theorem poly17_acc_372 : poly17Step^[95232] 131071 = 99392 := by
  rw [show (95232 : ℕ) = 256 + 94976 from by norm_num,
    Function.iterate_add_apply, poly17_acc_371]
  decide

theorem poly17_acc_373 : poly17Step^[95488] 131071 = 35384 := by
  rw [show (95488 : ℕ) = 256 + 95232 from by norm_num,
    Function.iterate_add_apply, poly17_acc_372]
  decide

theorem poly17_acc_374 : poly17Step^[95744] 131071 = 108322 := by
  rw [show (95744 : ℕ) = 256 + 95488 from by norm_num,
    Function.iterate_add_apply, poly17_acc_373]
  decide

theorem poly17_acc_375 : poly17Step^[96000] 131071 = 91719 := by
  rw [show (96000 : ℕ) = 256 + 95744 from by norm_num,
    Function.iterate_add_apply, poly17_acc_374]
  decide

theorem poly17_acc_376 : poly17Step^[96256] 131071 = 19994 := by
  rw [show (96256 : ℕ) = 256 + 96000 from by norm_num,
    Function.iterate_add_apply, poly17_acc_375]
  decide

theorem poly17_acc_377 : poly17Step^[96512] 131071 = 21091 := by
  rw [show (96512 : ℕ) = 256 + 96256 from by norm_num,
    Function.iterate_add_apply, poly17_acc_376]
  decide

theorem poly17_acc_378 : poly17Step^[96768] 131071 = 90760 := by
  rw [show (96768 : ℕ) = 256 + 96512 from by norm_num,
    Function.iterate_add_apply, poly17_acc_377]
  decide

theorem poly17_acc_379 : poly17Step^[97024] 131071 = 108876 := by
  rw [show (97024 : ℕ) = 256 + 96768 from by norm_num,
    Function.iterate_add_apply, poly17_acc_378]
  decide

theorem poly17_acc_380 : poly17Step^[97280] 131071 = 43922 := by
  rw [show (97280 : ℕ) = 256 + 97024 from by norm_num,
    Function.iterate_add_apply, poly17_acc_379]
  decide

theorem poly17_acc_381 : poly17Step^[97536] 131071 = 103694 := by
  rw [show (97536 : ℕ) = 256 + 97280 from by norm_num,
    Function.iterate_add_apply, poly17_acc_380]
  decide

theorem poly17_acc_382 : poly17Step^[97792] 131071 = 31920 := by
  rw [show (97792 : ℕ) = 256 + 97536 from by norm_num,
    Function.iterate_add_apply, poly17_acc_381]
  decide

theorem poly17_acc_383 : poly17Step^[98048] 131071 = 102833 := by
  rw [show (98048 : ℕ) = 256 + 97792 from by norm_num,
    Function.iterate_add_apply, poly17_acc_382]
  decide

theorem poly17_acc_384 : poly17Step^[98304] 131071 = 56 := by
  rw [show (98304 : ℕ) = 256 + 98048 from by norm_num,
    Function.iterate_add_apply, poly17_acc_383]
  decide

theorem poly17_acc_385 : poly17Step^[98560] 131071 = 52719 := by
  rw [show (98560 : ℕ) = 256 + 98304 from by norm_num,
    Function.iterate_add_apply, poly17_acc_384]
  decide

theorem poly17_acc_386 : poly17Step^[98816] 131071 = 119383 := by
  rw [show (98816 : ℕ) = 256 + 98560 from by norm_num,
    Function.iterate_add_apply, poly17_acc_385]
  decide

theorem poly17_acc_387 : poly17Step^[99072] 131071 = 103028 := by
  rw [show (99072 : ℕ) = 256 + 98816 from by norm_num,
    Function.iterate_add_apply, poly17_acc_386]
  decide

theorem poly17_acc_388 : poly17Step^[99328] 131071 = 83251 := by
  rw [show (99328 : ℕ) = 256 + 99072 from by norm_num,
    Function.iterate_add_apply, poly17_acc_387]
  decide

theorem poly17_acc_389 : poly17Step^[99584] 131071 = 120355 := by
  rw [show (99584 : ℕ) = 256 + 99328 from by norm_num,
    Function.iterate_add_apply, poly17_acc_388]
  decide

theorem poly17_acc_390 : poly17Step^[99840] 131071 = 125104 := by
  rw [show (99840 : ℕ) = 256 + 99584 from by norm_num,
    Function.iterate_add_apply, poly17_acc_389]
  decide

theorem poly17_acc_391 : poly17Step^[100096] 131071 = 3694 := by
  rw [show (100096 : ℕ) = 256 + 99840 from by norm_num,
    Function.iterate_add_apply, poly17_acc_390]
  decide

theorem poly17_acc_392 : poly17Step^[100352] 131071 = 118229 := by
  rw [show (100352 : ℕ) = 256 + 100096 from by norm_num,
    Function.iterate_add_apply, poly17_acc_391]
  decide

theorem poly17_acc_393 : poly17Step^[100608] 131071 = 121620 := by
  rw [show (100608 : ℕ) = 256 + 100352 from by norm_num,
    Function.iterate_add_apply, poly17_acc_392]
  decide

theorem poly17_acc_394 : poly17Step^[100864] 131071 = 11987 := by
  rw [show (100864 : ℕ) = 256 + 100608 from by norm_num,
    Function.iterate_add_apply, poly17_acc_393]
  decide

theorem poly17_acc_395 : poly17Step^[101120] 131071 = 62265 := by
  rw [show (101120 : ℕ) = 256 + 100864 from by norm_num,
    Function.iterate_add_apply, poly17_acc_394]
  decide

theorem poly17_acc_396 : poly17Step^[101376] 131071 = 108916 := by
  rw [show (101376 : ℕ) = 256 + 101120 from by norm_num,
    Function.iterate_add_apply, poly17_acc_395]
  decide

theorem poly17_acc_397 : poly17Step^[101632] 131071 = 26237 := by
  rw [show (101632 : ℕ) = 256 + 101376 from by norm_num,
    Function.iterate_add_apply, poly17_acc_396]
  decide

theorem poly17_acc_398 : poly17Step^[101888] 131071 = 18265 := by
  rw [show (101888 : ℕ) = 256 + 101632 from by norm_num,
    Function.iterate_add_apply, poly17_acc_397]
  decide

theorem poly17_acc_399 : poly17Step^[102144] 131071 = 126660 := by
  rw [show (102144 : ℕ) = 256 + 101888 from by norm_num,
    Function.iterate_add_apply, poly17_acc_398]
  decide

theorem poly17_acc_400 : poly17Step^[102400] 131071 = 54402 := by
  rw [show (102400 : ℕ) = 256 + 102144 from by norm_num,
    Function.iterate_add_apply, poly17_acc_399]
  decide

theorem poly17_acc_401 : poly17Step^[102656] 131071 = 120347 := by
  rw [show (102656 : ℕ) = 256 + 102400 from by norm_num,
    Function.iterate_add_apply, poly17_acc_400]
  decide

theorem poly17_acc_402 : poly17Step^[102912] 131071 = 75103 := by
  rw [show (102912 : ℕ) = 256 + 102656 from by norm_num,
    Function.iterate_add_apply, poly17_acc_401]
  decide

theorem poly17_acc_403 : poly17Step^[103168] 131071 = 121913 := by
  rw [show (103168 : ℕ) = 256 + 102912 from by norm_num,
    Function.iterate_add_apply, poly17_acc_402]
  decide

theorem poly17_acc_404 : poly17Step^[103424] 131071 = 24481 := by
  rw [show (103424 : ℕ) = 256 + 103168 from by norm_num,
    Function.iterate_add_apply, poly17_acc_403]
  decide

theorem poly17_acc_405 : poly17Step^[103680] 131071 = 40487 := by
  rw [show (103680 : ℕ) = 256 + 103424 from by norm_num,
    Function.iterate_add_apply, poly17_acc_404]
  decide

theorem poly17_acc_406 : poly17Step^[103936] 131071 = 129264 := by
  rw [show (103936 : ℕ) = 256 + 103680 from by norm_num,
    Function.iterate_add_apply, poly17_acc_405]
  decide

theorem poly17_acc_407 : poly17Step^[104192] 131071 = 72585 := by
  rw [show (104192 : ℕ) = 256 + 103936 from by norm_num,
    Function.iterate_add_apply, poly17_acc_406]
  decide

theorem poly17_acc_408 : poly17Step^[104448] 131071 = 108314 := by
  rw [show (104448 : ℕ) = 256 + 104192 from by norm_num,
    Function.iterate_add_apply, poly17_acc_407]
  decide

theorem poly17_acc_409 : poly17Step^[104704] 131071 = 109480 := by
  rw [show (104704 : ℕ) = 256 + 104448 from by norm_num,
    Function.iterate_add_apply, poly17_acc_408]
  decide

theorem poly17_acc_410 : poly17Step^[104960] 131071 = 105549 := by
  rw [show (104960 : ℕ) = 256 + 104704 from by norm_num,
    Function.iterate_add_apply, poly17_acc_409]
  decide

theorem poly17_acc_411 : poly17Step^[105216] 131071 = 114711 := by
  rw [show (105216 : ℕ) = 256 + 104960 from by norm_num,
    Function.iterate_add_apply, poly17_acc_410]
  decide

theorem poly17_acc_412 : poly17Step^[105472] 131071 = 10171 := by
  rw [show (105472 : ℕ) = 256 + 105216 from by norm_num,
    Function.iterate_add_apply, poly17_acc_411]
  decide

theorem poly17_acc_413 : poly17Step^[105728] 131071 = 32623 := by
  rw [show (105728 : ℕ) = 256 + 105472 from by norm_num,
    Function.iterate_add_apply, poly17_acc_412]
  decide

theorem poly17_acc_414 : poly17Step^[105984] 131071 = 82722 := by
  rw [show (105984 : ℕ) = 256 + 105728 from by norm_num,
    Function.iterate_add_apply, poly17_acc_413]
  decide

theorem poly17_acc_415 : poly17Step^[106240] 131071 = 105312 := by
  rw [show (106240 : ℕ) = 256 + 105984 from by norm_num,
    Function.iterate_add_apply, poly17_acc_414]
  decide

theorem poly17_acc_416 : poly17Step^[106496] 131071 = 110949 := by
  rw [show (106496 : ℕ) = 256 + 106240 from by norm_num,
    Function.iterate_add_apply, poly17_acc_415]
  decide

theorem poly17_acc_417 : poly17Step^[106752] 131071 = 19109 := by
  rw [show (106752 : ℕ) = 256 + 106496 from by norm_num,
    Function.iterate_add_apply, poly17_acc_416]
  decide

theorem poly17_acc_418 : poly17Step^[107008] 131071 = 12011 := by
  rw [show (107008 : ℕ) = 256 + 106752 from by norm_num,
    Function.iterate_add_apply, poly17_acc_417]
  decide

theorem poly17_acc_419 : poly17Step^[107264] 131071 = 16086 := by
  rw [show (107264 : ℕ) = 256 + 107008 from by norm_num,
    Function.iterate_add_apply, poly17_acc_418]
  decide

theorem poly17_acc_420 : poly17Step^[107520] 131071 = 31523 := by
  rw [show (107520 : ℕ) = 256 + 107264 from by norm_num,
    Function.iterate_add_apply, poly17_acc_419]
  decide

theorem poly17_acc_421 : poly17Step^[107776] 131071 = 128009 := by
  rw [show (107776 : ℕ) = 256 + 107520 from by norm_num,
    Function.iterate_add_apply, poly17_acc_420]
  decide

theorem poly17_acc_422 : poly17Step^[108032] 131071 = 66154 := by
  rw [show (108032 : ℕ) = 256 + 107776 from by norm_num,
    Function.iterate_add_apply, poly17_acc_421]
  decide

theorem poly17_acc_423 : poly17Step^[108288] 131071 = 14567 := by
  rw [show (108288 : ℕ) = 256 + 108032 from by norm_num,
    Function.iterate_add_apply, poly17_acc_422]
  decide

theorem poly17_acc_424 : poly17Step^[108544] 131071 = 80946 := by
  rw [show (108544 : ℕ) = 256 + 108288 from by norm_num,
    Function.iterate_add_apply, poly17_acc_423]
  decide

theorem poly17_acc_425 : poly17Step^[108800] 131071 = 120949 := by
  rw [show (108800 : ℕ) = 256 + 108544 from by norm_num,
    Function.iterate_add_apply, poly17_acc_424]
  decide

theorem poly17_acc_426 : poly17Step^[109056] 131071 = 59530 := by
  rw [show (109056 : ℕ) = 256 + 108800 from by norm_num,
    Function.iterate_add_apply, poly17_acc_425]
  decide

theorem poly17_acc_427 : poly17Step^[109312] 131071 = 1837 := by
  rw [show (109312 : ℕ) = 256 + 109056 from by norm_num,
    Function.iterate_add_apply, poly17_acc_426]
  decide

theorem poly17_acc_428 : poly17Step^[109568] 131071 = 29042 := by
  rw [show (109568 : ℕ) = 256 + 109312 from by norm_num,
    Function.iterate_add_apply, poly17_acc_427]
  decide

theorem poly17_acc_429 : poly17Step^[109824] 131071 = 27934 := by
  rw [show (109824 : ℕ) = 256 + 109568 from by norm_num,
    Function.iterate_add_apply, poly17_acc_428]
  decide

theorem poly17_acc_430 : poly17Step^[110080] 131071 = 20868 := by
  rw [show (110080 : ℕ) = 256 + 109824 from by norm_num,
    Function.iterate_add_apply, poly17_acc_429]
  decide

theorem poly17_acc_431 : poly17Step^[110336] 131071 = 97780 := by
  rw [show (110336 : ℕ) = 256 + 110080 from by norm_num,
    Function.iterate_add_apply, poly17_acc_430]
  decide

theorem poly17_acc_432 : poly17Step^[110592] 131071 = 122947 := by
  rw [show (110592 : ℕ) = 256 + 110336 from by norm_num,
    Function.iterate_add_apply, poly17_acc_431]
  decide

theorem poly17_acc_433 : poly17Step^[110848] 131071 = 17772 := by
  rw [show (110848 : ℕ) = 256 + 110592 from by norm_num,
    Function.iterate_add_apply, poly17_acc_432]
  decide

theorem poly17_acc_434 : poly17Step^[111104] 131071 = 84175 := by
  rw [show (111104 : ℕ) = 256 + 110848 from by norm_num,
    Function.iterate_add_apply, poly17_acc_433]
  decide

theorem poly17_acc_435 : poly17Step^[111360] 131071 = 5644 := by
  rw [show (111360 : ℕ) = 256 + 111104 from by norm_num,
    Function.iterate_add_apply, poly17_acc_434]
  decide

theorem poly17_acc_436 : poly17Step^[111616] 131071 = 66276 := by
  rw [show (111616 : ℕ) = 256 + 111360 from by norm_num,
    Function.iterate_add_apply, poly17_acc_435]
  decide

theorem poly17_acc_437 : poly17Step^[111872] 131071 = 107350 := by
  rw [show (111872 : ℕ) = 256 + 111616 from by norm_num,
    Function.iterate_add_apply, poly17_acc_436]
  decide

theorem poly17_acc_438 : poly17Step^[112128] 131071 = 72835 := by
  rw [show (112128 : ℕ) = 256 + 111872 from by norm_num,
    Function.iterate_add_apply, poly17_acc_437]
  decide

theorem poly17_acc_439 : poly17Step^[112384] 131071 = 66887 := by
  rw [show (112384 : ℕ) = 256 + 112128 from by norm_num,
    Function.iterate_add_apply, poly17_acc_438]
  decide

theorem poly17_acc_440 : poly17Step^[112640] 131071 = 18837 := by
  rw [show (112640 : ℕ) = 256 + 112384 from by norm_num,
    Function.iterate_add_apply, poly17_acc_439]
  decide

theorem poly17_acc_441 : poly17Step^[112896] 131071 = 86316 := by
  rw [show (112896 : ℕ) = 256 + 112640 from by norm_num,
    Function.iterate_add_apply, poly17_acc_440]
  decide

theorem poly17_acc_442 : poly17Step^[113152] 131071 = 100849 := by
  rw [show (113152 : ℕ) = 256 + 112896 from by norm_num,
    Function.iterate_add_apply, poly17_acc_441]
  decide

theorem poly17_acc_443 : poly17Step^[113408] 131071 = 103806 := by
  rw [show (113408 : ℕ) = 256 + 113152 from by norm_num,
    Function.iterate_add_apply, poly17_acc_442]
  decide

theorem poly17_acc_444 : poly17Step^[113664] 131071 = 124782 := by
  rw [show (113664 : ℕ) = 256 + 113408 from by norm_num,
    Function.iterate_add_apply, poly17_acc_443]
  decide

theorem poly17_acc_445 : poly17Step^[113920] 131071 = 13342 := by
  rw [show (113920 : ℕ) = 256 + 113664 from by norm_num,
    Function.iterate_add_apply, poly17_acc_444]
  decide

theorem poly17_acc_446 : poly17Step^[114176] 131071 = 75217 := by
  rw [show (114176 : ℕ) = 256 + 113920 from by norm_num,
    Function.iterate_add_apply, poly17_acc_445]
  decide

theorem poly17_acc_447 : poly17Step^[114432] 131071 = 18312 := by
  rw [show (114432 : ℕ) = 256 + 114176 from by norm_num,
    Function.iterate_add_apply, poly17_acc_446]
  decide

theorem poly17_acc_448 : poly17Step^[114688] 131071 = 32528 := by
  rw [show (114688 : ℕ) = 256 + 114432 from by norm_num,
    Function.iterate_add_apply, poly17_acc_447]
  decide

theorem poly17_acc_449 : poly17Step^[114944] 131071 = 17173 := by
  rw [show (114944 : ℕ) = 256 + 114688 from by norm_num,
    Function.iterate_add_apply, poly17_acc_448]
  decide

theorem poly17_acc_450 : poly17Step^[115200] 131071 = 88559 := by
  rw [show (115200 : ℕ) = 256 + 114944 from by norm_num,
    Function.iterate_add_apply, poly17_acc_449]
  decide

theorem poly17_acc_451 : poly17Step^[115456] 131071 = 19848 := by
  rw [show (115456 : ℕ) = 256 + 115200 from by norm_num,
    Function.iterate_add_apply, poly17_acc_450]
  decide

theorem poly17_acc_452 : poly17Step^[115712] 131071 = 24473 := by
  rw [show (115712 : ℕ) = 256 + 115456 from by norm_num,
    Function.iterate_add_apply, poly17_acc_451]
  decide

theorem poly17_acc_453 : poly17Step^[115968] 131071 = 21448 := by
  rw [show (115968 : ℕ) = 256 + 115712 from by norm_num,
    Function.iterate_add_apply, poly17_acc_452]
  decide

theorem poly17_acc_454 : poly17Step^[116224] 131071 = 10919 := by
  rw [show (116224 : ℕ) = 256 + 115968 from by norm_num,
    Function.iterate_add_apply, poly17_acc_453]
  decide

theorem poly17_acc_455 : poly17Step^[116480] 131071 = 35325 := by
  rw [show (116480 : ℕ) = 256 + 116224 from by norm_num,
    Function.iterate_add_apply, poly17_acc_454]
  decide

theorem poly17_acc_456 : poly17Step^[116736] 131071 = 57897 := by
  rw [show (116736 : ℕ) = 256 + 116480 from by norm_num,
    Function.iterate_add_apply, poly17_acc_455]
  decide

theorem poly17_acc_457 : poly17Step^[116992] 131071 = 32139 := by
  rw [show (116992 : ℕ) = 256 + 116736 from by norm_num,
    Function.iterate_add_apply, poly17_acc_456]
  decide

theorem poly17_acc_458 : poly17Step^[117248] 131071 = 29949 := by
  rw [show (117248 : ℕ) = 256 + 116992 from by norm_num,
    Function.iterate_add_apply, poly17_acc_457]
  decide

theorem poly17_acc_459 : poly17Step^[117504] 131071 = 118393 := by
  rw [show (117504 : ℕ) = 256 + 117248 from by norm_num,
    Function.iterate_add_apply, poly17_acc_458]
  decide

theorem poly17_acc_460 : poly17Step^[117760] 131071 = 125550 := by
  rw [show (117760 : ℕ) = 256 + 117504 from by norm_num,
    Function.iterate_add_apply, poly17_acc_459]
  decide

theorem poly17_acc_461 : poly17Step^[118016] 131071 = 107643 := by
  rw [show (118016 : ℕ) = 256 + 117760 from by norm_num,
    Function.iterate_add_apply, poly17_acc_460]
  decide

theorem poly17_acc_462 : poly17Step^[118272] 131071 = 93681 := by
  rw [show (118272 : ℕ) = 256 + 118016 from by norm_num,
    Function.iterate_add_apply, poly17_acc_461]
  decide

theorem poly17_acc_463 : poly17Step^[118528] 131071 = 92249 := by
  rw [show (118528 : ℕ) = 256 + 118272 from by norm_num,
    Function.iterate_add_apply, poly17_acc_462]
  decide

theorem poly17_acc_464 : poly17Step^[118784] 131071 = 6161 := by
  rw [show (118784 : ℕ) = 256 + 118528 from by norm_num,
    Function.iterate_add_apply, poly17_acc_463]
  decide

theorem poly17_acc_465 : poly17Step^[119040] 131071 = 11480 := by
  rw [show (119040 : ℕ) = 256 + 118784 from by norm_num,
    Function.iterate_add_apply, poly17_acc_464]
  decide

theorem poly17_acc_466 : poly17Step^[119296] 131071 = 27058 := by
  rw [show (119296 : ℕ) = 256 + 119040 from by norm_num,
    Function.iterate_add_apply, poly17_acc_465]
  decide

theorem poly17_acc_467 : poly17Step^[119552] 131071 = 118802 := by
  rw [show (119552 : ℕ) = 256 + 119296 from by norm_num,
    Function.iterate_add_apply, poly17_acc_466]
  decide

theorem poly17_acc_468 : poly17Step^[119808] 131071 = 44961 := by
  rw [show (119808 : ℕ) = 256 + 119552 from by norm_num,
    Function.iterate_add_apply, poly17_acc_467]
  decide

theorem poly17_acc_469 : poly17Step^[120064] 131071 = 8722 := by
  rw [show (120064 : ℕ) = 256 + 119808 from by norm_num,
    Function.iterate_add_apply, poly17_acc_468]
  decide

theorem poly17_acc_470 : poly17Step^[120320] 131071 = 10037 := by
  rw [show (120320 : ℕ) = 256 + 120064 from by norm_num,
    Function.iterate_add_apply, poly17_acc_469]
  decide

theorem poly17_acc_471 : poly17Step^[120576] 131071 = 124126 := by
  rw [show (120576 : ℕ) = 256 + 120320 from by norm_num,
    Function.iterate_add_apply, poly17_acc_470]
  decide

theorem poly17_acc_472 : poly17Step^[120832] 131071 = 91027 := by
  rw [show (120832 : ℕ) = 256 + 120576 from by norm_num,
    Function.iterate_add_apply, poly17_acc_471]
  decide

theorem poly17_acc_473 : poly17Step^[121088] 131071 = 83538 := by
  rw [show (121088 : ℕ) = 256 + 120832 from by norm_num,
    Function.iterate_add_apply, poly17_acc_472]
  decide

theorem poly17_acc_474 : poly17Step^[121344] 131071 = 69754 := by
  rw [show (121344 : ℕ) = 256 + 121088 from by norm_num,
    Function.iterate_add_apply, poly17_acc_473]
  decide

theorem poly17_acc_475 : poly17Step^[121600] 131071 = 72868 := by
  rw [show (121600 : ℕ) = 256 + 121344 from by norm_num,
    Function.iterate_add_apply, poly17_acc_474]
  decide

theorem poly17_acc_476 : poly17Step^[121856] 131071 = 120424 := by
  rw [show (121856 : ℕ) = 256 + 121600 from by norm_num,
    Function.iterate_add_apply, poly17_acc_475]
  decide

theorem poly17_acc_477 : poly17Step^[122112] 131071 = 116406 := by
  rw [show (122112 : ℕ) = 256 + 121856 from by norm_num,
    Function.iterate_add_apply, poly17_acc_476]
  decide

theorem poly17_acc_478 : poly17Step^[122368] 131071 = 118217 := by
  rw [show (122368 : ℕ) = 256 + 122112 from by norm_num,
    Function.iterate_add_apply, poly17_acc_477]
  decide

theorem poly17_acc_479 : poly17Step^[122624] 131071 = 48611 := by
  rw [show (122624 : ℕ) = 256 + 122368 from by norm_num,
    Function.iterate_add_apply, poly17_acc_478]
  decide

theorem poly17_acc_480 : poly17Step^[122880] 131071 = 116728 := by
  rw [show (122880 : ℕ) = 256 + 122624 from by norm_num,
    Function.iterate_add_apply, poly17_acc_479]
  decide

theorem poly17_acc_481 : poly17Step^[123136] 131071 = 14851 := by
  rw [show (123136 : ℕ) = 256 + 122880 from by norm_num,
    Function.iterate_add_apply, poly17_acc_480]
  decide

theorem poly17_acc_482 : poly17Step^[123392] 131071 = 3053 := by
  rw [show (123392 : ℕ) = 256 + 123136 from by norm_num,
    Function.iterate_add_apply, poly17_acc_481]
  decide

theorem poly17_acc_483 : poly17Step^[123648] 131071 = 101740 := by
  rw [show (123648 : ℕ) = 256 + 123392 from by norm_num,
    Function.iterate_add_apply, poly17_acc_482]
  decide

theorem poly17_acc_484 : poly17Step^[123904] 131071 = 45953 := by
  rw [show (123904 : ℕ) = 256 + 123648 from by norm_num,
    Function.iterate_add_apply, poly17_acc_483]
  decide

theorem poly17_acc_485 : poly17Step^[124160] 131071 = 125427 := by
  rw [show (124160 : ℕ) = 256 + 123904 from by norm_num,
    Function.iterate_add_apply, poly17_acc_484]
  decide

theorem poly17_acc_486 : poly17Step^[124416] 131071 = 78440 := by
  rw [show (124416 : ℕ) = 256 + 124160 from by norm_num,
    Function.iterate_add_apply, poly17_acc_485]
  decide

theorem poly17_acc_487 : poly17Step^[124672] 131071 = 80785 := by
  rw [show (124672 : ℕ) = 256 + 124416 from by norm_num,
    Function.iterate_add_apply, poly17_acc_486]
  decide

theorem poly17_acc_488 : poly17Step^[124928] 131071 = 12982 := by
  rw [show (124928 : ℕ) = 256 + 124672 from by norm_num,
    Function.iterate_add_apply, poly17_acc_487]
  decide

theorem poly17_acc_489 : poly17Step^[125184] 131071 = 42277 := by
  rw [show (125184 : ℕ) = 256 + 124928 from by norm_num,
    Function.iterate_add_apply, poly17_acc_488]
  decide

theorem poly17_acc_490 : poly17Step^[125440] 131071 = 35739 := by
  rw [show (125440 : ℕ) = 256 + 125184 from by norm_num,
    Function.iterate_add_apply, poly17_acc_489]
  decide

theorem poly17_acc_491 : poly17Step^[125696] 131071 = 109977 := by
  rw [show (125696 : ℕ) = 256 + 125440 from by norm_num,
    Function.iterate_add_apply, poly17_acc_490]
  decide

theorem poly17_acc_492 : poly17Step^[125952] 131071 = 56156 := by
  rw [show (125952 : ℕ) = 256 + 125696 from by norm_num,
    Function.iterate_add_apply, poly17_acc_491]
  decide

theorem poly17_acc_493 : poly17Step^[126208] 131071 = 126059 := by
  rw [show (126208 : ℕ) = 256 + 125952 from by norm_num,
    Function.iterate_add_apply, poly17_acc_492]
  decide

theorem poly17_acc_494 : poly17Step^[126464] 131071 = 118107 := by
  rw [show (126464 : ℕ) = 256 + 126208 from by norm_num,
    Function.iterate_add_apply, poly17_acc_493]
  decide

theorem poly17_acc_495 : poly17Step^[126720] 131071 = 16549 := by
  rw [show (126720 : ℕ) = 256 + 126464 from by norm_num,
    Function.iterate_add_apply, poly17_acc_494]
  decide

theorem poly17_acc_496 : poly17Step^[126976] 131071 = 3682 := by
  rw [show (126976 : ℕ) = 256 + 126720 from by norm_num,
    Function.iterate_add_apply, poly17_acc_495]
  decide

theorem poly17_acc_497 : poly17Step^[127232] 131071 = 11787 := by
  rw [show (127232 : ℕ) = 256 + 126976 from by norm_num,
    Function.iterate_add_apply, poly17_acc_496]
  decide

theorem poly17_acc_498 : poly17Step^[127488] 131071 = 67691 := by
  rw [show (127488 : ℕ) = 256 + 127232 from by norm_num,
    Function.iterate_add_apply, poly17_acc_497]
  decide

theorem poly17_acc_499 : poly17Step^[127744] 131071 = 77948 := by
  rw [show (127744 : ℕ) = 256 + 127488 from by norm_num,
    Function.iterate_add_apply, poly17_acc_498]
  decide

theorem poly17_acc_500 : poly17Step^[128000] 131071 = 114650 := by
  rw [show (128000 : ℕ) = 256 + 127744 from by norm_num,
    Function.iterate_add_apply, poly17_acc_499]
  decide

theorem poly17_acc_501 : poly17Step^[128256] 131071 = 5796 := by
  rw [show (128256 : ℕ) = 256 + 128000 from by norm_num,
    Function.iterate_add_apply, poly17_acc_500]
  decide

theorem poly17_acc_502 : poly17Step^[128512] 131071 = 90728 := by
  rw [show (128512 : ℕ) = 256 + 128256 from by norm_num,
    Function.iterate_add_apply, poly17_acc_501]
  decide

theorem poly17_acc_503 : poly17Step^[128768] 131071 = 40945 := by
  rw [show (128768 : ℕ) = 256 + 128512 from by norm_num,
    Function.iterate_add_apply, poly17_acc_502]
  decide

theorem poly17_acc_504 : poly17Step^[129024] 131071 = 123085 := by
  rw [show (129024 : ℕ) = 256 + 128768 from by norm_num,
    Function.iterate_add_apply, poly17_acc_503]
  decide

theorem poly17_acc_505 : poly17Step^[129280] 131071 = 122589 := by
  rw [show (129280 : ℕ) = 256 + 129024 from by norm_num,
    Function.iterate_add_apply, poly17_acc_504]
  decide

theorem poly17_acc_506 : poly17Step^[129536] 131071 = 92286 := by
  rw [show (129536 : ℕ) = 256 + 129280 from by norm_num,
    Function.iterate_add_apply, poly17_acc_505]
  decide

theorem poly17_acc_507 : poly17Step^[129792] 131071 = 52030 := by
  rw [show (129792 : ℕ) = 256 + 129536 from by norm_num,
    Function.iterate_add_apply, poly17_acc_506]
  decide

theorem poly17_acc_508 : poly17Step^[130048] 131071 = 107515 := by
  rw [show (130048 : ℕ) = 256 + 129792 from by norm_num,
    Function.iterate_add_apply, poly17_acc_507]
  decide

theorem poly17_acc_509 : poly17Step^[130304] 131071 = 62807 := by
  rw [show (130304 : ℕ) = 256 + 130048 from by norm_num,
    Function.iterate_add_apply, poly17_acc_508]
  decide

theorem poly17_acc_510 : poly17Step^[130560] 131071 = 58368 := by
  rw [show (130560 : ℕ) = 256 + 130304 from by norm_num,
    Function.iterate_add_apply, poly17_acc_509]
  decide

theorem poly17_acc_511 : poly17Step^[130816] 131071 = 64807 := by
  rw [show (130816 : ℕ) = 256 + 130560 from by norm_num,
    Function.iterate_add_apply, poly17_acc_510]
  decide

/-- The 17-bit LFSR returns to its seed after exactly 131 071 steps. -/
theorem poly17_return : poly17Step^[131071] 131071 = 131071 := by
  rw [show (131071 : ℕ) = 255 + 130816 from by norm_num,
    Function.iterate_add_apply, poly17_acc_511]
  decide

/-- First 256 steps of the 9-bit polynomial. -/
theorem poly9_acc_1 : poly9Step^[256] 511 = 304 := by decide

/-- The 9-bit LFSR returns to its seed after exactly 511 steps. -/
theorem poly9_return : poly9Step^[511] 511 = 511 := by
  rw [show (511 : ℕ) = 255 + 256 from by norm_num,
    Function.iterate_add_apply, poly9_acc_1]
  decide

/-- 15 is the minimal period of the 4-bit LFSR from seed 0. -/
theorem poly4_minimal : ∀ k, 0 < k → k < 15 → (poly45Step 4)^[k] 0 ≠ 0 := by
  apply minimal_period_of_divisors (poly45Step 4) 0 15 (by decide)
  intro d hd hne hpos
  have hle : d ≤ 15 := Nat.le_of_dvd (by norm_num) hd
  interval_cases d <;> first
  | exact absurd hd (by decide)
  | exact absurd rfl hne
  | decide

/-- 31 is the minimal period of the 5-bit LFSR from seed 0. -/
theorem poly5_minimal : ∀ k, 0 < k → k < 31 → (poly45Step 5)^[k] 0 ≠ 0 := by
  apply minimal_period_of_divisors (poly45Step 5) 0 31 (by decide)
  intro d hd hne hpos
  have hp : Nat.Prime 31 := by norm_num
  rcases (Nat.Prime.eq_one_or_self_of_dvd hp d hd) with rfl | rfl
  · decide
  · exact absurd rfl hne

/-- 511 is the minimal period of the 9-bit LFSR from its all-ones seed. -/
theorem poly9_minimal : ∀ k, 0 < k → k < 511 → poly9Step^[k] 511 ≠ 511 := by
  apply minimal_period_of_divisors poly9Step 511 511 poly9_return
  intro d hd hne hpos
  have hmem : d ∈ Nat.divisors 511 := Nat.mem_divisors.mpr ⟨hd, by norm_num⟩
  have hdivs : Nat.divisors 511 = {1, 7, 73, 511} := by decide
  rw [hdivs] at hmem
  simp only [Finset.mem_insert, Finset.mem_singleton] at hmem
  rcases hmem with rfl | rfl | rfl | rfl
  · decide
  · decide
  · decide
  · exact absurd rfl hne

/-- 131071 (a Mersenne prime) is the minimal period of the 17-bit LFSR
from its all-ones seed. -/
theorem poly17_minimal : ∀ k, 0 < k → k < 131071 → poly17Step^[k] 131071 ≠ 131071 := by
  apply minimal_period_of_divisors poly17Step 131071 131071 poly17_return
  intro d hd hne hpos
  have hp : Nat.Prime 131071 := by norm_num
  rcases (Nat.Prime.eq_one_or_self_of_dvd hp d hd) with rfl | rfl
  · decide
  · exact absurd rfl hne

/-- Claim C7: the precomputed polynomial LFSR tables are periodic with
minimal periods 15 (`poly4`), 31 (`poly5`), 511 (`poly9`) and 131 071
(`poly17`): each generator emits exactly that many entries, the `k`-th
entry is the `(k+1)`-st LFSR state, the state first returns to its seed
after exactly the period, and shifting any index by the period reproduces
the same state — so indexing modulo the table length reproduces the
infinite LFSR sequence. -/
theorem claim_C7_poly_periods :
    ((initPoly45 4).length = 15 ∧
      (∀ k, k < 15 → (initPoly45 4)[k]? = some ((poly45Step 4)^[k + 1] 0)) ∧
      (poly45Step 4)^[15] 0 = 0 ∧
      (∀ k, 0 < k → k < 15 → (poly45Step 4)^[k] 0 ≠ 0) ∧
      (∀ j, (poly45Step 4)^[j + 15] 0 = (poly45Step 4)^[j] 0)) ∧
    ((initPoly45 5).length = 31 ∧
      (∀ k, k < 31 → (initPoly45 5)[k]? = some ((poly45Step 5)^[k + 1] 0)) ∧
      (poly45Step 5)^[31] 0 = 0 ∧
      (∀ k, 0 < k → k < 31 → (poly45Step 5)^[k] 0 ≠ 0) ∧
      (∀ j, (poly45Step 5)^[j + 31] 0 = (poly45Step 5)^[j] 0)) ∧
    ((initPoly917 9).length = 511 ∧
      (∀ k, k < 511 → (initPoly917 9)[k]? = some (poly9Step^[k + 1] 511)) ∧
      poly9Step^[511] 511 = 511 ∧
      (∀ k, 0 < k → k < 511 → poly9Step^[k] 511 ≠ 511) ∧
      (∀ j, poly9Step^[j + 511] 511 = poly9Step^[j] 511)) ∧
    ((initPoly917 17).length = 131071 ∧
      (∀ k, k < 131071 →
        (initPoly917 17)[k]? = some (poly17Step^[k + 1] 131071)) ∧
      poly17Step^[131071] 131071 = 131071 ∧
      (∀ k, 0 < k → k < 131071 → poly17Step^[k] 131071 ≠ 131071) ∧
      (∀ j, poly17Step^[j + 131071] 131071 = poly17Step^[j] 131071)) := by
  have h4 : initPoly45 4 = polyGen (poly45Step 4) 15 0 := by
    unfold initPoly45; norm_num
  have h5 : initPoly45 5 = polyGen (poly45Step 5) 31 0 := by
    unfold initPoly45; norm_num
  have h9 : initPoly917 9 = polyGen poly9Step 511 511 := by
    unfold initPoly917; norm_num
  have h17 : initPoly917 17 = polyGen poly17Step 131071 131071 := by
    unfold initPoly917; norm_num
  have hret4 : (poly45Step 4)^[15] 0 = 0 := by decide
  have hret5 : (poly45Step 5)^[31] 0 = 0 := by decide
  refine ⟨⟨?_, ?_, hret4, poly4_minimal, ?_⟩,
          ⟨?_, ?_, hret5, poly5_minimal, ?_⟩,
          ⟨?_, ?_, poly9_return, poly9_minimal, ?_⟩,
          ⟨?_, ?_, poly17_return, poly17_minimal, ?_⟩⟩
  · rw [h4, polyGen_length]
  · intro k hk; rw [h4]; exact polyGen_get _ _ _ _ hk
  · intro j; rw [Function.iterate_add_apply, hret4]
  · rw [h5, polyGen_length]
  · intro k hk; rw [h5]; exact polyGen_get _ _ _ _ hk
  · intro j; rw [Function.iterate_add_apply, hret5]
  · rw [h9, polyGen_length]
  · intro k hk; rw [h9]; exact polyGen_get _ _ _ _ hk
  · intro j; rw [Function.iterate_add_apply, poly9_return]
  · rw [h17, polyGen_length]
  · intro k hk; rw [h17]; exact polyGen_get _ _ _ _ hk
  · intro j; rw [Function.iterate_add_apply, poly17_return]

/-- Witness for claim C7 at concrete indices: entry 3 of `poly4`, entry 40
of `poly9`, the non-return at step 7 of `poly4`, and the period-shift at
index 2 of `poly5`. -/
theorem claim_C7_poly_periods_witness :
    (3 < 15 ∧ (initPoly45 4)[3]? = some ((poly45Step 4)^[4] 0)) ∧
    (40 < 511 ∧ (initPoly917 9)[40]? = some (poly9Step^[41] 511)) ∧
    (0 < 7 ∧ 7 < 15 ∧ (poly45Step 4)^[7] 0 ≠ 0) ∧
    (poly45Step 5)^[2 + 31] 0 = (poly45Step 5)^[2] 0 := by
  refine ⟨⟨by norm_num, claim_C7_poly_periods.1.2.1 3 (by norm_num)⟩,
    ⟨by norm_num, claim_C7_poly_periods.2.2.1.2.1 40 (by norm_num)⟩,
    ⟨by norm_num, by norm_num, claim_C7_poly_periods.1.2.2.2.1 7 (by norm_num) (by norm_num)⟩,
    claim_C7_poly_periods.2.1.2.2.2.2 2⟩

/-- The interpreter's effective-note computation
(`effective_note = (note + transpose) & 0x7F`, zero promoted to 1);
`& 0x7F` on nonnegative ints is `% 128`. -/
def effectiveNote (note transpose : ℕ) : ℕ :=
  if (note + transpose) % 128 = 0 then 1 else (note + transpose) % 128

/-- Claim C10: for every non-rest note byte `n ∈ [0x01, 0x7F]` and every
transpose value, the effective note index is `(n + transpose) mod 128`
with 0 replaced by 1, so transposition never produces note index 0 (a
rest) and the frequency-table index always lies in `[1, 127]`. -/
theorem claim_C10_transpose_never_rest (n t : ℕ) (h1 : 1 ≤ n) (h2 : n ≤ 0x7F) :
    effectiveNote n t =
      (if (n + t) % 128 = 0 then 1 else (n + t) % 128) ∧
    1 ≤ effectiveNote n t ∧ effectiveNote n t ≤ 127 := by
  unfold effectiveNote
  refine ⟨rfl, ?_, ?_⟩ <;> (split_ifs with h <;> omega)

/-- Witness for claim C10 at `n = 0x46`, `t = 0x3A`
(`0x46 + 0x3A = 0x80 ≡ 0`, promoted to 1). -/
theorem claim_C10_transpose_never_rest_witness :
    1 ≤ 0x46 ∧ (0x46 : ℕ) ≤ 0x7F ∧
    (effectiveNote 0x46 0x3A =
      (if (0x46 + 0x3A) % 128 = 0 then 1 else (0x46 + 0x3A) % 128) ∧
     1 ≤ effectiveNote 0x46 0x3A ∧ effectiveNote 0x46 0x3A ≤ 127) :=
  ⟨by norm_num, by norm_num,
   claim_C10_transpose_never_rest 0x46 0x3A (by norm_num) (by norm_num)⟩

/-- Event kinds emitted by `_interpret_sequence` (payloads inlined). -/
inductive EventKind
  | pokeyNoteOn (ch audf audc : ℕ)
  | pokeyNoteOff (ch : ℕ)
  | pokeyAudctl (v : ℕ)
  | ymRegWrite (reg v : ℕ)
  | ymNoteOn (ch kc vol : ℕ)
  | ymNoteOff (ch : ℕ)
  | endOfTrack
  deriving DecidableEq, Repr

/-- A timed event `(time_secs, event_type, data)`. -/
structure Event where
  time : ℚ
  kind : EventKind
  deriving DecidableEq, Repr

/-- One half (frequency or volume) of the POKEY envelope state dict. -/
structure EnvHalf where
  active : Bool
  ptr : ℕ
  pos : ℕ
  frameCtr : ℤ
  delta : ℤ
  accum : ℤ
  loopCount : ℤ
  deriving DecidableEq, Repr

/-- Both envelope halves (`pokey_env` in `_interpret_sequence`). -/
structure PokeyEnv where
  freq : EnvHalf
  vol : EnvHalf
  deriving DecidableEq, Repr

/-- The freshly-initialised envelope state. -/
def initEnvHalf : EnvHalf :=
  { active := false, ptr := 0, pos := 0, frameCtr := 0, delta := 0,
    accum := 0, loopCount := -1 }

/-- Sign-extend a byte (`if val >= 128: val -= 256`). -/
def sign8 (v : ℕ) : ℤ := if 128 ≤ v then (v : ℤ) - 256 else v

/-- The entry-advance `while True` loop of the *frequency* envelope in
`_step_pokey_envelopes`.  The source loop terminates because each
`continue` happens on a `0xFF` marker and strictly decreases
`freq_loop_count` (a ROM byte, so at most 255 after its first load); the
structural `fuel` of 300 therefore never runs out on byte-valued ROMs.
`max(0, pos - back)` is truncated subtraction on `ℕ`. -/
def envAdvanceFreq (rom : Rom) : ℕ → EnvHalf → EnvHalf
  | 0, e => e
  | fuel + 1, e =>
    match rom.readByte (e.ptr + e.pos) with
    | .error _ => { e with active := false }
    | .ok count =>
      if count = 0xFF then
        match rom.readByte (e.ptr + e.pos + 1) with
        | .error _ => { e with pos := 0 }
        | .ok lc =>
          let e1 := if e.loopCount = -1 then { e with loopCount := (lc : ℤ) } else e
          if e1.loopCount ≤ 0 then { e1 with pos := 0 }
          else
            let e2 := { e1 with loopCount := e1.loopCount - 1 }
            if (0 : ℤ) < e2.loopCount then
              match rom.readByte (e2.ptr + e2.pos + 2) with
              | .error _ => { e2 with pos := 0 }
              | .ok back => envAdvanceFreq rom fuel { e2 with pos := e2.pos - back }
            else envAdvanceFreq rom fuel { e2 with pos := e2.pos + 3 }
      else if count = 0 then { e with active := false }
      else
        match rom.readByte (e.ptr + e.pos + 1), rom.readByte (e.ptr + e.pos + 2) with
        | .ok lo, .ok hi =>
          let d : ℤ := (((hi <<< 8) ||| lo : ℕ) : ℤ)
          let d := if 0x8000 ≤ d then d - 0x10000 else d
          { e with delta := d * 8, frameCtr := (count : ℤ), pos := e.pos + 3 }
        | _, _ => { e with active := false }

/-- The entry-advance loop of the *volume* envelope (2-byte entries,
signed byte delta); same termination argument as `envAdvanceFreq`. -/
def envAdvanceVol (rom : Rom) : ℕ → EnvHalf → EnvHalf
  | 0, e => e
  | fuel + 1, e =>
    match rom.readByte (e.ptr + e.pos) with
    | .error _ => { e with active := false }
    | .ok count =>
      if count = 0xFF then
        match rom.readByte (e.ptr + e.pos + 1) with
        | .error _ => { e with pos := 0 }
        | .ok lc =>
          let e1 := if e.loopCount = -1 then { e with loopCount := (lc : ℤ) } else e
          if e1.loopCount ≤ 0 then { e1 with pos := 0 }
          else
            let e2 := { e1 with loopCount := e1.loopCount - 1 }
            if (0 : ℤ) < e2.loopCount then
              match rom.readByte (e2.ptr + e2.pos + 2) with
              | .error _ => { e2 with pos := 0 }
              | .ok back => envAdvanceVol rom fuel { e2 with pos := e2.pos - back }
            else envAdvanceVol rom fuel { e2 with pos := e2.pos + 3 }
      else if count = 0 then { e with active := false }
      else
        match rom.readByte (e.ptr + e.pos + 1) with
        | .error _ => { e with active := false }
        | .ok dv =>
          { e with delta := sign8 dv, frameCtr := (count : ℤ), pos := e.pos + 2 }

/-- Per-frame step of the frequency envelope half (counter decrement,
entry advance, 24-bit-clamped accumulation). -/
def stepFreqHalf (rom : Rom) (e : EnvHalf) : EnvHalf :=
  if e.active then
    let ea := { e with frameCtr := e.frameCtr - 1 }
    let eb := if ea.frameCtr ≤ 0 then envAdvanceFreq rom 300 ea else ea
    if eb.active then
      let acc := eb.accum + eb.delta
      let acc := if 0x7FFFFF < acc then 0x7FFFFF
        else if acc < -0x800000 then -0x800000 else acc
      { eb with accum := acc }
    else eb
  else e

/-- Per-frame step of the volume envelope half (clamped to `[-128, 127]`). -/
def stepVolHalf (rom : Rom) (e : EnvHalf) : EnvHalf :=
  if e.active then
    let ea := { e with frameCtr := e.frameCtr - 1 }
    let eb := if ea.frameCtr ≤ 0 then envAdvanceVol rom 300 ea else ea
    if eb.active then
      { eb with accum := max (-128) (min 127 (eb.accum + eb.delta)) }
    else eb
  else e

/-- Effective AUDF for a frame: `(base_audf + ((accum >> 8) & 0xFF)) & 0xFF`
(the source's negative-accumulator branch ORs `0xFF00` and then masks with
`0xFF`, which leaves the value unchanged; it is reproduced literally). -/
def envEffAudf (baseAudf : ℕ) (accum : ℤ) : ℕ :=
  let freqMid : ℤ := (accum / 256) % 256
  let freqMid :=
    if accum < 0 then
      (((accum / 256) % 256) + (if accum < -256 then 0xFF00 else 0)) % 256
    else freqMid
  (((baseAudf : ℤ) + freqMid) % 256).toNat

/-- Effective volume nibble: `clamp(base_vol + (vol_accum >> 3), 0, 15)`. -/
def envEffVol (baseVol : ℕ) (volAccum : ℤ) : ℕ :=
  (max 0 (min 15 (volAccum / 8 + (baseVol : ℤ)))).toNat

/-- `_step_pokey_envelopes`: run both envelope halves for up to `n`
frames, emitting one `pokey_note_on` per frame; with `stopOnSilence`
(rests without tempo) stop after 4 consecutive silent frames.  Returns the
final envelope state, the emitted events and the actual frame count. -/
def stepEnvFrames (rom : Rom) (chIdx baseAudf baseVol distortion : ℕ)
    (startFrame : ℚ) (stopOnSilence : Bool) :
    ℕ → ℕ → ℕ → PokeyEnv → PokeyEnv × List Event × ℕ
  | 0, _, _, env => (env, [], 0)
  | n + 1, idx, silent, env =>
    let f := stepFreqHalf rom env.freq
    let v := stepVolHalf rom env.vol
    let env' : PokeyEnv := ⟨f, v⟩
    let effAudf := envEffAudf baseAudf f.accum
    let effVol := envEffVol baseVol v.accum
    let effAudc := effVol ||| (distortion &&& 0xF0)
    let ev : Event := ⟨(startFrame + idx) / 120,
      .pokeyNoteOn chIdx effAudf effAudc⟩
    if stopOnSilence then
      if effVol = 0 then
        if 4 ≤ silent + 1 then (env', [ev], 1)
        else
          let (envF, evs, cnt) := stepEnvFrames rom chIdx baseAudf baseVol
            distortion startFrame stopOnSilence n (idx + 1) (silent + 1) env'
          (envF, ev :: evs, cnt + 1)
      else
        let (envF, evs, cnt) := stepEnvFrames rom chIdx baseAudf baseVol
          distortion startFrame stopOnSilence n (idx + 1) 0 env'
        (envF, ev :: evs, cnt + 1)
    else
      let (envF, evs, cnt) := stepEnvFrames rom chIdx baseAudf baseVol
        distortion startFrame stopOnSilence n (idx + 1) silent env'
      (envF, ev :: evs, cnt + 1)

/-- Interpreter state of `_interpret_sequence` (per-voice). -/
structure InterpState where
  pc : ℕ
  returnStack : List ℕ
  loopStack : List (ℕ × ℤ)
  tempo : ℕ
  volume : ℕ
  transpose : ℕ
  freqOffset : ℤ
  distortion : ℕ
  ctrlBits : ℕ
  repeatCount : ℕ
  freqEnvPtr : ℕ
  volEnvPtr : ℕ
  vars : List ℕ
  varReg : ℕ
  env : PokeyEnv
  cumulativeFrames : ℚ
  pokeyMode : Bool
  events : List Event
  deriving DecidableEq, Repr

/-- Initial interpreter state (`distortion = 0xA0`, 8 zero variables,
inactive envelopes, `hw_mode` from the caller). -/
def initInterpState (startAddr : ℕ) (pokeyMode : Bool) : InterpState :=
  { pc := startAddr, returnStack := [], loopStack := [], tempo := 0,
    volume := 0, transpose := 0, freqOffset := 0, distortion := 0xA0,
    ctrlBits := 0, repeatCount := 0, freqEnvPtr := 0, volEnvPtr := 0,
    vars := List.replicate 8 0, varReg := 0,
    env := ⟨initEnvHalf, initEnvHalf⟩, cumulativeFrames := 0,
    pokeyMode := pokeyMode, events := [] }

/-- Result of one trip through the interpreter's `for` loop body. -/
inductive StepResult
  | next (s : InterpState)
  | halt (s : InterpState)
  | err (e : String)
  deriving Repr

/-- Argument bytes per opcode from the `OPCODES` table (`none` below 0x80
or above 0xBA, mirroring the `byte0 not in OPCODES` membership test). -/
def opcodeArgBytes (b : ℕ) : Option ℕ :=
  if b < 0x80 ∨ 0xBA < b then none
  else if b = 0x86 ∨ b = 0x87 ∨ b = 0x8D ∨ b = 0x99 ∨ b = 0x9D ∨
    b = 0x9E ∨ b = 0x9F ∨ b = 0xA4 ∨ b = 0xAE ∨ b = 0xAF then some 2
  else if b = 0xB5 ∨ b = 0xB6 ∨ b = 0xB7 ∨ b = 0xB8 then some 3
  else some 1

/-- Sequential argument-byte reads, stopping at the first failed read. -/
def readArgs (rom : Rom) (base : ℕ) : ℕ → List ℕ
  | 0 => []
  | n + 1 =>
    match rom.readByte base with
    | .error _ => []
    | .ok v => v :: readArgs rom (base + 1) n

/-- Operator-block register bases of `_load_ym_voice`
(slot order M1, M2, C1, C2). -/
def ymVoiceRegBases : List ℕ :=
  [0x40, 0x60, 0x80, 0xA0, 0xC0, 0xE0,
   0x50, 0x70, 0x90, 0xB0, 0xD0, 0xF0,
   0x48, 0x68, 0x88, 0xA8, 0xC8, 0xE8,
   0x58, 0x78, 0x98, 0xB8, 0xD8, 0xF8]

/-- The 24 operator-parameter reads of `_load_ym_voice`; a failed read
keeps the writes collected so far (the source's `except: pass`). -/
def loadYmVoiceOps (rom : Rom) (ch : ℕ) : ℕ → List ℕ → List (ℕ × ℕ)
  | _, [] => []
  | ptr, r :: rs =>
    match rom.readByte ptr with
    | .error _ => []
    | .ok v => (r + ch, v) :: loadYmVoiceOps rom ch (ptr + 1) rs

/-- `SequenceInterpreter._load_ym_voice`. -/
def loadYmVoice (rom : Rom) (channel voicePtr : ℕ) : List (ℕ × ℕ) :=
  let ch := channel &&& 0x07
  match rom.readByte voicePtr with
  | .error _ => []
  | .ok fbCon =>
    (0x20 + ch, fbCon ||| 0xC0) :: loadYmVoiceOps rom ch (voicePtr + 1) ymVoiceRegBases

/-- YM2151-legal note codes per semitone. -/
def ymNotes : List ℕ := [0, 1, 2, 4, 5, 6, 8, 9, 10, 12, 13, 14]

/-- `Python n & ~m` for nonnegative ints (clear the bits of `m`). -/
def pyAndNot (n m : ℕ) : ℕ := Nat.ldiff n m

/-- The note/rest/chain branch of `_interpret_sequence` for a non-chain
duration byte (`byte1 ≠ 0`): duration lookup, note-on/off or rest
handling, envelope-driven per-frame emission, time-accumulator advance.
`int(dur_frames)` truncates a nonnegative float, hence `⌊·⌋.toNat`. -/
def noteStep (rom : Rom) (channelId : ℕ) (hasPokey hasYm : Bool)
    (s : InterpState) (byte0 byte1 : ℕ) : StepResult :=
  let durIdx := byte1 &&& 0x0F
  let dotted : Bool := byte1 &&& 0x40 != 0
  let sustain : Bool := byte1 &&& 0x80 != 0
  match (if durIdx = 0 then Except.ok 0
         else rom.readWord (DURATION_TABLE_ADDR + durIdx * 2)) with
  | .error e => .err e
  | .ok baseDur =>
    let durValue : ℚ := if dotted then (baseDur : ℚ) * 3 / 2 else (baseDur : ℚ)
    let durFrames : ℚ :=
      if 0 < s.tempo ∧ 0 < durValue then durValue / (s.tempo : ℚ) else 0
    let timeSecs := s.cumulativeFrames / 120
    let durSecs := durFrames / 120
    let pokeyChIdx := channelId &&& 0x03
    if byte0 ≠ 0 then
      let eff := effectiveNote byte0 s.transpose
      if s.pokeyMode && hasPokey then
        match rom.readWord (FREQ_TABLE_ADDR + eff * 2) with
        | .error e => .err e
        | .ok fw =>
          let fw2 : ℤ := ((fw : ℤ) + s.freqOffset) % 65536
          let baseAudf : ℕ := (fw2 % 256).toNat
          if s.env.freq.active || s.env.vol.active then
            let noteFrames := max 1 ⌊durFrames⌋.toNat
            let (env', evs, _) := stepEnvFrames rom pokeyChIdx baseAudf s.volume
              s.distortion s.cumulativeFrames false noteFrames 0 0 s.env
            let endT := (s.cumulativeFrames + (noteFrames : ℚ)) / 120
            let offEvs : List Event :=
              if !sustain then [⟨endT, .pokeyNoteOff pokeyChIdx⟩] else []
            .next { s with
                    env := env'
                    events := s.events ++ evs ++ offEvs
                    cumulativeFrames := s.cumulativeFrames + durFrames
                    pc := s.pc + 2 }
          else
            let audc := (s.volume &&& 0x0F) ||| (s.distortion &&& 0xF0)
            let offEvs : List Event :=
              if !sustain then [⟨timeSecs + durSecs, .pokeyNoteOff pokeyChIdx⟩]
              else []
            .next { s with
                    events := s.events ++
                      [⟨timeSecs, .pokeyNoteOn pokeyChIdx baseAudf audc⟩] ++ offEvs
                    cumulativeFrames := s.cumulativeFrames + durFrames
                    pc := s.pc + 2 }
      else if !s.pokeyMode && hasYm then
        let midi := eff - 1
        let octave := min 7 (midi / 12)
        let semitone := midi % 12
        let ymNote := if semitone < 12 then ymNotes.getD semitone 0 else 0
        let kc := (octave <<< 4) ||| ymNote
        .next { s with
                events := s.events ++
                  [⟨timeSecs, .ymNoteOn channelId kc s.volume⟩,
                   ⟨timeSecs + durSecs, .ymNoteOff channelId⟩]
                cumulativeFrames := s.cumulativeFrames + durFrames
                pc := s.pc + 2 }
      else
        .next { s with
                cumulativeFrames := s.cumulativeFrames + durFrames
                pc := s.pc + 2 }
    else
      if s.pokeyMode && hasPokey then
        if s.env.freq.active || s.env.vol.active then
          let useSilence : Bool := decide (durFrames < 1)
          let noteFrames :=
            if useSilence then 600 else max 1 ⌊durFrames⌋.toNat
          let (env', evs, actual) := stepEnvFrames rom pokeyChIdx 0 s.volume
            s.distortion s.cumulativeFrames useSilence noteFrames 0 0 s.env
          let durFrames' : ℚ :=
            max durFrames ((if useSilence then actual else noteFrames : ℕ) : ℚ)
          .next { s with
                  env := env'
                  events := s.events ++ evs
                  cumulativeFrames := s.cumulativeFrames + durFrames'
                  pc := s.pc + 2 }
        else
          .next { s with
                  events := s.events ++ [⟨timeSecs, .pokeyNoteOff pokeyChIdx⟩]
                  cumulativeFrames := s.cumulativeFrames + durFrames
                  pc := s.pc + 2 }
      else
        .next { s with
                cumulativeFrames := s.cumulativeFrames + durFrames
                pc := s.pc + 2 }

/-- Is an address inside the ROM CPU range (`ROM_BASE <= a <= ROM_END`)? -/
def inRomRange (a : ℕ) : Prop := ROM_BASE ≤ a ∧ a ≤ ROM_END

instance (a : ℕ) : Decidable (inRomRange a) := by
  unfold inRomRange; infer_instance

/-- The opcode dispatch (`0x80..0xBA`) of `_interpret_sequence`: the
`elif` chain followed by `pc += 1 + arg_bytes` when no branch jumped. -/
def opcodeStep (rom : Rom) (channelId : ℕ) (s : InterpState)
    (byte0 argBytes : ℕ) (args : List ℕ) : StepResult :=
  let a0 := args.getD 0 0
  let a1 := args.getD 1 0
  let a2 := args.getD 2 0
  let timeSecs := s.cumulativeFrames / 120
  let fall : InterpState → StepResult :=
    fun s' => .next { s' with pc := s.pc + 1 + argBytes }
  if byte0 = 0x80 ∧ args ≠ [] then
    fall { s with tempo := a0 >>> 2 }
  else if byte0 = 0x81 ∧ args ≠ [] then
    fall { s with tempo := (s.tempo + a0) &&& 0xFF }
  else if byte0 = 0x82 ∧ args ≠ [] then
    fall { s with volume := a0 }
  else if byte0 = 0x83 ∧ args ≠ [] then
    fall { s with volume := a0 }
  else if byte0 = 0x84 ∧ args ≠ [] then
    fall { s with transpose := (((s.transpose : ℤ) + sign8 a0) % 128).toNat }
  else if byte0 = 0x86 ∧ 2 ≤ args.length then
    let ptr := a0 ||| (a1 <<< 8)
    fall { s with
           freqEnvPtr := ptr
           env := { s.env with freq :=
             { active := true, ptr := ptr, pos := 0, frameCtr := 1,
               delta := 0, accum := 0, loopCount := -1 } } }
  else if byte0 = 0x87 ∧ 2 ≤ args.length then
    let ptr := a0 ||| (a1 <<< 8)
    fall { s with
           volEnvPtr := ptr
           env := { s.env with vol :=
             { active := true, ptr := ptr, pos := 0, frameCtr := 1,
               delta := 0, accum := 0, loopCount := -1 } } }
  else if byte0 = 0x89 ∧ args ≠ [] then
    fall { s with repeatCount := a0 }
  else if byte0 = 0x8A ∧ args ≠ [] then
    fall { s with distortion := a0 }
  else if byte0 = 0x8B ∧ args ≠ [] then
    let ctrl := s.ctrlBits ||| a0
    let evs : List Event :=
      if s.pokeyMode then [⟨timeSecs, .pokeyAudctl (ctrl &&& 0xFF)⟩] else []
    fall { s with
           ctrlBits := ctrl
           events := s.events ++ evs }
  else if byte0 = 0x8C ∧ args ≠ [] then
    let ctrl := pyAndNot s.ctrlBits a0
    let evs : List Event :=
      if s.pokeyMode then [⟨timeSecs, .pokeyAudctl (ctrl &&& 0xFF)⟩] else []
    fall { s with
           ctrlBits := ctrl
           events := s.events ++ evs }
  else if byte0 = 0x8D ∧ 2 ≤ args.length then
    let target := a0 ||| (a1 <<< 8)
    let ret := s.pc + 3
    if inRomRange target then
      .next { s with
              returnStack := ret :: s.returnStack
              pc := target }
    else .next { s with pc := ret }
  else if byte0 = 0x8E ∧ args ≠ [] then
    let loopStart := s.pc + 2
    if 1 < a0 then
      fall { s with loopStack := s.loopStack ++ [(loopStart, (a0 : ℤ))] }
    else fall s
  else if byte0 = 0x8F then
    match s.loopStack.getLast? with
    | some (st, c) =>
      let c' := c - 1
      if 0 < c' then
        .next { s with
                loopStack := s.loopStack.dropLast ++ [(st, c')]
                pc := st }
      else fall { s with loopStack := s.loopStack.dropLast }
    | none => fall s
  else if byte0 = 0x90 then
    fall { s with pokeyMode := true }
  else if byte0 = 0x91 then
    fall { s with pokeyMode := false }
  else if byte0 = 0x97 then
    fall { s with
           freqEnvPtr := 0
           volEnvPtr := 0
           env := ⟨{ s.env.freq with active := false, accum := 0 },
                   { s.env.vol with active := false, accum := 0 }⟩ }
  else if byte0 = 0x99 ∧ 2 ≤ args.length then
    let target := a0 ||| (a1 <<< 8)
    if inRomRange target then .next { s with pc := target }
    else .halt s
  else if byte0 = 0x9C then
    fall { s with pokeyMode := true }
  else if byte0 = 0x9D ∧ 2 ≤ args.length then
    if !s.pokeyMode then
      let writes := loadYmVoice rom channelId (a0 ||| (a1 <<< 8))
      fall { s with
             events := s.events ++
               writes.map (fun w => ⟨timeSecs, .ymRegWrite w.1 w.2⟩) }
    else fall s
  else if byte0 = 0x9E ∧ 2 ≤ args.length then
    fall s
  else if byte0 = 0x9F ∧ 2 ≤ args.length then
    if !s.pokeyMode then
      fall { s with events := s.events ++ [⟨timeSecs, .ymRegWrite a0 a1⟩] }
    else fall s
  else if byte0 = 0xA0 ∧ args ≠ [] then
    fall { s with freqOffset := sign8 a0 }
  else if byte0 = 0xA7 ∧ args ≠ [] then
    fall { s with freqOffset := (s.freqOffset + sign8 a0) % 0x10000 }
  else if byte0 = 0xA4 ∧ 2 ≤ args.length then
    if a0 < s.vars.length then
      fall { s with varReg := a0, vars := s.vars.set a0 a1 }
    else fall { s with varReg := a0 }
  else if byte0 = 0xA9 ∧ args ≠ [] then
    if s.varReg < s.vars.length then
      fall { s with
             vars := s.vars.set s.varReg ((s.vars.getD s.varReg 0 + a0) &&& 0xFF) }
    else fall s
  else if byte0 = 0xAA ∧ args ≠ [] then
    if s.varReg < s.vars.length then
      fall { s with
             vars := s.vars.set s.varReg
               ((((s.vars.getD s.varReg 0 : ℤ) - (a0 : ℤ)) % 256).toNat) }
    else fall s
  else if byte0 = 0xAE ∧ 2 ≤ args.length then
    let target := a0 ||| (a1 <<< 8)
    if s.varReg < s.vars.length ∧ s.vars.getD s.varReg 0 = 0 then
      if inRomRange target then .next { s with pc := target } else fall s
    else fall s
  else if byte0 = 0xAF ∧ 2 ≤ args.length then
    let target := a0 ||| (a1 <<< 8)
    if s.varReg < s.vars.length then
      let v := (s.vars.getD s.varReg 0 + 1) &&& 0xFF
      let s' := { s with vars := s.vars.set s.varReg v }
      if v = 0 then
        if inRomRange target then .next { s' with pc := target } else fall s'
      else fall s'
    else fall s
  else if byte0 = 0xB5 ∧ 3 ≤ args.length then
    let target := a1 ||| (a2 <<< 8)
    if a0 < s.vars.length ∧ s.vars.getD a0 0 = 0 then
      if inRomRange target then .next { s with pc := target } else fall s
    else fall s
  else if byte0 = 0xB6 ∧ 3 ≤ args.length then
    let target := a1 ||| (a2 <<< 8)
    if a0 < s.vars.length ∧ s.vars.getD a0 0 ≠ 0 then
      if inRomRange target then .next { s with pc := target } else fall s
    else fall s
  else if byte0 = 0xB7 ∧ 3 ≤ args.length then
    let target := a1 ||| (a2 <<< 8)
    if a0 < s.vars.length ∧ s.vars.getD a0 0 < 128 then
      if inRomRange target then .next { s with pc := target } else fall s
    else fall s
  else if byte0 = 0xB8 ∧ 3 ≤ args.length then
    let target := a1 ||| (a2 <<< 8)
    if a0 < s.vars.length ∧ 128 ≤ s.vars.getD a0 0 then
      if inRomRange target then .next { s with pc := target } else fall s
    else fall s
  else fall s

/-- One trip through the `for _ in range(50000)` loop body of
`_interpret_sequence`: frame-cap check, pc range check, byte fetch, END /
note / opcode dispatch.  The duration-byte read at `pc + 1` is *not*
guarded by a `try` in the source, so its failure propagates as `.err`. -/
def interpStep (rom : Rom) (channelId : ℕ) (hasPokey hasYm : Bool)
    (maxFrames : ℚ) (s : InterpState) : StepResult :=
  if maxFrames < s.cumulativeFrames then .halt s
  else if s.pc < ROM_BASE ∨ ROM_END < s.pc then .halt s
  else
    match rom.readByte s.pc with
    | .error e => .err e
    | .ok byte0 =>
      if 0xBB ≤ byte0 then
        .halt { s with
                events := s.events ++ [⟨s.cumulativeFrames / 120, .endOfTrack⟩] }
      else if byte0 ≤ 0x7F then
        match rom.readByte (s.pc + 1) with
        | .error e => .err e
        | .ok byte1 =>
          if byte1 = 0 then
            match s.returnStack with
            | r :: rest => .next { s with pc := r, returnStack := rest }
            | [] =>
              .halt { s with
                      events := s.events ++
                        [⟨s.cumulativeFrames / 120, .endOfTrack⟩] }
          else noteStep rom channelId hasPokey hasYm s byte0 byte1
      else
        match opcodeArgBytes byte0 with
        | none => .next { s with pc := s.pc + 2 }
        | some argBytes =>
          opcodeStep rom channelId s byte0 argBytes
            (readArgs rom (s.pc + 1) argBytes)

/-- The interpreter loop: at most `fuel` (50 000) iterations; `halt`
corresponds to `break`, fuel exhaustion to the `for` loop ending. -/
def interpRun (rom : Rom) (channelId : ℕ) (hasPokey hasYm : Bool)
    (maxFrames : ℚ) : ℕ → InterpState → Except String InterpState
  | 0, s => .ok s
  | n + 1, s =>
    match interpStep rom channelId hasPokey hasYm maxFrames s with
    | .next s' => interpRun rom channelId hasPokey hasYm maxFrames n s'
    | .halt s' => .ok s'
    | .err e => .error e

/-- `SequenceInterpreter._interpret_sequence`: run from `start_addr` with
the given hardware mode and emulator availability, producing the event
list (or the uncaught `ValueError`). -/
def interpretSequence (rom : Rom) (startAddr channelId : ℕ)
    (pokeyMode hasPokey hasYm : Bool) (maxSeconds : ℚ) :
    Except String (List Event) :=
  (interpRun rom channelId hasPokey hasYm (maxSeconds * 120) 50000
    (initInterpState startAddr pokeyMode)).map (·.events)

/-- Decidable equality for `Except` results (used to evaluate the
embedding on concrete inputs). -/
instance exceptDecEq {ε α : Type} [DecidableEq ε] [DecidableEq α] :
    DecidableEq (Except ε α) := fun x y =>
  match x, y with
  | .error e, .error e' =>
    if h : e = e' then isTrue (by rw [h])
    else isFalse (by intro hh; cases hh; exact h rfl)
  | .error _, .ok _ => isFalse (by intro h; cases h)
  | .ok _, .error _ => isFalse (by intro h; cases h)
  | .ok a, .ok b =>
    if h : a = b then isTrue (by rw [h])
    else isFalse (by intro hh; cases hh; exact h rfl)

/-- Envelope-inactive predicate on interpreter states. -/
def envInactive (s : InterpState) : Prop :=
  s.env.freq.active = false ∧ s.env.vol.active = false

instance (s : InterpState) : Decidable (envInactive s) := by
  unfold envInactive; infer_instance

/-- Concrete 48 KiB image for the FM sustain test: `SET_TEMPO 8`, then
note `0x10` with duration byte `0x81` (duration index 1, sustain bit set),
then `END`; duration-table entry 1 is 6. -/
def romC2 : Rom :=
  ⟨0xC000, fun i =>
    if i = 0 then 0x80 else if i = 1 then 8
    else if i = 2 then 0x10 else if i = 3 then 0x81
    else if i = 4 then 0xBB
    else if i = 0x1C61 then 6 else 0⟩

/-- Counterexample to claim C2: on the FM path the interpreter emits a
note-off at `t + dur_secs` even though the sustain bit (bit 7 of the
duration byte `0x81`) is set, so "emits a note-off iff the sustain bit is
clear" fails.  The trace is evaluated in full: the sustained note still
gets `ym_note_off` at `1/40` s. -/
theorem claim_C2_sustain_counterexample :
    romC2.readByte 0x4003 = .ok 0x81 ∧ 0x81 &&& 0x80 ≠ 0 ∧
    interpretSequence romC2 0x4000 4 false true true 30 =
      .ok [⟨0, .ymNoteOn 4 20 0⟩, ⟨1/40, .ymNoteOff 4⟩, ⟨1/40, .endOfTrack⟩] := by
  refine ⟨by decide, by decide, by decide⟩

/-- Each envelope-driven frame run of at least one frame starts with a
`pokey_note_on` at `(start_frame + idx) / 120`. -/
theorem stepEnvFrames_head (rom : Rom) (chIdx baseAudf baseVol distortion : ℕ)
    (startFrame : ℚ) (stop : Bool) (n idx silent : ℕ) (env : PokeyEnv)
    (hn : 1 ≤ n) :
    ∃ audf audc rest,
      (stepEnvFrames rom chIdx baseAudf baseVol distortion startFrame stop
        n idx silent env).2.1 =
        ⟨(startFrame + (idx : ℚ)) / 120,
          .pokeyNoteOn chIdx audf audc⟩ :: rest := by
  obtain ⟨m, rfl⟩ : ∃ m, n = m + 1 := ⟨n - 1, by omega⟩
  simp only [stepEnvFrames]
  split_ifs <;> exact ⟨_, _, _, rfl⟩

/-- Duration-to-frames conversion is nonnegative for nonnegative table values. -/
theorem durFrames_nonneg (t : ℕ) (v : ℚ) (hv : 0 ≤ v) :
    0 ≤ (if 0 < t ∧ 0 < v then v / (t : ℚ) else 0) := by
  split_ifs with h
  · exact div_nonneg hv (by positivity)
  · exact le_refl 0

/-- Claim C2 (amended): interpreting a note event (leading byte
`0x01..0x7F`, duration byte `byte1`) at time `t = cumulative_frames / 120`
either fails on a ROM read or advances `pc` by 2 and the frame accumulator
by a nonnegative duration `dur`, and emits: on the FM path a note-on at `t`
and a note-off at `t + dur/120` unconditionally (regardless of the sustain
bit); on the polychip path with inactive envelopes a note-on at `t` and a
note-off at `t + dur/120` exactly when the sustain bit (bit 7 of the
duration byte) is clear; on the polychip path with an active envelope a
note-on at `t` followed by further envelope frames and, exactly when the
sustain bit is clear, a note-off at `(cumulative_frames + max 1 ⌊dur⌋)/120`
-- not `t + dur/120`. -/
theorem claim_C2_note_emission (rom : Rom) (channelId : ℕ) (s : InterpState)
    (byte0 byte1 : ℕ) (hb0 : 1 ≤ byte0) (hb0h : byte0 ≤ 0x7F) (hb1 : byte1 ≠ 0) :
    (∃ e, noteStep rom channelId true true s byte0 byte1 = .err e) ∨
    ∃ sn dur, noteStep rom channelId true true s byte0 byte1 = .next sn ∧
      0 ≤ dur ∧
      sn.pc = s.pc + 2 ∧
      sn.cumulativeFrames = s.cumulativeFrames + dur ∧
      (s.pokeyMode = false →
        ∃ kc, sn.events = s.events ++
          [⟨s.cumulativeFrames / 120, .ymNoteOn channelId kc s.volume⟩,
           ⟨s.cumulativeFrames / 120 + dur / 120, .ymNoteOff channelId⟩]) ∧
      (s.pokeyMode = true → envInactive s →
        ∃ audf audc, sn.events = s.events ++
          [⟨s.cumulativeFrames / 120, .pokeyNoteOn (channelId &&& 0x03) audf audc⟩] ++
          (if byte1 &&& 0x80 = 0 then
            [⟨s.cumulativeFrames / 120 + dur / 120,
              .pokeyNoteOff (channelId &&& 0x03)⟩]
           else [])) ∧
      (s.pokeyMode = true → ¬ envInactive s →
        ∃ audf audc rest, sn.events = s.events ++
          (⟨s.cumulativeFrames / 120, .pokeyNoteOn (channelId &&& 0x03) audf audc⟩ :: rest) ++
          (if byte1 &&& 0x80 = 0 then
            [⟨(s.cumulativeFrames + ((max 1 ⌊dur⌋.toNat : ℕ) : ℚ)) / 120,
              .pokeyNoteOff (channelId &&& 0x03)⟩]
           else [])) := by
  have hb0ne : byte0 ≠ 0 := by omega
  simp only [noteStep]
  rcases hq : (if byte1 &&& 0x0F = 0 then Except.ok 0
      else rom.readWord (DURATION_TABLE_ADDR + (byte1 &&& 0x0F) * 2)) with e | baseDur
  · exact Or.inl ⟨e, rfl⟩
  · dsimp only
    rw [if_pos hb0ne]
    set dv : ℚ := (if (byte1 &&& 0x40 != 0) = true then (baseDur : ℚ) * 3 / 2 else (baseDur : ℚ)) with hdv
    set df : ℚ := (if 0 < s.tempo ∧ 0 < dv then dv / (s.tempo : ℚ) else 0) with hdf
    have hdfn : 0 ≤ df := by
      rw [hdf]
      exact durFrames_nonneg _ _ (by rw [hdv]; split_ifs <;> positivity)
    cases hpm : s.pokeyMode
    case false =>
      simp only [Bool.false_and, Bool.not_false, Bool.true_and]
      rw [if_pos trivial]
      right
      refine ⟨_, df, rfl, hdfn, rfl, rfl, ?_, ?_, ?_⟩
      · intro _
        exact ⟨_, rfl⟩
      · intro h _
        cases h
      · intro h _
        cases h
    case true =>
      simp only [Bool.true_and]
      rw [if_pos trivial]
      rcases hfw : rom.readWord (FREQ_TABLE_ADDR + effectiveNote byte0 s.transpose * 2) with e2 | fw
      · exact Or.inl ⟨e2, rfl⟩
      · dsimp only
        cases hact : (s.env.freq.active || s.env.vol.active)
        case false =>
          rw [if_neg Bool.false_ne_true]
          have henv : envInactive s := by
            constructor
            · exact (Bool.or_eq_false_iff.mp hact).1
            · exact (Bool.or_eq_false_iff.mp hact).2
          by_cases hs : byte1 &&& 0x80 = 0
          · rw [if_pos (by simp [hs] : (!(byte1 &&& 0x80 != 0)) = true)]
            right
            refine ⟨_, df, rfl, hdfn, rfl, rfl, ?_, ?_, ?_⟩
            · intro h
              cases h
            · intro _ _
              rw [if_pos hs]
              exact ⟨_, _, rfl⟩
            · intro _ hni
              exact absurd henv hni
          · rw [if_neg (by simp [hs] : ¬((!(byte1 &&& 0x80 != 0)) = true))]
            right
            refine ⟨_, df, rfl, hdfn, rfl, rfl, ?_, ?_, ?_⟩
            · intro h
              cases h
            · intro _ _
              rw [if_neg hs]
              exact ⟨_, _, rfl⟩
            · intro _ hni
              exact absurd henv hni
        case true =>
          rw [if_pos rfl]
          have hnenv : ¬ envInactive s := by
            intro ⟨h1, h2⟩
            rw [h1, h2] at hact
            cases hact
          obtain ⟨audf, audc, rest, hhead⟩ := stepEnvFrames_head rom (channelId &&& 0x03)
            (((fw : ℤ) + s.freqOffset) % 65536 % 256).toNat s.volume s.distortion
            s.cumulativeFrames false (max 1 ⌊df⌋.toNat) 0 0 s.env (le_max_left _ _)
          simp only [Nat.cast_zero, add_zero] at hhead
          by_cases hs : byte1 &&& 0x80 = 0
          · rw [if_pos (by simp [hs] : (!(byte1 &&& 0x80 != 0)) = true)]
            right
            refine ⟨_, df, rfl, hdfn, rfl, rfl, ?_, ?_, ?_⟩
            · intro h
              cases h
            · intro _ hni
              exact absurd hni hnenv
            · intro _ _
              rw [if_pos hs]
              exact ⟨audf, audc, rest, by rw [hhead]⟩
          · rw [if_neg (by simp [hs] : ¬((!(byte1 &&& 0x80 != 0)) = true))]
            right
            refine ⟨_, df, rfl, hdfn, rfl, rfl, ?_, ?_, ?_⟩
            · intro h
              cases h
            · intro _ hni
              exact absurd hni hnenv
            · intro _ _
              rw [if_neg hs]
              exact ⟨audf, audc, rest, by rw [hhead]⟩



/-- All-zero full-size ROM for the C2 witness instantiation. -/
def romC2w : Rom := ⟨0xC000, fun _ => 0⟩

/-- Witness: Claim C2 amended theorem applied at a concrete ROM, state and
note bytes, with all hypotheses discharged. -/
theorem claim_C2_note_emission_witness :
    (1 : ℕ) ≤ 0x10 ∧ (0x10 : ℕ) ≤ 0x7F ∧ (0x81 : ℕ) ≠ 0 ∧
    ((∃ e, noteStep romC2w 4 true true (initInterpState 0x4003 false) 0x10 0x81 = .err e) ∨
    ∃ sn dur, noteStep romC2w 4 true true (initInterpState 0x4003 false) 0x10 0x81 = .next sn ∧
      0 ≤ dur ∧
      sn.pc = (initInterpState 0x4003 false).pc + 2 ∧
      sn.cumulativeFrames = (initInterpState 0x4003 false).cumulativeFrames + dur ∧
      ((initInterpState 0x4003 false).pokeyMode = false →
        ∃ kc, sn.events = (initInterpState 0x4003 false).events ++
          [⟨(initInterpState 0x4003 false).cumulativeFrames / 120, .ymNoteOn 4 kc (initInterpState 0x4003 false).volume⟩,
           ⟨(initInterpState 0x4003 false).cumulativeFrames / 120 + dur / 120, .ymNoteOff 4⟩]) ∧
      ((initInterpState 0x4003 false).pokeyMode = true → envInactive (initInterpState 0x4003 false) →
        ∃ audf audc, sn.events = (initInterpState 0x4003 false).events ++
          [⟨(initInterpState 0x4003 false).cumulativeFrames / 120, .pokeyNoteOn (4 &&& 0x03) audf audc⟩] ++
          (if (0x81 : ℕ) &&& 0x80 = 0 then
            [⟨(initInterpState 0x4003 false).cumulativeFrames / 120 + dur / 120,
              .pokeyNoteOff (4 &&& 0x03)⟩]
           else [])) ∧
      ((initInterpState 0x4003 false).pokeyMode = true → ¬ envInactive (initInterpState 0x4003 false) →
        ∃ audf audc rest, sn.events = (initInterpState 0x4003 false).events ++
          (⟨(initInterpState 0x4003 false).cumulativeFrames / 120, .pokeyNoteOn (4 &&& 0x03) audf audc⟩ :: rest) ++
          (if (0x81 : ℕ) &&& 0x80 = 0 then
            [⟨((initInterpState 0x4003 false).cumulativeFrames + ((max 1 ⌊dur⌋.toNat : ℕ) : ℚ)) / 120,
              .pokeyNoteOff (4 &&& 0x03)⟩]
           else []))) :=
  ⟨by norm_num, by norm_num, by norm_num,
   claim_C2_note_emission romC2w 4 (initInterpState 0x4003 false) 0x10 0x81
     (by norm_num) (by norm_num) (by norm_num)⟩

/-- No event of the list is an end-of-track marker. -/
def noEndEvents (l : List Event) : Prop :=
  ∀ e ∈ l, e.kind ≠ EventKind.endOfTrack

/-- Number of end-of-track events in a list. -/
def endCount (l : List Event) : ℕ :=
  l.countP (fun e => decide (e.kind = EventKind.endOfTrack))

/-- endCount distributes over append. -/
theorem endCount_append (l1 l2 : List Event) :
    endCount (l1 ++ l2) = endCount l1 + endCount l2 :=
  List.countP_append _ _ _

/-- A list with no end-of-track markers has endCount zero. -/
theorem endCount_eq_zero {l : List Event} (h : noEndEvents l) :
    endCount l = 0 := by
  refine List.countP_eq_zero.mpr ?_
  intro e he
  simpa using h e he

/-- A successful byte read returns the underlying file byte. -/
theorem readByte_ok_eq {rom : Rom} {a v : ℕ} (h : rom.readByte a = .ok v) :
    v = rom.data (a - ROM_BASE) := by
  unfold Rom.readByte Rom.offset at h
  split_ifs at h <;> simp [Except.map] at h
  exact h.symm

/-- Envelope frame runs emit only note-on events, never end-of-track. -/
theorem stepEnvFrames_noEnd (rom : Rom) (chIdx bA bV dist : ℕ) (sf : ℚ)
    (stop : Bool) : ∀ (n idx silent : ℕ) (env : PokeyEnv),
    noEndEvents (stepEnvFrames rom chIdx bA bV dist sf stop n idx silent env).2.1 := by
  intro n
  induction n with
  | zero =>
    intro idx silent env
    intro e he
    simp [stepEnvFrames] at he
  | succ m ih =>
    intro idx silent env
    simp only [stepEnvFrames]
    split_ifs
    · intro e he
      simp at he
      subst he
      simp
    · intro e he
      simp at he
      rcases he with he | he
      · subst he; simp
      · exact ih _ _ _ e he
    · intro e he
      simp at he
      rcases he with he | he
      · subst he; simp
      · exact ih _ _ _ e he
    · intro e he
      simp at he
      rcases he with he | he
      · subst he; simp
      · exact ih _ _ _ e he

/-- Operator-block loading emits at most one write per register base. -/
theorem loadYmVoiceOps_length (rom : Rom) (ch : ℕ) :
    ∀ (bases : List ℕ) (ptr : ℕ),
    (loadYmVoiceOps rom ch ptr bases).length ≤ bases.length := by
  intro bases
  induction bases with
  | nil => intro ptr; simp [loadYmVoiceOps]
  | cons b bs ih =>
    intro ptr
    simp only [loadYmVoiceOps]
    rcases rom.readByte ptr with e | v
    · simp
    · simpa using Nat.succ_le_succ (ih (ptr + 1))

/-- A voice load emits at most 25 register writes. -/
theorem loadYmVoice_length (rom : Rom) (channel voicePtr : ℕ) :
    (loadYmVoice rom channel voicePtr).length ≤ 25 := by
  unfold loadYmVoice
  rcases rom.readByte voicePtr with e | v
  · simp
  · simpa using loadYmVoiceOps_length rom (channel &&& 7) ymVoiceRegBases (voicePtr + 1)


/-- Per-note step invariants: the frame accumulator never decreases, the
appended events carry no end-of-track marker, and with inactive envelopes
the appended tail (at most two events) is time-sorted and bounded by the
old and new accumulator frames. -/
theorem noteStep_spec (rom : Rom) (channelId : ℕ) (hp hy : Bool)
    (s : InterpState) (byte0 byte1 : ℕ) (s1 : InterpState)
    (h : noteStep rom channelId hp hy s byte0 byte1 = .next s1) :
    s.cumulativeFrames ≤ s1.cumulativeFrames ∧
    (∃ tail, s1.events = s.events ++ tail ∧ noEndEvents tail) ∧
    (envInactive s →
      envInactive s1 ∧
      ∃ tail, s1.events = s.events ++ tail ∧ tail.length ≤ 2 ∧
        tail.Chain' (fun a b => a.time ≤ b.time) ∧
        ∀ e ∈ tail, s.cumulativeFrames / 120 ≤ e.time ∧
          e.time ≤ s1.cumulativeFrames / 120) := by
  revert h
  simp only [noteStep]
  rcases hq : (if byte1 &&& 0x0F = 0 then Except.ok 0
      else rom.readWord (DURATION_TABLE_ADDR + (byte1 &&& 0x0F) * 2)) with e | baseDur
  · intro h
    cases h
  · dsimp only
    set dv : ℚ := (if (byte1 &&& 0x40 != 0) = true then (baseDur : ℚ) * 3 / 2 else (baseDur : ℚ)) with hdv
    set df : ℚ := (if 0 < s.tempo ∧ 0 < dv then dv / (s.tempo : ℚ) else 0) with hdf
    have hdfn : 0 ≤ df := by
      rw [hdf]
      exact durFrames_nonneg _ _ (by rw [hdv]; split_ifs <;> positivity)
    have hdiv : s.cumulativeFrames / 120 ≤ (s.cumulativeFrames + df) / 120 := by
      gcongr
      linarith
    by_cases hb0 : byte0 ≠ 0
    · rw [if_pos hb0]
      cases hpm : s.pokeyMode
      · skip
        simp only [Bool.false_and, Bool.not_false, Bool.true_and]
        rw [if_neg Bool.false_ne_true]
        cases hy
        · skip
          rw [if_neg Bool.false_ne_true]
          intro h
          cases h
          refine ⟨by dsimp only; linarith, ⟨[], by simp, by intro e he; simp at he⟩, ?_⟩
          intro he
          exact ⟨he, [], by simp, by simp, by simp, by simp⟩
        · skip
          rw [if_pos rfl]
          intro h
          cases h
          refine ⟨by dsimp only; linarith, ⟨_, rfl, ?_⟩, ?_⟩
          · intro e he
            simp at he
            rcases he with he | he <;> subst he <;> simp
          · intro he
            refine ⟨he, _, rfl, by simp, ?_, ?_⟩
            · refine List.chain'_cons.mpr ⟨?_, by simp⟩
              simp only
              linarith [div_nonneg hdfn (by norm_num : (0:ℚ) ≤ 120)]
            · intro e he2
              simp at he2
              rcases he2 with he2 | he2 <;> subst he2 <;> constructor <;> simp only
              · exact le_refl _
              · exact hdiv
              · linarith [div_nonneg hdfn (by norm_num : (0:ℚ) ≤ 120)]
              · rw [div_add_div_same]
      · skip
        simp only [Bool.true_and]
        cases hp
        · skip
          rw [if_neg Bool.false_ne_true]
          simp only [Bool.not_true, Bool.false_and]
          rw [if_neg Bool.false_ne_true]
          intro h
          cases h
          refine ⟨by dsimp only; linarith, ⟨[], by simp, by intro e he; simp at he⟩, ?_⟩
          intro he
          exact ⟨he, [], by simp, by simp, by simp, by simp⟩
        · skip
          rw [if_pos rfl]
          rcases hfw : rom.readWord (FREQ_TABLE_ADDR + effectiveNote byte0 s.transpose * 2) with e2 | fw
          · intro h
            cases h
          · dsimp only
            cases hact : (s.env.freq.active || s.env.vol.active)
            · skip
              rw [if_neg Bool.false_ne_true]
              have henv1 : envInactive s :=
                ⟨(Bool.or_eq_false_iff.mp hact).1, (Bool.or_eq_false_iff.mp hact).2⟩
              cases hsb : (byte1 &&& 0x80 != 0)
              · skip
                simp only [hsb, Bool.not_false]
                rw [if_pos trivial]
                intro h
                cases h
                refine ⟨by dsimp only; linarith, ⟨_, List.append_assoc _ _ _, ?_⟩, ?_⟩
                · intro e he
                  simp at he
                  rcases he with he | he <;> subst he <;> simp
                · intro he
                  refine ⟨he, _, List.append_assoc _ _ _, by simp, ?_, ?_⟩
                  · refine List.chain'_append.mpr ⟨by simp, by simp, ?_⟩
                    intro x hx y hy2
                    simp at hx hy2
                    subst hx
                    subst hy2
                    simp only
                    linarith [div_nonneg hdfn (by norm_num : (0:ℚ) ≤ 120)]
                  · intro e he2
                    simp at he2
                    rcases he2 with he2 | he2 <;> subst he2 <;> constructor <;> simp only
                    · exact le_refl _
                    · exact hdiv
                    · linarith [div_nonneg hdfn (by norm_num : (0:ℚ) ≤ 120)]
                    · rw [div_add_div_same]
              · skip
                simp only [hsb, Bool.not_true]
                rw [if_neg Bool.false_ne_true]
                intro h
                cases h
                refine ⟨by dsimp only; linarith, ⟨_, List.append_assoc _ _ _, ?_⟩, ?_⟩
                · intro e he
                  simp at he
                  subst he
                  simp
                · intro he
                  refine ⟨he, _, List.append_assoc _ _ _, by simp, by simp, ?_⟩
                  intro e he2
                  simp at he2
                  subst he2
                  exact ⟨le_refl _, hdiv⟩
            · skip
              rw [if_pos rfl]
              intro h
              cases h
              have hnend := stepEnvFrames_noEnd rom (channelId &&& 0x03)
                (((fw : ℤ) + s.freqOffset) % 65536 % 256).toNat s.volume s.distortion
                s.cumulativeFrames false (max 1 ⌊df⌋.toNat) 0 0 s.env
              refine ⟨by dsimp only; linarith, ⟨_, (List.append_assoc _ _ _), ?_⟩, ?_⟩
              · intro e he
                rcases List.mem_append.mp he with he | he
                · exact hnend e he
                · revert he
                  cases hsb : (byte1 &&& 0x80 != 0)
                  · simp only [hsb, Bool.not_false]
                    rw [if_pos trivial]
                    intro he
                    simp at he
                    subst he
                    simp
                  · simp only [hsb, Bool.not_true]
                    rw [if_neg Bool.false_ne_true]
                    intro he
                    simp at he
              · intro he
                rw [he.1, he.2] at hact
                cases hact
    · rw [if_neg hb0]
      cases hpm : s.pokeyMode
      · skip
        simp only [Bool.false_and]
        rw [if_neg Bool.false_ne_true]
        intro h
        cases h
        refine ⟨by dsimp only; linarith, ⟨[], by simp, by intro e he; simp at he⟩, ?_⟩
        intro he
        exact ⟨he, [], by simp, by simp, by simp, by simp⟩
      · skip
        simp only [Bool.true_and]
        cases hp
        · skip
          rw [if_neg Bool.false_ne_true]
          intro h
          cases h
          refine ⟨by dsimp only; linarith, ⟨[], by simp, by intro e he; simp at he⟩, ?_⟩
          intro he
          exact ⟨he, [], by simp, by simp, by simp, by simp⟩
        · skip
          rw [if_pos rfl]
          cases hact : (s.env.freq.active || s.env.vol.active)
          · skip
            rw [if_neg Bool.false_ne_true]
            intro h
            cases h
            refine ⟨by dsimp only; linarith, ⟨_, rfl, ?_⟩, ?_⟩
            · intro e he
              simp at he
              subst he
              simp
            · intro he
              refine ⟨he, _, rfl, by simp, by simp, ?_⟩
              intro e he2
              simp at he2
              subst he2
              exact ⟨le_refl _, hdiv⟩
          · skip
            rw [if_pos rfl]
            intro h
            cases h
            have hnend := stepEnvFrames_noEnd rom (channelId &&& 0x03) 0 s.volume
              s.distortion s.cumulativeFrames (decide (df < 1))
              (if decide (df < 1) = true then 600 else max 1 ⌊df⌋.toNat) 0 0 s.env
            refine ⟨?_, ⟨_, rfl, fun e he => hnend e he⟩, ?_⟩
            · dsimp only
              have : df ≤ max df ((((if decide (df < 1) = true then
                  (stepEnvFrames rom (channelId &&& 0x03) 0 s.volume s.distortion
                    s.cumulativeFrames (decide (df < 1))
                    (if decide (df < 1) = true then 600 else max 1 ⌊df⌋.toNat) 0 0 s.env).2.2
                  else (if decide (df < 1) = true then 600 else max 1 ⌊df⌋.toNat)) : ℕ) : ℚ)) :=
                le_max_left _ _
              linarith
            · intro he
              rw [he.1, he.2] at hact
              cases hact


set_option maxHeartbeats 4000000 in
/-- Per-opcode invariants: the frame accumulator is unchanged, at most 25
events are appended (all at the current time, none an end-of-track
marker), and any opcode other than the two envelope starters preserves
envelope inactivity. -/
theorem opcodeStep_spec (rom : Rom) (channelId : ℕ) (s : InterpState)
    (b0 ab : ℕ) (args : List ℕ) (s1 : InterpState)
    (h : opcodeStep rom channelId s b0 ab args = .next s1) :
    s1.cumulativeFrames = s.cumulativeFrames ∧
    (∃ tail, s1.events = s.events ++ tail ∧ noEndEvents tail ∧ tail.length ≤ 25 ∧
      ∀ e ∈ tail, e.time = s.cumulativeFrames / 120) ∧
    (b0 ≠ 0x86 → b0 ≠ 0x87 → envInactive s → envInactive s1) := by
  simp only [opcodeStep] at h
  by_cases c0 : b0 = 0x80 ∧ args ≠ []
  · rw [if_pos c0] at h
    repeat' split at h
    all_goals cases h
    all_goals refine ⟨rfl, ?_, ?_⟩
    all_goals try exact ⟨[], (List.append_nil _).symm,
      fun e he => absurd he (List.not_mem_nil e), Nat.zero_le 25,
      fun e he => absurd he (List.not_mem_nil e)⟩
    all_goals try exact ⟨[], rfl,
      fun e he => absurd he (List.not_mem_nil e), Nat.zero_le 25,
      fun e he => absurd he (List.not_mem_nil e)⟩
    all_goals try exact fun _ _ he => he
    all_goals try exact fun _ _ _ => ⟨rfl, rfl⟩
    all_goals try exact ⟨_, rfl,
      by intro e he; rcases List.mem_singleton.mp he with rfl; intro hk; exact (nomatch hk),
      by norm_num,
      by intro e he; rcases List.mem_singleton.mp he with rfl; rfl⟩
    all_goals try exact ⟨_, rfl,
      by intro e he; rcases List.mem_map.mp he with ⟨w, hw, rfl⟩; intro hk; exact (nomatch hk),
      by simpa using loadYmVoice_length rom channelId _,
      by intro e he; rcases List.mem_map.mp he with ⟨w, hw, rfl⟩; rfl⟩
    all_goals intro hne hne7 _
    all_goals exfalso
    all_goals omega
  · rw [if_neg c0] at h
    by_cases c1 : b0 = 0x81 ∧ args ≠ []
    · rw [if_pos c1] at h
      repeat' split at h
      all_goals cases h
      all_goals refine ⟨rfl, ?_, ?_⟩
      all_goals try exact ⟨[], (List.append_nil _).symm,
        fun e he => absurd he (List.not_mem_nil e), Nat.zero_le 25,
        fun e he => absurd he (List.not_mem_nil e)⟩
      all_goals try exact ⟨[], rfl,
        fun e he => absurd he (List.not_mem_nil e), Nat.zero_le 25,
        fun e he => absurd he (List.not_mem_nil e)⟩
      all_goals try exact fun _ _ he => he
      all_goals try exact fun _ _ _ => ⟨rfl, rfl⟩
      all_goals try exact ⟨_, rfl,
        by intro e he; rcases List.mem_singleton.mp he with rfl; intro hk; exact (nomatch hk),
        by norm_num,
        by intro e he; rcases List.mem_singleton.mp he with rfl; rfl⟩
      all_goals try exact ⟨_, rfl,
        by intro e he; rcases List.mem_map.mp he with ⟨w, hw, rfl⟩; intro hk; exact (nomatch hk),
        by simpa using loadYmVoice_length rom channelId _,
        by intro e he; rcases List.mem_map.mp he with ⟨w, hw, rfl⟩; rfl⟩
      all_goals intro hne hne7 _
      all_goals exfalso
      all_goals omega
    · rw [if_neg c1] at h
      by_cases c2 : b0 = 0x82 ∧ args ≠ []
      · rw [if_pos c2] at h
        repeat' split at h
        all_goals cases h
        all_goals refine ⟨rfl, ?_, ?_⟩
        all_goals try exact ⟨[], (List.append_nil _).symm,
          fun e he => absurd he (List.not_mem_nil e), Nat.zero_le 25,
          fun e he => absurd he (List.not_mem_nil e)⟩
        all_goals try exact ⟨[], rfl,
          fun e he => absurd he (List.not_mem_nil e), Nat.zero_le 25,
          fun e he => absurd he (List.not_mem_nil e)⟩
        all_goals try exact fun _ _ he => he
        all_goals try exact fun _ _ _ => ⟨rfl, rfl⟩
        all_goals try exact ⟨_, rfl,
          by intro e he; rcases List.mem_singleton.mp he with rfl; intro hk; exact (nomatch hk),
          by norm_num,
          by intro e he; rcases List.mem_singleton.mp he with rfl; rfl⟩
        all_goals try exact ⟨_, rfl,
          by intro e he; rcases List.mem_map.mp he with ⟨w, hw, rfl⟩; intro hk; exact (nomatch hk),
          by simpa using loadYmVoice_length rom channelId _,
          by intro e he; rcases List.mem_map.mp he with ⟨w, hw, rfl⟩; rfl⟩
        all_goals intro hne hne7 _
        all_goals exfalso
        all_goals omega
      · rw [if_neg c2] at h
        by_cases c3 : b0 = 0x83 ∧ args ≠ []
        · rw [if_pos c3] at h
          repeat' split at h
          all_goals cases h
          all_goals refine ⟨rfl, ?_, ?_⟩
          all_goals try exact ⟨[], (List.append_nil _).symm,
            fun e he => absurd he (List.not_mem_nil e), Nat.zero_le 25,
            fun e he => absurd he (List.not_mem_nil e)⟩
          all_goals try exact ⟨[], rfl,
            fun e he => absurd he (List.not_mem_nil e), Nat.zero_le 25,
            fun e he => absurd he (List.not_mem_nil e)⟩
          all_goals try exact fun _ _ he => he
          all_goals try exact fun _ _ _ => ⟨rfl, rfl⟩
          all_goals try exact ⟨_, rfl,
            by intro e he; rcases List.mem_singleton.mp he with rfl; intro hk; exact (nomatch hk),
            by norm_num,
            by intro e he; rcases List.mem_singleton.mp he with rfl; rfl⟩
          all_goals try exact ⟨_, rfl,
            by intro e he; rcases List.mem_map.mp he with ⟨w, hw, rfl⟩; intro hk; exact (nomatch hk),
            by simpa using loadYmVoice_length rom channelId _,
            by intro e he; rcases List.mem_map.mp he with ⟨w, hw, rfl⟩; rfl⟩
          all_goals intro hne hne7 _
          all_goals exfalso
          all_goals omega
        · rw [if_neg c3] at h
          by_cases c4 : b0 = 0x84 ∧ args ≠ []
          · rw [if_pos c4] at h
            repeat' split at h
            all_goals cases h
            all_goals refine ⟨rfl, ?_, ?_⟩
            all_goals try exact ⟨[], (List.append_nil _).symm,
              fun e he => absurd he (List.not_mem_nil e), Nat.zero_le 25,
              fun e he => absurd he (List.not_mem_nil e)⟩
            all_goals try exact ⟨[], rfl,
              fun e he => absurd he (List.not_mem_nil e), Nat.zero_le 25,
              fun e he => absurd he (List.not_mem_nil e)⟩
            all_goals try exact fun _ _ he => he
            all_goals try exact fun _ _ _ => ⟨rfl, rfl⟩
            all_goals try exact ⟨_, rfl,
              by intro e he; rcases List.mem_singleton.mp he with rfl; intro hk; exact (nomatch hk),
              by norm_num,
              by intro e he; rcases List.mem_singleton.mp he with rfl; rfl⟩
            all_goals try exact ⟨_, rfl,
              by intro e he; rcases List.mem_map.mp he with ⟨w, hw, rfl⟩; intro hk; exact (nomatch hk),
              by simpa using loadYmVoice_length rom channelId _,
              by intro e he; rcases List.mem_map.mp he with ⟨w, hw, rfl⟩; rfl⟩
            all_goals intro hne hne7 _
            all_goals exfalso
            all_goals omega
          · rw [if_neg c4] at h
            by_cases c5 : b0 = 0x86 ∧ 2 ≤ args.length
            · rw [if_pos c5] at h
              repeat' split at h
              all_goals cases h
              all_goals refine ⟨rfl, ?_, ?_⟩
              all_goals try exact ⟨[], (List.append_nil _).symm,
                fun e he => absurd he (List.not_mem_nil e), Nat.zero_le 25,
                fun e he => absurd he (List.not_mem_nil e)⟩
              all_goals try exact ⟨[], rfl,
                fun e he => absurd he (List.not_mem_nil e), Nat.zero_le 25,
                fun e he => absurd he (List.not_mem_nil e)⟩
              all_goals try exact fun _ _ he => he
              all_goals try exact fun _ _ _ => ⟨rfl, rfl⟩
              all_goals try exact ⟨_, rfl,
                by intro e he; rcases List.mem_singleton.mp he with rfl; intro hk; exact (nomatch hk),
                by norm_num,
                by intro e he; rcases List.mem_singleton.mp he with rfl; rfl⟩
              all_goals try exact ⟨_, rfl,
                by intro e he; rcases List.mem_map.mp he with ⟨w, hw, rfl⟩; intro hk; exact (nomatch hk),
                by simpa using loadYmVoice_length rom channelId _,
                by intro e he; rcases List.mem_map.mp he with ⟨w, hw, rfl⟩; rfl⟩
              all_goals intro hne hne7 _
              all_goals exfalso
              all_goals omega
            · rw [if_neg c5] at h
              by_cases c6 : b0 = 0x87 ∧ 2 ≤ args.length
              · rw [if_pos c6] at h
                repeat' split at h
                all_goals cases h
                all_goals refine ⟨rfl, ?_, ?_⟩
                all_goals try exact ⟨[], (List.append_nil _).symm,
                  fun e he => absurd he (List.not_mem_nil e), Nat.zero_le 25,
                  fun e he => absurd he (List.not_mem_nil e)⟩
                all_goals try exact ⟨[], rfl,
                  fun e he => absurd he (List.not_mem_nil e), Nat.zero_le 25,
                  fun e he => absurd he (List.not_mem_nil e)⟩
                all_goals try exact fun _ _ he => he
                all_goals try exact fun _ _ _ => ⟨rfl, rfl⟩
                all_goals try exact ⟨_, rfl,
                  by intro e he; rcases List.mem_singleton.mp he with rfl; intro hk; exact (nomatch hk),
                  by norm_num,
                  by intro e he; rcases List.mem_singleton.mp he with rfl; rfl⟩
                all_goals try exact ⟨_, rfl,
                  by intro e he; rcases List.mem_map.mp he with ⟨w, hw, rfl⟩; intro hk; exact (nomatch hk),
                  by simpa using loadYmVoice_length rom channelId _,
                  by intro e he; rcases List.mem_map.mp he with ⟨w, hw, rfl⟩; rfl⟩
                all_goals intro hne hne7 _
                all_goals exfalso
                all_goals omega
              · rw [if_neg c6] at h
                by_cases c7 : b0 = 0x89 ∧ args ≠ []
                · rw [if_pos c7] at h
                  repeat' split at h
                  all_goals cases h
                  all_goals refine ⟨rfl, ?_, ?_⟩
                  all_goals try exact ⟨[], (List.append_nil _).symm,
                    fun e he => absurd he (List.not_mem_nil e), Nat.zero_le 25,
                    fun e he => absurd he (List.not_mem_nil e)⟩
                  all_goals try exact ⟨[], rfl,
                    fun e he => absurd he (List.not_mem_nil e), Nat.zero_le 25,
                    fun e he => absurd he (List.not_mem_nil e)⟩
                  all_goals try exact fun _ _ he => he
                  all_goals try exact fun _ _ _ => ⟨rfl, rfl⟩
                  all_goals try exact ⟨_, rfl,
                    by intro e he; rcases List.mem_singleton.mp he with rfl; intro hk; exact (nomatch hk),
                    by norm_num,
                    by intro e he; rcases List.mem_singleton.mp he with rfl; rfl⟩
                  all_goals try exact ⟨_, rfl,
                    by intro e he; rcases List.mem_map.mp he with ⟨w, hw, rfl⟩; intro hk; exact (nomatch hk),
                    by simpa using loadYmVoice_length rom channelId _,
                    by intro e he; rcases List.mem_map.mp he with ⟨w, hw, rfl⟩; rfl⟩
                  all_goals intro hne hne7 _
                  all_goals exfalso
                  all_goals omega
                · rw [if_neg c7] at h
                  by_cases c8 : b0 = 0x8A ∧ args ≠ []
                  · rw [if_pos c8] at h
                    repeat' split at h
                    all_goals cases h
                    all_goals refine ⟨rfl, ?_, ?_⟩
                    all_goals try exact ⟨[], (List.append_nil _).symm,
                      fun e he => absurd he (List.not_mem_nil e), Nat.zero_le 25,
                      fun e he => absurd he (List.not_mem_nil e)⟩
                    all_goals try exact ⟨[], rfl,
                      fun e he => absurd he (List.not_mem_nil e), Nat.zero_le 25,
                      fun e he => absurd he (List.not_mem_nil e)⟩
                    all_goals try exact fun _ _ he => he
                    all_goals try exact fun _ _ _ => ⟨rfl, rfl⟩
                    all_goals try exact ⟨_, rfl,
                      by intro e he; rcases List.mem_singleton.mp he with rfl; intro hk; exact (nomatch hk),
                      by norm_num,
                      by intro e he; rcases List.mem_singleton.mp he with rfl; rfl⟩
                    all_goals try exact ⟨_, rfl,
                      by intro e he; rcases List.mem_map.mp he with ⟨w, hw, rfl⟩; intro hk; exact (nomatch hk),
                      by simpa using loadYmVoice_length rom channelId _,
                      by intro e he; rcases List.mem_map.mp he with ⟨w, hw, rfl⟩; rfl⟩
                    all_goals intro hne hne7 _
                    all_goals exfalso
                    all_goals omega
                  · rw [if_neg c8] at h
                    by_cases c9 : b0 = 0x8B ∧ args ≠ []
                    · rw [if_pos c9] at h
                      repeat' split at h
                      all_goals cases h
                      all_goals refine ⟨rfl, ?_, ?_⟩
                      all_goals try exact ⟨[], (List.append_nil _).symm,
                        fun e he => absurd he (List.not_mem_nil e), Nat.zero_le 25,
                        fun e he => absurd he (List.not_mem_nil e)⟩
                      all_goals try exact ⟨[], rfl,
                        fun e he => absurd he (List.not_mem_nil e), Nat.zero_le 25,
                        fun e he => absurd he (List.not_mem_nil e)⟩
                      all_goals try exact fun _ _ he => he
                      all_goals try exact fun _ _ _ => ⟨rfl, rfl⟩
                      all_goals try exact ⟨_, rfl,
                        by intro e he; rcases List.mem_singleton.mp he with rfl; intro hk; exact (nomatch hk),
                        by norm_num,
                        by intro e he; rcases List.mem_singleton.mp he with rfl; rfl⟩
                      all_goals try exact ⟨_, rfl,
                        by intro e he; rcases List.mem_map.mp he with ⟨w, hw, rfl⟩; intro hk; exact (nomatch hk),
                        by simpa using loadYmVoice_length rom channelId _,
                        by intro e he; rcases List.mem_map.mp he with ⟨w, hw, rfl⟩; rfl⟩
                      all_goals intro hne hne7 _
                      all_goals exfalso
                      all_goals omega
                    · rw [if_neg c9] at h
                      by_cases c10 : b0 = 0x8C ∧ args ≠ []
                      · rw [if_pos c10] at h
                        repeat' split at h
                        all_goals cases h
                        all_goals refine ⟨rfl, ?_, ?_⟩
                        all_goals try exact ⟨[], (List.append_nil _).symm,
                          fun e he => absurd he (List.not_mem_nil e), Nat.zero_le 25,
                          fun e he => absurd he (List.not_mem_nil e)⟩
                        all_goals try exact ⟨[], rfl,
                          fun e he => absurd he (List.not_mem_nil e), Nat.zero_le 25,
                          fun e he => absurd he (List.not_mem_nil e)⟩
                        all_goals try exact fun _ _ he => he
                        all_goals try exact fun _ _ _ => ⟨rfl, rfl⟩
                        all_goals try exact ⟨_, rfl,
                          by intro e he; rcases List.mem_singleton.mp he with rfl; intro hk; exact (nomatch hk),
                          by norm_num,
                          by intro e he; rcases List.mem_singleton.mp he with rfl; rfl⟩
                        all_goals try exact ⟨_, rfl,
                          by intro e he; rcases List.mem_map.mp he with ⟨w, hw, rfl⟩; intro hk; exact (nomatch hk),
                          by simpa using loadYmVoice_length rom channelId _,
                          by intro e he; rcases List.mem_map.mp he with ⟨w, hw, rfl⟩; rfl⟩
                        all_goals intro hne hne7 _
                        all_goals exfalso
                        all_goals omega
                      · rw [if_neg c10] at h
                        by_cases c11 : b0 = 0x8D ∧ 2 ≤ args.length
                        · rw [if_pos c11] at h
                          repeat' split at h
                          all_goals cases h
                          all_goals refine ⟨rfl, ?_, ?_⟩
                          all_goals try exact ⟨[], (List.append_nil _).symm,
                            fun e he => absurd he (List.not_mem_nil e), Nat.zero_le 25,
                            fun e he => absurd he (List.not_mem_nil e)⟩
                          all_goals try exact ⟨[], rfl,
                            fun e he => absurd he (List.not_mem_nil e), Nat.zero_le 25,
                            fun e he => absurd he (List.not_mem_nil e)⟩
                          all_goals try exact fun _ _ he => he
                          all_goals try exact fun _ _ _ => ⟨rfl, rfl⟩
                          all_goals try exact ⟨_, rfl,
                            by intro e he; rcases List.mem_singleton.mp he with rfl; intro hk; exact (nomatch hk),
                            by norm_num,
                            by intro e he; rcases List.mem_singleton.mp he with rfl; rfl⟩
                          all_goals try exact ⟨_, rfl,
                            by intro e he; rcases List.mem_map.mp he with ⟨w, hw, rfl⟩; intro hk; exact (nomatch hk),
                            by simpa using loadYmVoice_length rom channelId _,
                            by intro e he; rcases List.mem_map.mp he with ⟨w, hw, rfl⟩; rfl⟩
                          all_goals intro hne hne7 _
                          all_goals exfalso
                          all_goals omega
                        · rw [if_neg c11] at h
                          by_cases c12 : b0 = 0x8E ∧ args ≠ []
                          · rw [if_pos c12] at h
                            repeat' split at h
                            all_goals cases h
                            all_goals refine ⟨rfl, ?_, ?_⟩
                            all_goals try exact ⟨[], (List.append_nil _).symm,
                              fun e he => absurd he (List.not_mem_nil e), Nat.zero_le 25,
                              fun e he => absurd he (List.not_mem_nil e)⟩
                            all_goals try exact ⟨[], rfl,
                              fun e he => absurd he (List.not_mem_nil e), Nat.zero_le 25,
                              fun e he => absurd he (List.not_mem_nil e)⟩
                            all_goals try exact fun _ _ he => he
                            all_goals try exact fun _ _ _ => ⟨rfl, rfl⟩
                            all_goals try exact ⟨_, rfl,
                              by intro e he; rcases List.mem_singleton.mp he with rfl; intro hk; exact (nomatch hk),
                              by norm_num,
                              by intro e he; rcases List.mem_singleton.mp he with rfl; rfl⟩
                            all_goals try exact ⟨_, rfl,
                              by intro e he; rcases List.mem_map.mp he with ⟨w, hw, rfl⟩; intro hk; exact (nomatch hk),
                              by simpa using loadYmVoice_length rom channelId _,
                              by intro e he; rcases List.mem_map.mp he with ⟨w, hw, rfl⟩; rfl⟩
                            all_goals intro hne hne7 _
                            all_goals exfalso
                            all_goals omega
                          · rw [if_neg c12] at h
                            by_cases c13 : b0 = 0x8F
                            · rw [if_pos c13] at h
                              repeat' split at h
                              all_goals cases h
                              all_goals refine ⟨rfl, ?_, ?_⟩
                              all_goals try exact ⟨[], (List.append_nil _).symm,
                                fun e he => absurd he (List.not_mem_nil e), Nat.zero_le 25,
                                fun e he => absurd he (List.not_mem_nil e)⟩
                              all_goals try exact ⟨[], rfl,
                                fun e he => absurd he (List.not_mem_nil e), Nat.zero_le 25,
                                fun e he => absurd he (List.not_mem_nil e)⟩
                              all_goals try exact fun _ _ he => he
                              all_goals try exact fun _ _ _ => ⟨rfl, rfl⟩
                              all_goals try exact ⟨_, rfl,
                                by intro e he; rcases List.mem_singleton.mp he with rfl; intro hk; exact (nomatch hk),
                                by norm_num,
                                by intro e he; rcases List.mem_singleton.mp he with rfl; rfl⟩
                              all_goals try exact ⟨_, rfl,
                                by intro e he; rcases List.mem_map.mp he with ⟨w, hw, rfl⟩; intro hk; exact (nomatch hk),
                                by simpa using loadYmVoice_length rom channelId _,
                                by intro e he; rcases List.mem_map.mp he with ⟨w, hw, rfl⟩; rfl⟩
                              all_goals intro hne hne7 _
                              all_goals exfalso
                              all_goals omega
                            · rw [if_neg c13] at h
                              by_cases c14 : b0 = 0x90
                              · rw [if_pos c14] at h
                                repeat' split at h
                                all_goals cases h
                                all_goals refine ⟨rfl, ?_, ?_⟩
                                all_goals try exact ⟨[], (List.append_nil _).symm,
                                  fun e he => absurd he (List.not_mem_nil e), Nat.zero_le 25,
                                  fun e he => absurd he (List.not_mem_nil e)⟩
                                all_goals try exact ⟨[], rfl,
                                  fun e he => absurd he (List.not_mem_nil e), Nat.zero_le 25,
                                  fun e he => absurd he (List.not_mem_nil e)⟩
                                all_goals try exact fun _ _ he => he
                                all_goals try exact fun _ _ _ => ⟨rfl, rfl⟩
                                all_goals try exact ⟨_, rfl,
                                  by intro e he; rcases List.mem_singleton.mp he with rfl; intro hk; exact (nomatch hk),
                                  by norm_num,
                                  by intro e he; rcases List.mem_singleton.mp he with rfl; rfl⟩
                                all_goals try exact ⟨_, rfl,
                                  by intro e he; rcases List.mem_map.mp he with ⟨w, hw, rfl⟩; intro hk; exact (nomatch hk),
                                  by simpa using loadYmVoice_length rom channelId _,
                                  by intro e he; rcases List.mem_map.mp he with ⟨w, hw, rfl⟩; rfl⟩
                                all_goals intro hne hne7 _
                                all_goals exfalso
                                all_goals omega
                              · rw [if_neg c14] at h
                                by_cases c15 : b0 = 0x91
                                · rw [if_pos c15] at h
                                  repeat' split at h
                                  all_goals cases h
                                  all_goals refine ⟨rfl, ?_, ?_⟩
                                  all_goals try exact ⟨[], (List.append_nil _).symm,
                                    fun e he => absurd he (List.not_mem_nil e), Nat.zero_le 25,
                                    fun e he => absurd he (List.not_mem_nil e)⟩
                                  all_goals try exact ⟨[], rfl,
                                    fun e he => absurd he (List.not_mem_nil e), Nat.zero_le 25,
                                    fun e he => absurd he (List.not_mem_nil e)⟩
                                  all_goals try exact fun _ _ he => he
                                  all_goals try exact fun _ _ _ => ⟨rfl, rfl⟩
                                  all_goals try exact ⟨_, rfl,
                                    by intro e he; rcases List.mem_singleton.mp he with rfl; intro hk; exact (nomatch hk),
                                    by norm_num,
                                    by intro e he; rcases List.mem_singleton.mp he with rfl; rfl⟩
                                  all_goals try exact ⟨_, rfl,
                                    by intro e he; rcases List.mem_map.mp he with ⟨w, hw, rfl⟩; intro hk; exact (nomatch hk),
                                    by simpa using loadYmVoice_length rom channelId _,
                                    by intro e he; rcases List.mem_map.mp he with ⟨w, hw, rfl⟩; rfl⟩
                                  all_goals intro hne hne7 _
                                  all_goals exfalso
                                  all_goals omega
                                · rw [if_neg c15] at h
                                  by_cases c16 : b0 = 0x97
                                  · rw [if_pos c16] at h
                                    repeat' split at h
                                    all_goals cases h
                                    all_goals refine ⟨rfl, ?_, ?_⟩
                                    all_goals try exact ⟨[], (List.append_nil _).symm,
                                      fun e he => absurd he (List.not_mem_nil e), Nat.zero_le 25,
                                      fun e he => absurd he (List.not_mem_nil e)⟩
                                    all_goals try exact ⟨[], rfl,
                                      fun e he => absurd he (List.not_mem_nil e), Nat.zero_le 25,
                                      fun e he => absurd he (List.not_mem_nil e)⟩
                                    all_goals try exact fun _ _ he => he
                                    all_goals try exact fun _ _ _ => ⟨rfl, rfl⟩
                                    all_goals try exact ⟨_, rfl,
                                      by intro e he; rcases List.mem_singleton.mp he with rfl; intro hk; exact (nomatch hk),
                                      by norm_num,
                                      by intro e he; rcases List.mem_singleton.mp he with rfl; rfl⟩
                                    all_goals try exact ⟨_, rfl,
                                      by intro e he; rcases List.mem_map.mp he with ⟨w, hw, rfl⟩; intro hk; exact (nomatch hk),
                                      by simpa using loadYmVoice_length rom channelId _,
                                      by intro e he; rcases List.mem_map.mp he with ⟨w, hw, rfl⟩; rfl⟩
                                    all_goals intro hne hne7 _
                                    all_goals exfalso
                                    all_goals omega
                                  · rw [if_neg c16] at h
                                    by_cases c17 : b0 = 0x99 ∧ 2 ≤ args.length
                                    · rw [if_pos c17] at h
                                      repeat' split at h
                                      all_goals cases h
                                      all_goals refine ⟨rfl, ?_, ?_⟩
                                      all_goals try exact ⟨[], (List.append_nil _).symm,
                                        fun e he => absurd he (List.not_mem_nil e), Nat.zero_le 25,
                                        fun e he => absurd he (List.not_mem_nil e)⟩
                                      all_goals try exact ⟨[], rfl,
                                        fun e he => absurd he (List.not_mem_nil e), Nat.zero_le 25,
                                        fun e he => absurd he (List.not_mem_nil e)⟩
                                      all_goals try exact fun _ _ he => he
                                      all_goals try exact fun _ _ _ => ⟨rfl, rfl⟩
                                      all_goals try exact ⟨_, rfl,
                                        by intro e he; rcases List.mem_singleton.mp he with rfl; intro hk; exact (nomatch hk),
                                        by norm_num,
                                        by intro e he; rcases List.mem_singleton.mp he with rfl; rfl⟩
                                      all_goals try exact ⟨_, rfl,
                                        by intro e he; rcases List.mem_map.mp he with ⟨w, hw, rfl⟩; intro hk; exact (nomatch hk),
                                        by simpa using loadYmVoice_length rom channelId _,
                                        by intro e he; rcases List.mem_map.mp he with ⟨w, hw, rfl⟩; rfl⟩
                                      all_goals intro hne hne7 _
                                      all_goals exfalso
                                      all_goals omega
                                    · rw [if_neg c17] at h
                                      by_cases c18 : b0 = 0x9C
                                      · rw [if_pos c18] at h
                                        repeat' split at h
                                        all_goals cases h
                                        all_goals refine ⟨rfl, ?_, ?_⟩
                                        all_goals try exact ⟨[], (List.append_nil _).symm,
                                          fun e he => absurd he (List.not_mem_nil e), Nat.zero_le 25,
                                          fun e he => absurd he (List.not_mem_nil e)⟩
                                        all_goals try exact ⟨[], rfl,
                                          fun e he => absurd he (List.not_mem_nil e), Nat.zero_le 25,
                                          fun e he => absurd he (List.not_mem_nil e)⟩
                                        all_goals try exact fun _ _ he => he
                                        all_goals try exact fun _ _ _ => ⟨rfl, rfl⟩
                                        all_goals try exact ⟨_, rfl,
                                          by intro e he; rcases List.mem_singleton.mp he with rfl; intro hk; exact (nomatch hk),
                                          by norm_num,
                                          by intro e he; rcases List.mem_singleton.mp he with rfl; rfl⟩
                                        all_goals try exact ⟨_, rfl,
                                          by intro e he; rcases List.mem_map.mp he with ⟨w, hw, rfl⟩; intro hk; exact (nomatch hk),
                                          by simpa using loadYmVoice_length rom channelId _,
                                          by intro e he; rcases List.mem_map.mp he with ⟨w, hw, rfl⟩; rfl⟩
                                        all_goals intro hne hne7 _
                                        all_goals exfalso
                                        all_goals omega
                                      · rw [if_neg c18] at h
                                        by_cases c19 : b0 = 0x9D ∧ 2 ≤ args.length
                                        · rw [if_pos c19] at h
                                          repeat' split at h
                                          all_goals cases h
                                          all_goals refine ⟨rfl, ?_, ?_⟩
                                          all_goals try exact ⟨[], (List.append_nil _).symm,
                                            fun e he => absurd he (List.not_mem_nil e), Nat.zero_le 25,
                                            fun e he => absurd he (List.not_mem_nil e)⟩
                                          all_goals try exact ⟨[], rfl,
                                            fun e he => absurd he (List.not_mem_nil e), Nat.zero_le 25,
                                            fun e he => absurd he (List.not_mem_nil e)⟩
                                          all_goals try exact fun _ _ he => he
                                          all_goals try exact fun _ _ _ => ⟨rfl, rfl⟩
                                          all_goals try exact ⟨_, rfl,
                                            by intro e he; rcases List.mem_singleton.mp he with rfl; intro hk; exact (nomatch hk),
                                            by norm_num,
                                            by intro e he; rcases List.mem_singleton.mp he with rfl; rfl⟩
                                          all_goals try exact ⟨_, rfl,
                                            by intro e he; rcases List.mem_map.mp he with ⟨w, hw, rfl⟩; intro hk; exact (nomatch hk),
                                            by simpa using loadYmVoice_length rom channelId _,
                                            by intro e he; rcases List.mem_map.mp he with ⟨w, hw, rfl⟩; rfl⟩
                                          all_goals intro hne hne7 _
                                          all_goals exfalso
                                          all_goals omega
                                        · rw [if_neg c19] at h
                                          by_cases c20 : b0 = 0x9E ∧ 2 ≤ args.length
                                          · rw [if_pos c20] at h
                                            repeat' split at h
                                            all_goals cases h
                                            all_goals refine ⟨rfl, ?_, ?_⟩
                                            all_goals try exact ⟨[], (List.append_nil _).symm,
                                              fun e he => absurd he (List.not_mem_nil e), Nat.zero_le 25,
                                              fun e he => absurd he (List.not_mem_nil e)⟩
                                            all_goals try exact ⟨[], rfl,
                                              fun e he => absurd he (List.not_mem_nil e), Nat.zero_le 25,
                                              fun e he => absurd he (List.not_mem_nil e)⟩
                                            all_goals try exact fun _ _ he => he
                                            all_goals try exact fun _ _ _ => ⟨rfl, rfl⟩
                                            all_goals try exact ⟨_, rfl,
                                              by intro e he; rcases List.mem_singleton.mp he with rfl; intro hk; exact (nomatch hk),
                                              by norm_num,
                                              by intro e he; rcases List.mem_singleton.mp he with rfl; rfl⟩
                                            all_goals try exact ⟨_, rfl,
                                              by intro e he; rcases List.mem_map.mp he with ⟨w, hw, rfl⟩; intro hk; exact (nomatch hk),
                                              by simpa using loadYmVoice_length rom channelId _,
                                              by intro e he; rcases List.mem_map.mp he with ⟨w, hw, rfl⟩; rfl⟩
                                            all_goals intro hne hne7 _
                                            all_goals exfalso
                                            all_goals omega
                                          · rw [if_neg c20] at h
                                            by_cases c21 : b0 = 0x9F ∧ 2 ≤ args.length
                                            · rw [if_pos c21] at h
                                              repeat' split at h
                                              all_goals cases h
                                              all_goals refine ⟨rfl, ?_, ?_⟩
                                              all_goals try exact ⟨[], (List.append_nil _).symm,
                                                fun e he => absurd he (List.not_mem_nil e), Nat.zero_le 25,
                                                fun e he => absurd he (List.not_mem_nil e)⟩
                                              all_goals try exact ⟨[], rfl,
                                                fun e he => absurd he (List.not_mem_nil e), Nat.zero_le 25,
                                                fun e he => absurd he (List.not_mem_nil e)⟩
                                              all_goals try exact fun _ _ he => he
                                              all_goals try exact fun _ _ _ => ⟨rfl, rfl⟩
                                              all_goals try exact ⟨_, rfl,
                                                by intro e he; rcases List.mem_singleton.mp he with rfl; intro hk; exact (nomatch hk),
                                                by norm_num,
                                                by intro e he; rcases List.mem_singleton.mp he with rfl; rfl⟩
                                              all_goals try exact ⟨_, rfl,
                                                by intro e he; rcases List.mem_map.mp he with ⟨w, hw, rfl⟩; intro hk; exact (nomatch hk),
                                                by simpa using loadYmVoice_length rom channelId _,
                                                by intro e he; rcases List.mem_map.mp he with ⟨w, hw, rfl⟩; rfl⟩
                                              all_goals intro hne hne7 _
                                              all_goals exfalso
                                              all_goals omega
                                            · rw [if_neg c21] at h
                                              by_cases c22 : b0 = 0xA0 ∧ args ≠ []
                                              · rw [if_pos c22] at h
                                                repeat' split at h
                                                all_goals cases h
                                                all_goals refine ⟨rfl, ?_, ?_⟩
                                                all_goals try exact ⟨[], (List.append_nil _).symm,
                                                  fun e he => absurd he (List.not_mem_nil e), Nat.zero_le 25,
                                                  fun e he => absurd he (List.not_mem_nil e)⟩
                                                all_goals try exact ⟨[], rfl,
                                                  fun e he => absurd he (List.not_mem_nil e), Nat.zero_le 25,
                                                  fun e he => absurd he (List.not_mem_nil e)⟩
                                                all_goals try exact fun _ _ he => he
                                                all_goals try exact fun _ _ _ => ⟨rfl, rfl⟩
                                                all_goals try exact ⟨_, rfl,
                                                  by intro e he; rcases List.mem_singleton.mp he with rfl; intro hk; exact (nomatch hk),
                                                  by norm_num,
                                                  by intro e he; rcases List.mem_singleton.mp he with rfl; rfl⟩
                                                all_goals try exact ⟨_, rfl,
                                                  by intro e he; rcases List.mem_map.mp he with ⟨w, hw, rfl⟩; intro hk; exact (nomatch hk),
                                                  by simpa using loadYmVoice_length rom channelId _,
                                                  by intro e he; rcases List.mem_map.mp he with ⟨w, hw, rfl⟩; rfl⟩
                                                all_goals intro hne hne7 _
                                                all_goals exfalso
                                                all_goals omega
                                              · rw [if_neg c22] at h
                                                by_cases c23 : b0 = 0xA7 ∧ args ≠ []
                                                · rw [if_pos c23] at h
                                                  repeat' split at h
                                                  all_goals cases h
                                                  all_goals refine ⟨rfl, ?_, ?_⟩
                                                  all_goals try exact ⟨[], (List.append_nil _).symm,
                                                    fun e he => absurd he (List.not_mem_nil e), Nat.zero_le 25,
                                                    fun e he => absurd he (List.not_mem_nil e)⟩
                                                  all_goals try exact ⟨[], rfl,
                                                    fun e he => absurd he (List.not_mem_nil e), Nat.zero_le 25,
                                                    fun e he => absurd he (List.not_mem_nil e)⟩
                                                  all_goals try exact fun _ _ he => he
                                                  all_goals try exact fun _ _ _ => ⟨rfl, rfl⟩
                                                  all_goals try exact ⟨_, rfl,
                                                    by intro e he; rcases List.mem_singleton.mp he with rfl; intro hk; exact (nomatch hk),
                                                    by norm_num,
                                                    by intro e he; rcases List.mem_singleton.mp he with rfl; rfl⟩
                                                  all_goals try exact ⟨_, rfl,
                                                    by intro e he; rcases List.mem_map.mp he with ⟨w, hw, rfl⟩; intro hk; exact (nomatch hk),
                                                    by simpa using loadYmVoice_length rom channelId _,
                                                    by intro e he; rcases List.mem_map.mp he with ⟨w, hw, rfl⟩; rfl⟩
                                                  all_goals intro hne hne7 _
                                                  all_goals exfalso
                                                  all_goals omega
                                                · rw [if_neg c23] at h
                                                  by_cases c24 : b0 = 0xA4 ∧ 2 ≤ args.length
                                                  · rw [if_pos c24] at h
                                                    repeat' split at h
                                                    all_goals cases h
                                                    all_goals refine ⟨rfl, ?_, ?_⟩
                                                    all_goals try exact ⟨[], (List.append_nil _).symm,
                                                      fun e he => absurd he (List.not_mem_nil e), Nat.zero_le 25,
                                                      fun e he => absurd he (List.not_mem_nil e)⟩
                                                    all_goals try exact ⟨[], rfl,
                                                      fun e he => absurd he (List.not_mem_nil e), Nat.zero_le 25,
                                                      fun e he => absurd he (List.not_mem_nil e)⟩
                                                    all_goals try exact fun _ _ he => he
                                                    all_goals try exact fun _ _ _ => ⟨rfl, rfl⟩
                                                    all_goals try exact ⟨_, rfl,
                                                      by intro e he; rcases List.mem_singleton.mp he with rfl; intro hk; exact (nomatch hk),
                                                      by norm_num,
                                                      by intro e he; rcases List.mem_singleton.mp he with rfl; rfl⟩
                                                    all_goals try exact ⟨_, rfl,
                                                      by intro e he; rcases List.mem_map.mp he with ⟨w, hw, rfl⟩; intro hk; exact (nomatch hk),
                                                      by simpa using loadYmVoice_length rom channelId _,
                                                      by intro e he; rcases List.mem_map.mp he with ⟨w, hw, rfl⟩; rfl⟩
                                                    all_goals intro hne hne7 _
                                                    all_goals exfalso
                                                    all_goals omega
                                                  · rw [if_neg c24] at h
                                                    by_cases c25 : b0 = 0xA9 ∧ args ≠ []
                                                    · rw [if_pos c25] at h
                                                      repeat' split at h
                                                      all_goals cases h
                                                      all_goals refine ⟨rfl, ?_, ?_⟩
                                                      all_goals try exact ⟨[], (List.append_nil _).symm,
                                                        fun e he => absurd he (List.not_mem_nil e), Nat.zero_le 25,
                                                        fun e he => absurd he (List.not_mem_nil e)⟩
                                                      all_goals try exact ⟨[], rfl,
                                                        fun e he => absurd he (List.not_mem_nil e), Nat.zero_le 25,
                                                        fun e he => absurd he (List.not_mem_nil e)⟩
                                                      all_goals try exact fun _ _ he => he
                                                      all_goals try exact fun _ _ _ => ⟨rfl, rfl⟩
                                                      all_goals try exact ⟨_, rfl,
                                                        by intro e he; rcases List.mem_singleton.mp he with rfl; intro hk; exact (nomatch hk),
                                                        by norm_num,
                                                        by intro e he; rcases List.mem_singleton.mp he with rfl; rfl⟩
                                                      all_goals try exact ⟨_, rfl,
                                                        by intro e he; rcases List.mem_map.mp he with ⟨w, hw, rfl⟩; intro hk; exact (nomatch hk),
                                                        by simpa using loadYmVoice_length rom channelId _,
                                                        by intro e he; rcases List.mem_map.mp he with ⟨w, hw, rfl⟩; rfl⟩
                                                      all_goals intro hne hne7 _
                                                      all_goals exfalso
                                                      all_goals omega
                                                    · rw [if_neg c25] at h
                                                      by_cases c26 : b0 = 0xAA ∧ args ≠ []
                                                      · rw [if_pos c26] at h
                                                        repeat' split at h
                                                        all_goals cases h
                                                        all_goals refine ⟨rfl, ?_, ?_⟩
                                                        all_goals try exact ⟨[], (List.append_nil _).symm,
                                                          fun e he => absurd he (List.not_mem_nil e), Nat.zero_le 25,
                                                          fun e he => absurd he (List.not_mem_nil e)⟩
                                                        all_goals try exact ⟨[], rfl,
                                                          fun e he => absurd he (List.not_mem_nil e), Nat.zero_le 25,
                                                          fun e he => absurd he (List.not_mem_nil e)⟩
                                                        all_goals try exact fun _ _ he => he
                                                        all_goals try exact fun _ _ _ => ⟨rfl, rfl⟩
                                                        all_goals try exact ⟨_, rfl,
                                                          by intro e he; rcases List.mem_singleton.mp he with rfl; intro hk; exact (nomatch hk),
                                                          by norm_num,
                                                          by intro e he; rcases List.mem_singleton.mp he with rfl; rfl⟩
                                                        all_goals try exact ⟨_, rfl,
                                                          by intro e he; rcases List.mem_map.mp he with ⟨w, hw, rfl⟩; intro hk; exact (nomatch hk),
                                                          by simpa using loadYmVoice_length rom channelId _,
                                                          by intro e he; rcases List.mem_map.mp he with ⟨w, hw, rfl⟩; rfl⟩
                                                        all_goals intro hne hne7 _
                                                        all_goals exfalso
                                                        all_goals omega
                                                      · rw [if_neg c26] at h
                                                        by_cases c27 : b0 = 0xAE ∧ 2 ≤ args.length
                                                        · rw [if_pos c27] at h
                                                          repeat' split at h
                                                          all_goals cases h
                                                          all_goals refine ⟨rfl, ?_, ?_⟩
                                                          all_goals try exact ⟨[], (List.append_nil _).symm,
                                                            fun e he => absurd he (List.not_mem_nil e), Nat.zero_le 25,
                                                            fun e he => absurd he (List.not_mem_nil e)⟩
                                                          all_goals try exact ⟨[], rfl,
                                                            fun e he => absurd he (List.not_mem_nil e), Nat.zero_le 25,
                                                            fun e he => absurd he (List.not_mem_nil e)⟩
                                                          all_goals try exact fun _ _ he => he
                                                          all_goals try exact fun _ _ _ => ⟨rfl, rfl⟩
                                                          all_goals try exact ⟨_, rfl,
                                                            by intro e he; rcases List.mem_singleton.mp he with rfl; intro hk; exact (nomatch hk),
                                                            by norm_num,
                                                            by intro e he; rcases List.mem_singleton.mp he with rfl; rfl⟩
                                                          all_goals try exact ⟨_, rfl,
                                                            by intro e he; rcases List.mem_map.mp he with ⟨w, hw, rfl⟩; intro hk; exact (nomatch hk),
                                                            by simpa using loadYmVoice_length rom channelId _,
                                                            by intro e he; rcases List.mem_map.mp he with ⟨w, hw, rfl⟩; rfl⟩
                                                          all_goals intro hne hne7 _
                                                          all_goals exfalso
                                                          all_goals omega
                                                        · rw [if_neg c27] at h
                                                          by_cases c28 : b0 = 0xAF ∧ 2 ≤ args.length
                                                          · rw [if_pos c28] at h
                                                            repeat' split at h
                                                            all_goals cases h
                                                            all_goals refine ⟨rfl, ?_, ?_⟩
                                                            all_goals try exact ⟨[], (List.append_nil _).symm,
                                                              fun e he => absurd he (List.not_mem_nil e), Nat.zero_le 25,
                                                              fun e he => absurd he (List.not_mem_nil e)⟩
                                                            all_goals try exact ⟨[], rfl,
                                                              fun e he => absurd he (List.not_mem_nil e), Nat.zero_le 25,
                                                              fun e he => absurd he (List.not_mem_nil e)⟩
                                                            all_goals try exact fun _ _ he => he
                                                            all_goals try exact fun _ _ _ => ⟨rfl, rfl⟩
                                                            all_goals try exact ⟨_, rfl,
                                                              by intro e he; rcases List.mem_singleton.mp he with rfl; intro hk; exact (nomatch hk),
                                                              by norm_num,
                                                              by intro e he; rcases List.mem_singleton.mp he with rfl; rfl⟩
                                                            all_goals try exact ⟨_, rfl,
                                                              by intro e he; rcases List.mem_map.mp he with ⟨w, hw, rfl⟩; intro hk; exact (nomatch hk),
                                                              by simpa using loadYmVoice_length rom channelId _,
                                                              by intro e he; rcases List.mem_map.mp he with ⟨w, hw, rfl⟩; rfl⟩
                                                            all_goals intro hne hne7 _
                                                            all_goals exfalso
                                                            all_goals omega
                                                          · rw [if_neg c28] at h
                                                            by_cases c29 : b0 = 0xB5 ∧ 3 ≤ args.length
                                                            · rw [if_pos c29] at h
                                                              repeat' split at h
                                                              all_goals cases h
                                                              all_goals refine ⟨rfl, ?_, ?_⟩
                                                              all_goals try exact ⟨[], (List.append_nil _).symm,
                                                                fun e he => absurd he (List.not_mem_nil e), Nat.zero_le 25,
                                                                fun e he => absurd he (List.not_mem_nil e)⟩
                                                              all_goals try exact ⟨[], rfl,
                                                                fun e he => absurd he (List.not_mem_nil e), Nat.zero_le 25,
                                                                fun e he => absurd he (List.not_mem_nil e)⟩
                                                              all_goals try exact fun _ _ he => he
                                                              all_goals try exact fun _ _ _ => ⟨rfl, rfl⟩
                                                              all_goals try exact ⟨_, rfl,
                                                                by intro e he; rcases List.mem_singleton.mp he with rfl; intro hk; exact (nomatch hk),
                                                                by norm_num,
                                                                by intro e he; rcases List.mem_singleton.mp he with rfl; rfl⟩
                                                              all_goals try exact ⟨_, rfl,
                                                                by intro e he; rcases List.mem_map.mp he with ⟨w, hw, rfl⟩; intro hk; exact (nomatch hk),
                                                                by simpa using loadYmVoice_length rom channelId _,
                                                                by intro e he; rcases List.mem_map.mp he with ⟨w, hw, rfl⟩; rfl⟩
                                                              all_goals intro hne hne7 _
                                                              all_goals exfalso
                                                              all_goals omega
                                                            · rw [if_neg c29] at h
                                                              by_cases c30 : b0 = 0xB6 ∧ 3 ≤ args.length
                                                              · rw [if_pos c30] at h
                                                                repeat' split at h
                                                                all_goals cases h
                                                                all_goals refine ⟨rfl, ?_, ?_⟩
                                                                all_goals try exact ⟨[], (List.append_nil _).symm,
                                                                  fun e he => absurd he (List.not_mem_nil e), Nat.zero_le 25,
                                                                  fun e he => absurd he (List.not_mem_nil e)⟩
                                                                all_goals try exact ⟨[], rfl,
                                                                  fun e he => absurd he (List.not_mem_nil e), Nat.zero_le 25,
                                                                  fun e he => absurd he (List.not_mem_nil e)⟩
                                                                all_goals try exact fun _ _ he => he
                                                                all_goals try exact fun _ _ _ => ⟨rfl, rfl⟩
                                                                all_goals try exact ⟨_, rfl,
                                                                  by intro e he; rcases List.mem_singleton.mp he with rfl; intro hk; exact (nomatch hk),
                                                                  by norm_num,
                                                                  by intro e he; rcases List.mem_singleton.mp he with rfl; rfl⟩
                                                                all_goals try exact ⟨_, rfl,
                                                                  by intro e he; rcases List.mem_map.mp he with ⟨w, hw, rfl⟩; intro hk; exact (nomatch hk),
                                                                  by simpa using loadYmVoice_length rom channelId _,
                                                                  by intro e he; rcases List.mem_map.mp he with ⟨w, hw, rfl⟩; rfl⟩
                                                                all_goals intro hne hne7 _
                                                                all_goals exfalso
                                                                all_goals omega
                                                              · rw [if_neg c30] at h
                                                                by_cases c31 : b0 = 0xB7 ∧ 3 ≤ args.length
                                                                · rw [if_pos c31] at h
                                                                  repeat' split at h
                                                                  all_goals cases h
                                                                  all_goals refine ⟨rfl, ?_, ?_⟩
                                                                  all_goals try exact ⟨[], (List.append_nil _).symm,
                                                                    fun e he => absurd he (List.not_mem_nil e), Nat.zero_le 25,
                                                                    fun e he => absurd he (List.not_mem_nil e)⟩
                                                                  all_goals try exact ⟨[], rfl,
                                                                    fun e he => absurd he (List.not_mem_nil e), Nat.zero_le 25,
                                                                    fun e he => absurd he (List.not_mem_nil e)⟩
                                                                  all_goals try exact fun _ _ he => he
                                                                  all_goals try exact fun _ _ _ => ⟨rfl, rfl⟩
                                                                  all_goals try exact ⟨_, rfl,
                                                                    by intro e he; rcases List.mem_singleton.mp he with rfl; intro hk; exact (nomatch hk),
                                                                    by norm_num,
                                                                    by intro e he; rcases List.mem_singleton.mp he with rfl; rfl⟩
                                                                  all_goals try exact ⟨_, rfl,
                                                                    by intro e he; rcases List.mem_map.mp he with ⟨w, hw, rfl⟩; intro hk; exact (nomatch hk),
                                                                    by simpa using loadYmVoice_length rom channelId _,
                                                                    by intro e he; rcases List.mem_map.mp he with ⟨w, hw, rfl⟩; rfl⟩
                                                                  all_goals intro hne hne7 _
                                                                  all_goals exfalso
                                                                  all_goals omega
                                                                · rw [if_neg c31] at h
                                                                  by_cases c32 : b0 = 0xB8 ∧ 3 ≤ args.length
                                                                  · rw [if_pos c32] at h
                                                                    repeat' split at h
                                                                    all_goals cases h
                                                                    all_goals refine ⟨rfl, ?_, ?_⟩
                                                                    all_goals try exact ⟨[], (List.append_nil _).symm,
                                                                      fun e he => absurd he (List.not_mem_nil e), Nat.zero_le 25,
                                                                      fun e he => absurd he (List.not_mem_nil e)⟩
                                                                    all_goals try exact ⟨[], rfl,
                                                                      fun e he => absurd he (List.not_mem_nil e), Nat.zero_le 25,
                                                                      fun e he => absurd he (List.not_mem_nil e)⟩
                                                                    all_goals try exact fun _ _ he => he
                                                                    all_goals try exact fun _ _ _ => ⟨rfl, rfl⟩
                                                                    all_goals try exact ⟨_, rfl,
                                                                      by intro e he; rcases List.mem_singleton.mp he with rfl; intro hk; exact (nomatch hk),
                                                                      by norm_num,
                                                                      by intro e he; rcases List.mem_singleton.mp he with rfl; rfl⟩
                                                                    all_goals try exact ⟨_, rfl,
                                                                      by intro e he; rcases List.mem_map.mp he with ⟨w, hw, rfl⟩; intro hk; exact (nomatch hk),
                                                                      by simpa using loadYmVoice_length rom channelId _,
                                                                      by intro e he; rcases List.mem_map.mp he with ⟨w, hw, rfl⟩; rfl⟩
                                                                    all_goals intro hne hne7 _
                                                                    all_goals exfalso
                                                                    all_goals omega
                                                                  · rw [if_neg c32] at h
                                                                    repeat' split at h
                                                                    all_goals cases h
                                                                    all_goals refine ⟨rfl, ?_, ?_⟩
                                                                    all_goals try exact ⟨[], (List.append_nil _).symm,
                                                                      fun e he => absurd he (List.not_mem_nil e), Nat.zero_le 25,
                                                                      fun e he => absurd he (List.not_mem_nil e)⟩
                                                                    all_goals try exact ⟨[], rfl,
                                                                      fun e he => absurd he (List.not_mem_nil e), Nat.zero_le 25,
                                                                      fun e he => absurd he (List.not_mem_nil e)⟩
                                                                    all_goals try exact fun _ _ he => he
                                                                    all_goals try exact fun _ _ _ => ⟨rfl, rfl⟩
                                                                    all_goals try exact ⟨_, rfl,
                                                                      by intro e he; rcases List.mem_singleton.mp he with rfl; intro hk; exact (nomatch hk),
                                                                      by norm_num,
                                                                      by intro e he; rcases List.mem_singleton.mp he with rfl; rfl⟩
                                                                    all_goals try exact ⟨_, rfl,
                                                                      by intro e he; rcases List.mem_map.mp he with ⟨w, hw, rfl⟩; intro hk; exact (nomatch hk),
                                                                      by simpa using loadYmVoice_length rom channelId _,
                                                                      by intro e he; rcases List.mem_map.mp he with ⟨w, hw, rfl⟩; rfl⟩
                                                                    all_goals intro hne hne7 _
                                                                    all_goals exfalso
                                                                    all_goals omega


/-- Is a step result a loop break? -/
def StepResult.isHalt : StepResult → Bool
  | .halt _ => true
  | _ => false

set_option maxHeartbeats 1600000 in
/-- A note/rest step never breaks out of the interpreter loop. -/
theorem noteStep_isHalt (rom : Rom) (channelId : ℕ) (hp hy : Bool)
    (s : InterpState) (b0 b1 : ℕ) :
    (noteStep rom channelId hp hy s b0 b1).isHalt = false := by
  simp only [noteStep]
  repeat' split
  all_goals rfl

set_option maxHeartbeats 1600000 in
/-- The only opcode that breaks the loop (an out-of-range `JUMP`) leaves
the state unchanged. -/
theorem opcodeStep_halt_eq (rom : Rom) (channelId : ℕ) (s : InterpState)
    (b0 ab : ℕ) (args : List ℕ) (s1 : InterpState)
    (h : opcodeStep rom channelId s b0 ab args = .halt s1) : s1 = s := by
  simp only [opcodeStep] at h
  by_cases c0 : b0 = 0x80 ∧ args ≠ []
  · rw [if_pos c0] at h
    repeat' split at h
    all_goals cases h
    all_goals rfl
  · rw [if_neg c0] at h
    by_cases c1 : b0 = 0x81 ∧ args ≠ []
    · rw [if_pos c1] at h
      repeat' split at h
      all_goals cases h
      all_goals rfl
    · rw [if_neg c1] at h
      by_cases c2 : b0 = 0x82 ∧ args ≠ []
      · rw [if_pos c2] at h
        repeat' split at h
        all_goals cases h
        all_goals rfl
      · rw [if_neg c2] at h
        by_cases c3 : b0 = 0x83 ∧ args ≠ []
        · rw [if_pos c3] at h
          repeat' split at h
          all_goals cases h
          all_goals rfl
        · rw [if_neg c3] at h
          by_cases c4 : b0 = 0x84 ∧ args ≠ []
          · rw [if_pos c4] at h
            repeat' split at h
            all_goals cases h
            all_goals rfl
          · rw [if_neg c4] at h
            by_cases c5 : b0 = 0x86 ∧ 2 ≤ args.length
            · rw [if_pos c5] at h
              repeat' split at h
              all_goals cases h
              all_goals rfl
            · rw [if_neg c5] at h
              by_cases c6 : b0 = 0x87 ∧ 2 ≤ args.length
              · rw [if_pos c6] at h
                repeat' split at h
                all_goals cases h
                all_goals rfl
              · rw [if_neg c6] at h
                by_cases c7 : b0 = 0x89 ∧ args ≠ []
                · rw [if_pos c7] at h
                  repeat' split at h
                  all_goals cases h
                  all_goals rfl
                · rw [if_neg c7] at h
                  by_cases c8 : b0 = 0x8A ∧ args ≠ []
                  · rw [if_pos c8] at h
                    repeat' split at h
                    all_goals cases h
                    all_goals rfl
                  · rw [if_neg c8] at h
                    by_cases c9 : b0 = 0x8B ∧ args ≠ []
                    · rw [if_pos c9] at h
                      repeat' split at h
                      all_goals cases h
                      all_goals rfl
                    · rw [if_neg c9] at h
                      by_cases c10 : b0 = 0x8C ∧ args ≠ []
                      · rw [if_pos c10] at h
                        repeat' split at h
                        all_goals cases h
                        all_goals rfl
                      · rw [if_neg c10] at h
                        by_cases c11 : b0 = 0x8D ∧ 2 ≤ args.length
                        · rw [if_pos c11] at h
                          repeat' split at h
                          all_goals cases h
                          all_goals rfl
                        · rw [if_neg c11] at h
                          by_cases c12 : b0 = 0x8E ∧ args ≠ []
                          · rw [if_pos c12] at h
                            repeat' split at h
                            all_goals cases h
                            all_goals rfl
                          · rw [if_neg c12] at h
                            by_cases c13 : b0 = 0x8F
                            · rw [if_pos c13] at h
                              repeat' split at h
                              all_goals cases h
                              all_goals rfl
                            · rw [if_neg c13] at h
                              by_cases c14 : b0 = 0x90
                              · rw [if_pos c14] at h
                                repeat' split at h
                                all_goals cases h
                                all_goals rfl
                              · rw [if_neg c14] at h
                                by_cases c15 : b0 = 0x91
                                · rw [if_pos c15] at h
                                  repeat' split at h
                                  all_goals cases h
                                  all_goals rfl
                                · rw [if_neg c15] at h
                                  by_cases c16 : b0 = 0x97
                                  · rw [if_pos c16] at h
                                    repeat' split at h
                                    all_goals cases h
                                    all_goals rfl
                                  · rw [if_neg c16] at h
                                    by_cases c17 : b0 = 0x99 ∧ 2 ≤ args.length
                                    · rw [if_pos c17] at h
                                      repeat' split at h
                                      all_goals cases h
                                      all_goals rfl
                                    · rw [if_neg c17] at h
                                      by_cases c18 : b0 = 0x9C
                                      · rw [if_pos c18] at h
                                        repeat' split at h
                                        all_goals cases h
                                        all_goals rfl
                                      · rw [if_neg c18] at h
                                        by_cases c19 : b0 = 0x9D ∧ 2 ≤ args.length
                                        · rw [if_pos c19] at h
                                          repeat' split at h
                                          all_goals cases h
                                          all_goals rfl
                                        · rw [if_neg c19] at h
                                          by_cases c20 : b0 = 0x9E ∧ 2 ≤ args.length
                                          · rw [if_pos c20] at h
                                            repeat' split at h
                                            all_goals cases h
                                            all_goals rfl
                                          · rw [if_neg c20] at h
                                            by_cases c21 : b0 = 0x9F ∧ 2 ≤ args.length
                                            · rw [if_pos c21] at h
                                              repeat' split at h
                                              all_goals cases h
                                              all_goals rfl
                                            · rw [if_neg c21] at h
                                              by_cases c22 : b0 = 0xA0 ∧ args ≠ []
                                              · rw [if_pos c22] at h
                                                repeat' split at h
                                                all_goals cases h
                                                all_goals rfl
                                              · rw [if_neg c22] at h
                                                by_cases c23 : b0 = 0xA7 ∧ args ≠ []
                                                · rw [if_pos c23] at h
                                                  repeat' split at h
                                                  all_goals cases h
                                                  all_goals rfl
                                                · rw [if_neg c23] at h
                                                  by_cases c24 : b0 = 0xA4 ∧ 2 ≤ args.length
                                                  · rw [if_pos c24] at h
                                                    repeat' split at h
                                                    all_goals cases h
                                                    all_goals rfl
                                                  · rw [if_neg c24] at h
                                                    by_cases c25 : b0 = 0xA9 ∧ args ≠ []
                                                    · rw [if_pos c25] at h
                                                      repeat' split at h
                                                      all_goals cases h
                                                      all_goals rfl
                                                    · rw [if_neg c25] at h
                                                      by_cases c26 : b0 = 0xAA ∧ args ≠ []
                                                      · rw [if_pos c26] at h
                                                        repeat' split at h
                                                        all_goals cases h
                                                        all_goals rfl
                                                      · rw [if_neg c26] at h
                                                        by_cases c27 : b0 = 0xAE ∧ 2 ≤ args.length
                                                        · rw [if_pos c27] at h
                                                          repeat' split at h
                                                          all_goals cases h
                                                          all_goals rfl
                                                        · rw [if_neg c27] at h
                                                          by_cases c28 : b0 = 0xAF ∧ 2 ≤ args.length
                                                          · rw [if_pos c28] at h
                                                            repeat' split at h
                                                            all_goals cases h
                                                            all_goals rfl
                                                          · rw [if_neg c28] at h
                                                            by_cases c29 : b0 = 0xB5 ∧ 3 ≤ args.length
                                                            · rw [if_pos c29] at h
                                                              repeat' split at h
                                                              all_goals cases h
                                                              all_goals rfl
                                                            · rw [if_neg c29] at h
                                                              by_cases c30 : b0 = 0xB6 ∧ 3 ≤ args.length
                                                              · rw [if_pos c30] at h
                                                                repeat' split at h
                                                                all_goals cases h
                                                                all_goals rfl
                                                              · rw [if_neg c30] at h
                                                                by_cases c31 : b0 = 0xB7 ∧ 3 ≤ args.length
                                                                · rw [if_pos c31] at h
                                                                  repeat' split at h
                                                                  all_goals cases h
                                                                  all_goals rfl
                                                                · rw [if_neg c31] at h
                                                                  by_cases c32 : b0 = 0xB8 ∧ 3 ≤ args.length
                                                                  · rw [if_pos c32] at h
                                                                    repeat' split at h
                                                                    all_goals cases h
                                                                    all_goals rfl
                                                                  · rw [if_neg c32] at h
                                                                    repeat' split at h
                                                                    all_goals cases h
                                                                    all_goals rfl

/-- A loop break leaves the accumulator unchanged and appends at most one
end-of-track event at the current time. -/
theorem interpStep_halt (rom : Rom) (channelId : ℕ) (hp hy : Bool) (mf : ℚ)
    (s s1 : InterpState) (h : interpStep rom channelId hp hy mf s = .halt s1) :
    s1.cumulativeFrames = s.cumulativeFrames ∧
    (s1.events = s.events ∨
     s1.events = s.events ++ [⟨s.cumulativeFrames / 120, EventKind.endOfTrack⟩]) := by
  revert h
  simp only [interpStep]
  split_ifs
  · intro h
    cases h
    exact ⟨rfl, Or.inl rfl⟩
  · intro h
    cases h
    exact ⟨rfl, Or.inl rfl⟩
  · rcases hb : rom.readByte s.pc with e | b0
    · intro h
      cases h
    · dsimp only
      split_ifs
      · intro h
        cases h
        exact ⟨rfl, Or.inr rfl⟩
      · rcases hb1 : rom.readByte (s.pc + 1) with e | b1
        · intro h
          cases h
        · dsimp only
          split_ifs
          · rcases hrs : s.returnStack with _ | ⟨r, rest⟩
            · intro h
              cases h
              exact ⟨rfl, Or.inr rfl⟩
            · intro h
              cases h
          · rcases hns : noteStep rom channelId hp hy s b0 b1 with s2 | s2 | e3
            · intro h
              cases h
            · have hnh := noteStep_isHalt rom channelId hp hy s b0 b1
              rw [hns] at hnh
              simp [StepResult.isHalt] at hnh
            · intro h
              cases h
      · rcases hob : opcodeArgBytes b0 with _ | ab
        · intro h
          cases h
        · dsimp only
          rcases hos : opcodeStep rom channelId s b0 ab
            (readArgs rom (s.pc + 1) ab) with s2 | s2 | e3
          · intro h
            cases h
          · have heq := opcodeStep_halt_eq rom channelId s b0 ab
              (readArgs rom (s.pc + 1) ab) s2 hos
            intro h
            cases h
            rw [heq]
            exact ⟨rfl, Or.inl rfl⟩
          · intro h
            cases h

/-- One interpreter iteration: the accumulator never decreases and no
end-of-track marker is appended; on a ROM with no envelope-starting
opcode bytes, envelope inactivity is preserved and the appended tail
(at most 25 events) is time-sorted within the accumulator bounds. -/
theorem interpStep_next (rom : Rom) (channelId : ℕ) (hp hy : Bool) (mf : ℚ)
    (s s1 : InterpState) (h : interpStep rom channelId hp hy mf s = .next s1) :
    s.cumulativeFrames ≤ s1.cumulativeFrames ∧
    (∃ tail, s1.events = s.events ++ tail ∧ noEndEvents tail) ∧
    ((∀ i, rom.data i ≠ 0x86 ∧ rom.data i ≠ 0x87) → envInactive s →
      envInactive s1 ∧
      ∃ tail, s1.events = s.events ++ tail ∧ tail.length ≤ 25 ∧
        tail.Chain' (fun a b => a.time ≤ b.time) ∧
        ∀ e ∈ tail, s.cumulativeFrames / 120 ≤ e.time ∧
          e.time ≤ s1.cumulativeFrames / 120) := by
  revert h
  simp only [interpStep]
  split_ifs
  · intro h
    cases h
  · intro h
    cases h
  · rcases hb : rom.readByte s.pc with e | b0
    · intro h
      cases h
    · dsimp only
      split_ifs
      · intro h
        cases h
      · rcases hb1 : rom.readByte (s.pc + 1) with e | b1
        · intro h
          cases h
        · dsimp only
          split_ifs
          · rcases hrs : s.returnStack with _ | ⟨r, rest⟩
            · intro h
              cases h
            · intro h
              cases h
              refine ⟨le_refl _, ⟨[], (List.append_nil _).symm,
                fun e he => absurd he (List.not_mem_nil e)⟩, ?_⟩
              intro _ he
              exact ⟨he, [], (List.append_nil _).symm, Nat.zero_le 25,
                List.chain'_nil, fun e he2 => absurd he2 (List.not_mem_nil e)⟩
          · intro h
            have hns := noteStep_spec rom channelId hp hy s b0 b1 s1 h
            refine ⟨hns.1, hns.2.1, ?_⟩
            intro _ he
            rcases hns.2.2 he with ⟨he1, tail, ht, hlen, hch, hbd⟩
            exact ⟨he1, tail, ht, le_trans hlen (by norm_num), hch, hbd⟩
      · rcases hob : opcodeArgBytes b0 with _ | ab
        · intro h
          cases h
          refine ⟨le_refl _, ⟨[], (List.append_nil _).symm,
            fun e he => absurd he (List.not_mem_nil e)⟩, ?_⟩
          intro _ he
          exact ⟨he, [], (List.append_nil _).symm, Nat.zero_le 25,
            List.chain'_nil, fun e he2 => absurd he2 (List.not_mem_nil e)⟩
        · dsimp only
          intro h
          have hos := opcodeStep_spec rom channelId s b0 ab _ s1 h
          refine ⟨le_of_eq hos.1.symm, ?_, ?_⟩
          · rcases hos.2.1 with ⟨tail, ht, hn, _, _⟩
            exact ⟨tail, ht, hn⟩
          · intro hnoenv he
            have hb0d : b0 = rom.data (s.pc - ROM_BASE) := readByte_ok_eq hb
            have h86 : b0 ≠ 0x86 := by rw [hb0d]; exact (hnoenv _).1
            have h87 : b0 ≠ 0x87 := by rw [hb0d]; exact (hnoenv _).2
            rcases hos.2.1 with ⟨tail, ht, hn, hlen, htm⟩
            refine ⟨hos.2.2 h86 h87 he, tail, ht, hlen, ?_, ?_⟩
            · exact List.Pairwise.chain'
                (List.pairwise_of_forall_mem_list
                  (fun a ha b hb2 => by rw [htm a ha, htm b hb2]))
            · intro e he2
              rw [htm e he2, hos.1]
              exact ⟨le_refl _, le_refl _⟩

/-- Any successful interpreter run starting with an end-free event list
ends with at most one end-of-track event. -/
theorem interpRun_endCount (rom : Rom) (channelId : ℕ) (hp hy : Bool) (mf : ℚ) :
    ∀ (fuel : ℕ) (s sF : InterpState),
      interpRun rom channelId hp hy mf fuel s = .ok sF →
      noEndEvents s.events → endCount sF.events ≤ 1 := by
  intro fuel
  induction fuel with
  | zero =>
    intro s sF h hne
    simp only [interpRun] at h
    cases h
    rw [endCount_eq_zero hne]
    norm_num
  | succ n ih =>
    intro s sF h hne
    simp only [interpRun] at h
    cases hst : interpStep rom channelId hp hy mf s with
    | next s2 =>
      simp only [hst] at h
      rcases (interpStep_next rom channelId hp hy mf s s2 hst).2.1 with ⟨tail, ht, hn⟩
      refine ih s2 sF h ?_
      rw [ht]
      intro e he
      rcases List.mem_append.mp he with he | he
      · exact hne e he
      · exact hn e he
    | halt s2 =>
      simp only [hst] at h
      cases h
      rcases (interpStep_halt rom channelId hp hy mf s sF hst).2 with he | he
      · rw [he, endCount_eq_zero hne]
        norm_num
      · rw [he, endCount_append, endCount_eq_zero hne]
        simp [endCount]
    | err e =>
      simp only [hst] at h
      cases h

/-- On a ROM with no envelope-starting opcode bytes, a successful run from
a sorted, time-bounded, envelope-inactive state stays time-sorted and
grows by at most 25 events per iteration plus one final marker. -/
theorem interpRun_sorted (rom : Rom) (channelId : ℕ) (hp hy : Bool) (mf : ℚ)
    (hnoenv : ∀ i, rom.data i ≠ 0x86 ∧ rom.data i ≠ 0x87) :
    ∀ (fuel : ℕ) (s sF : InterpState),
      interpRun rom channelId hp hy mf fuel s = .ok sF →
      envInactive s →
      s.events.Chain' (fun a b => a.time ≤ b.time) →
      (∀ e ∈ s.events, e.time ≤ s.cumulativeFrames / 120) →
      sF.events.Chain' (fun a b => a.time ≤ b.time) ∧
      sF.events.length ≤ s.events.length + 25 * fuel + 1 := by
  intro fuel
  induction fuel with
  | zero =>
    intro s sF h he hch hbd
    simp only [interpRun] at h
    cases h
    exact ⟨hch, by omega⟩
  | succ n ih =>
    intro s sF h he hch hbd
    simp only [interpRun] at h
    cases hst : interpStep rom channelId hp hy mf s with
    | next s2 =>
      simp only [hst] at h
      obtain ⟨hcf, _, hdet⟩ := interpStep_next rom channelId hp hy mf s s2 hst
      obtain ⟨he2, tail, ht, hlen, hchT, hbdT⟩ := hdet hnoenv he
      have hch2 : s2.events.Chain' (fun a b => a.time ≤ b.time) := by
        rw [ht]
        refine List.chain'_append.mpr ⟨hch, hchT, ?_⟩
        intro x hx y hy2
        have hxm : x ∈ s.events := List.mem_of_mem_getLast? hx
        have hym : y ∈ tail := List.mem_of_mem_head? hy2
        calc x.time ≤ s.cumulativeFrames / 120 := hbd x hxm
          _ ≤ y.time := (hbdT y hym).1
      have hbd2 : ∀ e ∈ s2.events, e.time ≤ s2.cumulativeFrames / 120 := by
        intro e he3
        rw [ht] at he3
        rcases List.mem_append.mp he3 with h4 | h4
        · calc e.time ≤ s.cumulativeFrames / 120 := hbd e h4
            _ ≤ s2.cumulativeFrames / 120 := by
              gcongr
        · exact (hbdT e h4).2
      obtain ⟨hchF, hlenF⟩ := ih s2 sF h he2 hch2 hbd2
      refine ⟨hchF, ?_⟩
      have hl2 : s2.events.length ≤ s.events.length + 25 := by
        rw [ht, List.length_append]
        omega
      omega
    | halt s2 =>
      simp only [hst] at h
      cases h
      obtain ⟨hcf, hev⟩ := interpStep_halt rom channelId hp hy mf s sF hst
      rcases hev with hev | hev
      · rw [hev]
        exact ⟨hch, by omega⟩
      · rw [hev]
        constructor
        · refine List.chain'_append.mpr ⟨hch, List.chain'_singleton _, ?_⟩
          intro x hx y hy2
          have hxm : x ∈ s.events := List.mem_of_mem_getLast? hx
          simp at hy2
          subst hy2
          exact hbd x hxm
        · rw [List.length_append]
          simp
    | err e =>
      simp only [hst] at h
      all_goals cases h


/-- Full-size image refuting the event-ordering claim: `SET_TEMPO 0xFF`
(tempo 63), freq-envelope start at `0x5000` (entry `1, 1, 0`), then note
`0x01` with duration byte `0x01` (duration-table word 1 gives
`dur_frames = 1/63 < 1`), then END.  The envelope note-off lands at
`1/120` s but the accumulator only advances to `1/63` frames, so the END
marker lands earlier, at `1/7560` s. -/
def romC1 : Rom :=
  ⟨0xC000, fun i =>
    if i = 0 then 0x80 else if i = 1 then 0xFF
    else if i = 2 then 0x86 else if i = 3 then 0x00 else if i = 4 then 0x50
    else if i = 5 then 0x01 else if i = 6 then 0x01
    else if i = 7 then 0xBB
    else if i = 0x1C61 then 1
    else if i = 0x1000 then 1 else if i = 0x1001 then 1
    else 0⟩

/-- Claim C1 is refuted on `romC1`: the emitted trace has a note-off at
`1/120` s followed by an end-of-track at `1/7560` s, so `time_seconds` is
not nondecreasing across consecutive events. -/
theorem claim_C1_ordering_counterexample :
    interpretSequence romC1 0x4000 0 true true false 30 =
      .ok [⟨0, .pokeyNoteOn 0 0 0xA0⟩, ⟨1/120, .pokeyNoteOff 0⟩,
           ⟨1/7560, .endOfTrack⟩] ∧
    ¬ List.Chain' (fun a b : Event => a.time ≤ b.time)
        [⟨0, .pokeyNoteOn 0 0 0xA0⟩, ⟨1/120, .pokeyNoteOff 0⟩,
         ⟨(1 : ℚ)/7560, .endOfTrack⟩] := by
  constructor
  · decide
  · intro h
    simp only [List.chain'_cons, List.chain'_singleton, and_true] at h
    exact absurd h.2 (by norm_num)

/-- Claim C1 (amended): every successful interpreter trace contains at
most one end-of-track event; on ROM images containing no envelope-start
opcode bytes (`0x86`/`0x87`), the trace is nondecreasing in
`time_seconds` and has at most 1 250 001 events (25 per iteration of the
50 000-iteration loop, plus the final marker).  With envelopes the
ordering fails (`claim_C1_ordering_counterexample`) and the 50 000-event
bound has no basis in the code. -/
theorem claim_C1_trace_invariants :
    (∀ (rom : Rom) (startAddr channelId : ℕ) (pokeyMode hasPokey hasYm : Bool)
       (maxSeconds : ℚ) (evs : List Event),
       interpretSequence rom startAddr channelId pokeyMode hasPokey hasYm
         maxSeconds = .ok evs →
       endCount evs ≤ 1) ∧
    (∀ (rom : Rom) (startAddr channelId : ℕ) (pokeyMode hasPokey hasYm : Bool)
       (maxSeconds : ℚ) (evs : List Event),
       (∀ i, rom.data i ≠ 0x86 ∧ rom.data i ≠ 0x87) →
       interpretSequence rom startAddr channelId pokeyMode hasPokey hasYm
         maxSeconds = .ok evs →
       evs.Chain' (fun a b => a.time ≤ b.time) ∧ evs.length ≤ 1250001) := by
  constructor
  · intro rom sa ch pm hp hy ms evs hrun
    unfold interpretSequence at hrun
    rcases hr : interpRun rom ch hp hy (ms * 120) 50000 (initInterpState sa pm)
      with e | sF
    · rw [hr] at hrun
      simp [Except.map] at hrun
    · rw [hr] at hrun
      simp only [Except.map] at hrun
      cases hrun
      exact interpRun_endCount rom ch hp hy (ms * 120) 50000 _ sF hr
        (fun e he => absurd he (List.not_mem_nil e))
  · intro rom sa ch pm hp hy ms evs hnoenv hrun
    unfold interpretSequence at hrun
    rcases hr : interpRun rom ch hp hy (ms * 120) 50000 (initInterpState sa pm)
      with e | sF
    · rw [hr] at hrun
      simp [Except.map] at hrun
    · rw [hr] at hrun
      simp only [Except.map] at hrun
      cases hrun
      obtain ⟨hch, hlen⟩ := interpRun_sorted rom ch hp hy (ms * 120) hnoenv
        50000 _ sF hr ⟨rfl, rfl⟩ List.chain'_nil
        (fun e he => absurd he (List.not_mem_nil e))
      refine ⟨hch, ?_⟩
      have hinit : (initInterpState sa pm).events.length = 0 := rfl
      omega

/-- Witness: the amended C1 theorem applied to a concrete all-zero ROM,
whose trace is a single end-of-track event at time 0. -/
theorem claim_C1_trace_invariants_witness :
    interpretSequence romC2w 0x4000 0 true true true 30 =
      .ok [⟨0, .endOfTrack⟩] ∧
    endCount [⟨0, .endOfTrack⟩] ≤ 1 ∧
    (∀ i, romC2w.data i ≠ 0x86 ∧ romC2w.data i ≠ 0x87) ∧
    List.Chain' (fun a b : Event => a.time ≤ b.time) [⟨0, .endOfTrack⟩] ∧
    ([⟨(0 : ℚ), EventKind.endOfTrack⟩] : List Event).length ≤ 1250001 := by
  have hrun : interpretSequence romC2w 0x4000 0 true true true 30 =
      .ok [⟨0, .endOfTrack⟩] := by decide
  have hne : ∀ i, romC2w.data i ≠ 0x86 ∧ romC2w.data i ≠ 0x87 := by
    intro i
    constructor <;> simp [romC2w]
  exact ⟨hrun,
    claim_C1_trace_invariants.1 romC2w 0x4000 0 true true true 30 _ hrun,
    hne,
    (claim_C1_trace_invariants.2 romC2w 0x4000 0 true true true 30 _ hne hrun).1,
    (claim_C1_trace_invariants.2 romC2w 0x4000 0 true true true 30 _ hne hrun).2⟩


/-- Claim C6 (code bug): on the all-zero full 48 KiB image, starting a
voice at `0xFFFF` reads the note byte `0x00` at `0xFFFF` successfully and
then reads the duration byte at `0x10000`; that read is not guarded by
the interpreter `try`, so `_interpret_sequence` raises
`ValueError("outside ROM range")` instead of returning an event list --
the interpreter is not total on 48 KiB ROMs. -/
theorem claim_C6_interpreter_uncaught_read :
    romC2w.full ∧
    romC2w.readByte 0xFFFF = .ok 0 ∧
    romC2w.readByte 0x10000 = .error "outside ROM range" ∧
    interpretSequence romC2w 0xFFFF 0 true true true 30 =
      .error "outside ROM range" := by
  refine ⟨rfl, by decide, by decide, by decide⟩

/-- A `TimelineEvent` of `build_channel_timeline` (the fields `write_midi`
reads; times in seconds as exact rationals). -/
structure TimedEvent where
  time : ℚ
  duration : ℚ
  midiNote : Option ℤ
  isRest : Bool
  sustain : Bool
  deriving DecidableEq, Repr

/-- Python `int()` on a number: truncation toward zero. -/
def pyTrunc (q : ℚ) : ℤ := if q < 0 then -⌊-q⌋ else ⌊q⌋

/-- `write_midi`: the end-of-song time, `max(ev.time + ev.duration)` over
all timelines, starting from `0.0`. -/
def songEnd (timelines : List (List TimedEvent)) : ℚ :=
  timelines.foldl
    (fun acc tl => tl.foldl (fun a ev => max a (ev.time + ev.duration)) acc) 0

/-- `write_midi`: MIDI channel for a voice index (skip drum channel 9,
clamp at 15). -/
def midiChannelFor (i : ℕ) : ℕ :=
  if i < 9 then i else if i < 15 then i + 1 else 15

/-- `write_midi`: the non-rest, keyed events of one timeline. -/
def noteEvents (tl : List TimedEvent) : List TimedEvent :=
  tl.filter (fun ev => !ev.isRest && ev.midiNote.isSome)

/-- One emitted Note On/Off: absolute tick, kind, channel, note,
velocity (the payload of the status/data bytes `write_midi` packs). -/
structure MidiNoteEv where
  tick : ℤ
  isOn : Bool
  ch : ℕ
  note : ℕ
  vel : ℕ
  deriving DecidableEq, Repr

/-- `write_midi`: `max(0, min(127, ev.midi_note))`. -/
def noteVal (ev : TimedEvent) : ℕ :=
  (max 0 (min 127 (ev.midiNote.getD 0))).toNat

/-- The per-note event emission loop of `write_midi` over the filtered
`note_events` of one voice: note-on at `int(time*tpb*2)`, note-off after
`max(1, int(dur*tpb*2))` ticks, where for a sustained note `dur` is the
gap to the next non-rest note (or to `song_end` for the last note). -/
def channelNoteEvents (midiCh tpb : ℕ) (songE : ℚ) :
    List TimedEvent → List MidiNoteEv
  | [] => []
  | ev :: rest =>
    let note := noteVal ev
    let startTick := pyTrunc (ev.time * tpb * 2)
    let durTicks : ℤ :=
      if ev.sustain then
        let endSecs := match rest with
          | nx :: _ => nx.time
          | [] => songE
        max 1 (pyTrunc ((endSecs - ev.time) * tpb * 2))
      else max 1 (pyTrunc (ev.duration * tpb * 2))
    ⟨startTick, true, midiCh, note, 100⟩ ::
      ⟨startTick + durTicks, false, midiCh, note, 0⟩ ::
      channelNoteEvents midiCh tpb songE rest

/-- One voice track of `write_midi`: channel mapping, song end, filtering
and note-event emission combined. -/
def writeMidiChannel (chIdx tpb : ℕ) (timelines : List (List TimedEvent))
    (tl : List TimedEvent) : List MidiNoteEv :=
  channelNoteEvents (midiChannelFor chIdx) tpb (songEnd timelines) (noteEvents tl)

/-- Truncation of a nonnegative number is the floor. -/
theorem pyTrunc_of_nonneg {q : ℚ} (h : 0 ≤ q) : pyTrunc q = ⌊q⌋ :=
  if_neg (not_lt.mpr h)

/-- The emitted off tick `int(t*R) + max(1, int((T-t)*R))` lies within one
tick of `int(T*R)` for `0 ≤ t ≤ T` and `R ≥ 0`. -/
theorem tick_bound (t T R : ℚ) (hR : 0 ≤ R) (h0 : 0 ≤ t) (hle : t ≤ T) :
    pyTrunc (T * R) - 1 ≤ pyTrunc (t * R) + max 1 (pyTrunc ((T - t) * R)) ∧
    pyTrunc (t * R) + max 1 (pyTrunc ((T - t) * R)) ≤ pyTrunc (T * R) + 1 := by
  have hT : 0 ≤ T := le_trans h0 hle
  have hd : 0 ≤ T - t := by linarith
  rw [pyTrunc_of_nonneg (mul_nonneg hT hR), pyTrunc_of_nonneg (mul_nonneg h0 hR),
    pyTrunc_of_nonneg (mul_nonneg hd hR)]
  have hsum : t * R + (T - t) * R = T * R := by ring
  have h1 : ⌊t * R⌋ + ⌊(T - t) * R⌋ ≤ ⌊T * R⌋ := by
    rw [show T * R = t * R + (T - t) * R from hsum.symm]
    refine Int.le_floor.mpr ?_
    push_cast
    exact add_le_add (Int.floor_le _) (Int.floor_le _)
  have h2 : ⌊T * R⌋ ≤ ⌊t * R⌋ + ⌊(T - t) * R⌋ + 1 := by
    have hx := Int.lt_floor_add_one (t * R)
    have hy := Int.lt_floor_add_one ((T - t) * R)
    have h3 : ⌊T * R⌋ < ⌊t * R⌋ + ⌊(T - t) * R⌋ + 2 := by
      refine Int.floor_lt.mpr ?_
      push_cast
      linarith
    omega
  have hb0 : 0 ≤ ⌊(T - t) * R⌋ := Int.floor_nonneg.mpr (mul_nonneg hd hR)
  omega


/-- Every note value gets as many note-ons as note-offs in one track. -/
theorem channelNoteEvents_pairing (midiCh tpb : ℕ) (songE : ℚ) :
    ∀ (l : List TimedEvent) (n : ℕ),
      (channelNoteEvents midiCh tpb songE l).countP
        (fun e => e.isOn && e.note == n) =
      (channelNoteEvents midiCh tpb songE l).countP
        (fun e => !e.isOn && e.note == n) := by
  intro l
  induction l with
  | nil =>
    intro n
    rfl
  | cons ev rest ih =>
    intro n
    simp only [channelNoteEvents]
    rw [List.countP_cons, List.countP_cons, List.countP_cons, List.countP_cons]
    have := ih n
    simp only [Bool.true_and, Bool.false_and, Bool.not_true, Bool.not_false]
    omega

/-- Claim C9 (amended): for a sustained (sustain-bit) note the emitted
note-off tick is `start_tick + max(1, int((end_secs - t) * tpb * 2))`
with `end_secs` the next non-rest note start (or the global song end for
the last note); that tick always lies within one tick of the next note
start tick `int(end_secs * tpb * 2)` (given `0 ≤ t ≤ end_secs`) but is
not equal to it in general (`claim_C9_sustain_counterexample`); and every
emitted note-on has exactly one matching note-off per note value. -/
theorem claim_C9_midi_sustain :
    (∀ (midiCh tpb : ℕ) (songE : ℚ) (ev nx : TimedEvent)
       (rest : List TimedEvent),
      ev.sustain = true → 0 ≤ ev.time → ev.time ≤ nx.time →
      ∃ onE offE tail,
        channelNoteEvents midiCh tpb songE (ev :: nx :: rest) =
          onE :: offE :: tail ∧
        onE.isOn = true ∧ offE.isOn = false ∧ offE.note = onE.note ∧
        onE.tick = pyTrunc (ev.time * tpb * 2) ∧
        offE.tick = onE.tick +
          max 1 (pyTrunc ((nx.time - ev.time) * tpb * 2)) ∧
        pyTrunc (nx.time * tpb * 2) - 1 ≤ offE.tick ∧
        offE.tick ≤ pyTrunc (nx.time * tpb * 2) + 1 ∧
        tail = channelNoteEvents midiCh tpb songE (nx :: rest)) ∧
    (∀ (midiCh tpb : ℕ) (songE : ℚ) (ev : TimedEvent),
      ev.sustain = true → 0 ≤ ev.time → ev.time ≤ songE →
      ∃ onE offE,
        channelNoteEvents midiCh tpb songE [ev] = [onE, offE] ∧
        onE.isOn = true ∧ offE.isOn = false ∧
        pyTrunc (songE * tpb * 2) - 1 ≤ offE.tick ∧
        offE.tick ≤ pyTrunc (songE * tpb * 2) + 1) ∧
    (∀ (midiCh tpb : ℕ) (songE : ℚ) (l : List TimedEvent) (n : ℕ),
      (channelNoteEvents midiCh tpb songE l).countP
        (fun e => e.isOn && e.note == n) =
      (channelNoteEvents midiCh tpb songE l).countP
        (fun e => !e.isOn && e.note == n)) := by
  refine ⟨?_, ?_, channelNoteEvents_pairing⟩
  · intro midiCh tpb songE ev nx rest hs h0 hle
    simp only [channelNoteEvents, hs, if_pos rfl]
    refine ⟨_, _, _, rfl, rfl, rfl, rfl, rfl, rfl, ?_, ?_, rfl⟩
    · have hb := tick_bound ev.time nx.time ((tpb : ℚ) * 2) (by positivity) h0 hle
      have ha : ∀ x : ℚ, x * (tpb : ℚ) * 2 = x * ((tpb : ℚ) * 2) := by
        intro x
        ring
      rw [ha nx.time, ha ev.time, ha (nx.time - ev.time)]
      exact hb.1
    · have hb := tick_bound ev.time nx.time ((tpb : ℚ) * 2) (by positivity) h0 hle
      have ha : ∀ x : ℚ, x * (tpb : ℚ) * 2 = x * ((tpb : ℚ) * 2) := by
        intro x
        ring
      rw [ha nx.time, ha ev.time, ha (nx.time - ev.time)]
      exact hb.2
  · intro midiCh tpb songE ev hs h0 hle
    simp only [channelNoteEvents, hs, if_pos rfl]
    refine ⟨_, _, rfl, rfl, rfl, ?_, ?_⟩
    · have hb := tick_bound ev.time songE ((tpb : ℚ) * 2) (by positivity) h0 hle
      have ha : ∀ x : ℚ, x * (tpb : ℚ) * 2 = x * ((tpb : ℚ) * 2) := by
        intro x
        ring
      rw [ha songE, ha ev.time, ha (songE - ev.time)]
      exact hb.1
    · have hb := tick_bound ev.time songE ((tpb : ℚ) * 2) (by positivity) h0 hle
      have ha : ∀ x : ℚ, x * (tpb : ℚ) * 2 = x * ((tpb : ℚ) * 2) := by
        intro x
        ring
      rw [ha songE, ha ev.time, ha (songE - ev.time)]
      exact hb.2

/-- Two-note timeline separated by 2 ms: at 960 ticks/s the sustained
first note gets its off tick at `0 + max(1, int(1.92)) = 1` while the
second note starts at tick `int(2.88) = 2`. -/
def c9Timeline : List TimedEvent :=
  [⟨1/1000, 1/100, some 60, false, true⟩,
   ⟨3/1000, 1/100, some 62, false, false⟩]

/-- Claim C9 is refuted: the sustained note off lands on tick 1, the next
non-rest note of the same voice starts on tick 2. -/
theorem claim_C9_sustain_counterexample :
    writeMidiChannel 0 480 [c9Timeline] c9Timeline =
      [⟨0, true, 0, 60, 100⟩, ⟨1, false, 0, 60, 0⟩,
       ⟨2, true, 0, 62, 100⟩, ⟨11, false, 0, 62, 0⟩] ∧
    pyTrunc ((3 : ℚ)/1000 * 480 * 2) = 2 ∧ (1 : ℤ) ≠ 2 := by
  refine ⟨by decide, by decide, by decide⟩

/-- Witness: the amended C9 theorem applied at a concrete two-note
timeline with all hypotheses discharged. -/
theorem claim_C9_midi_sustain_witness :
    ((1 : ℚ)/1000 ≤ 3/1000) ∧
    (∃ onE offE tail,
      channelNoteEvents 0 480 (13/1000)
        [⟨1/1000, 1/100, some 60, false, true⟩,
         ⟨3/1000, 1/100, some 62, false, false⟩] = onE :: offE :: tail ∧
      onE.isOn = true ∧ offE.isOn = false ∧ offE.note = onE.note ∧
      onE.tick = pyTrunc ((1 : ℚ)/1000 * 480 * 2) ∧
      offE.tick = onE.tick +
        max 1 (pyTrunc (((3 : ℚ)/1000 - 1/1000) * 480 * 2)) ∧
      pyTrunc ((3 : ℚ)/1000 * 480 * 2) - 1 ≤ offE.tick ∧
      offE.tick ≤ pyTrunc ((3 : ℚ)/1000 * 480 * 2) + 1 ∧
      tail = channelNoteEvents 0 480 (13/1000)
        [⟨3/1000, 1/100, some 62, false, false⟩]) ∧
    (∃ onE offE,
      channelNoteEvents 0 480 (13/1000)
        [⟨1/1000, 1/100, some 60, false, true⟩] = [onE, offE] ∧
      onE.isOn = true ∧ offE.isOn = false ∧
      pyTrunc ((13 : ℚ)/1000 * 480 * 2) - 1 ≤ offE.tick ∧
      offE.tick ≤ pyTrunc ((13 : ℚ)/1000 * 480 * 2) + 1) ∧
    ((channelNoteEvents 0 480 (13/1000) c9Timeline).countP
        (fun e => e.isOn && e.note == 60) =
     (channelNoteEvents 0 480 (13/1000) c9Timeline).countP
        (fun e => !e.isOn && e.note == 60)) := by
  refine ⟨by norm_num, ?_, ?_, ?_⟩
  · exact claim_C9_midi_sustain.1 0 480 (13/1000)
      ⟨1/1000, 1/100, some 60, false, true⟩
      ⟨3/1000, 1/100, some 62, false, false⟩ [] rfl (by norm_num) (by norm_num)
  · exact claim_C9_midi_sustain.2.1 0 480 (13/1000)
      ⟨1/1000, 1/100, some 60, false, true⟩ rfl (by norm_num) (by norm_num)
  · exact claim_C9_midi_sustain.2.2 0 480 (13/1000) c9Timeline 60

/-! ### C4: chip emulators rendered from reset

POKEY embedding of `POKEYEmulator` (src/gauntlet_disasm.py lines 513-1084) and
a real-valued model of `YM2151Emulator.render` from reset (lines 1092-1689).
Floating-point arithmetic is modelled over ℝ (exact reals); the claim
counterexample is robust to this modelling, since the sample value is bounded
away from zero by a wide margin (≥ 767 out of 32767). -/

/-- State of `POKEYEmulator` (src/gauntlet_disasm.py lines 513-576): per-channel
registers and counters, polynomial positions, clock dividers and the cached raw
output word. -/
structure PokeyState where
  audf : ℕ → ℕ
  audc : ℕ → ℕ
  counter : ℕ → ℕ
  borrowCnt : ℕ → ℕ
  output : ℕ → ℕ
  filterSample : ℕ → ℕ
  audctl : ℕ
  skctl : ℕ
  p4 : ℕ
  p5 : ℕ
  p9 : ℕ
  p17 : ℕ
  clockCnt1 : ℕ
  clockCnt2 : ℕ
  outRaw : ℕ
  oldRawInval : Bool

/-- `POKEYEmulator.reset` (lines 556-576): AUDC registers come up as 0xB0,
SKCTL as 0x03, the first two filter samples as 1, everything else zero. -/
def pokeyReset : PokeyState :=
  { audf := fun _ => 0, audc := fun _ => 0xB0, counter := fun _ => 0,
    borrowCnt := fun _ => 0, output := fun _ => 0,
    filterSample := fun i => if i < 2 then 1 else 0,
    audctl := 0, skctl := 0x03, p4 := 0, p5 := 0, p9 := 0, p17 := 0,
    clockCnt1 := 0, clockCnt2 := 0, outRaw := 0, oldRawInval := true }

/-- `POKEYEmulator.DEFAULT_GAIN // 4` as used in render: 32767 // 11 // 4. -/
def DEFAULT_GAIN : ℕ := 32767 / 11 / 4

/-- Pointwise array update, modelling assignment to a Python list element. -/
def setAt (f : ℕ → ℕ) (i v : ℕ) : ℕ → ℕ := fun j => if j = i then v else f j

/-- `POKEYEmulator._inc_chan` (lines 611-617). -/
def incChan (s : PokeyState) (ch borrowCycles : ℕ) : PokeyState :=
  let c := (s.counter ch + 1) &&& 0xFF
  let s := { s with counter := setAt s.counter ch c }
  if c = 0 ∧ s.borrowCnt ch = 0 then
    { s with borrowCnt := setAt s.borrowCnt ch borrowCycles }
  else s

/-- `POKEYEmulator._reset_channel` counterpart: counter := AUDF xor 0xFF,
borrow cleared. -/
def resetChannel (s : PokeyState) (ch : ℕ) : PokeyState :=
  { s with counter := setAt s.counter ch (s.audf ch ^^^ 0xFF)
           borrowCnt := setAt s.borrowCnt ch 0 }

/-- Low bit of the poly4 table at position `i`. -/
def poly4bit (i : ℕ) : ℕ := (initPoly45 4).getD i 0 &&& 1
def poly5bit (i : ℕ) : ℕ := (initPoly45 5).getD i 0 &&& 1
def poly9bit (i : ℕ) : ℕ := (initPoly917 9).getD i 0 &&& 1
def poly17bit (i : ℕ) : ℕ := (initPoly917 17).getD i 0 &&& 1

/-- `POKEYEmulator._process_channel` (lines 640-660): gated by the poly5 bit
unless AUDC bit 7 is set, selects tone toggle / poly4 / poly9 / poly17. -/
def processChannel (s : PokeyState) (ch : ℕ) : PokeyState :=
  let audc := s.audc ch
  if audc &&& 0x80 ≠ 0 ∨ poly5bit s.p5 ≠ 0 then
    let s :=
      if audc &&& 0x20 ≠ 0 then
        { s with output := setAt s.output ch (s.output ch ^^^ 1) }
      else if audc &&& 0x40 ≠ 0 then
        { s with output := setAt s.output ch (poly4bit s.p4) }
      else if s.audctl &&& 0x80 ≠ 0 then
        { s with output := setAt s.output ch (poly9bit s.p9) }
      else
        { s with output := setAt s.output ch (poly17bit s.p17) }
    { s with oldRawInval := true }
  else s

/-- `POKEYEmulator._check_borrow` (lines 627-633): decrement a pending borrow
counter, firing when it reaches zero. -/
def checkBorrowVal (s : PokeyState) (ch : ℕ) : Bool × PokeyState :=
  if 0 < s.borrowCnt ch then
    let b := s.borrowCnt ch - 1
    (decide (b = 0), { s with borrowCnt := setAt s.borrowCnt ch b })
  else (false, s)

/-- Recomputation of `out_raw` (lines 750-760): each channel contributes its
4-bit volume when its output xor filter sample is set or volume-only mode is on. -/
def pokeyRawOf (s : PokeyState) : ℕ :=
  let add := fun (raw : ℕ) (ch : ℕ) =>
    if (s.output ch ^^^ s.filterSample ch) ≠ 0 ∨ s.audc ch &&& 0x10 ≠ 0 then
      raw ||| ((s.audc ch &&& 0x0F) <<< (ch * 4))
    else raw
  add (add (add (add 0 0) 1) 2) 3

/-- First part of `POKEYEmulator._step_one_clock` (lines 662-696): advance the
four polynomial positions and the 28/114 clock dividers, returning the base
clock pulse. -/
def stepTimers (s : PokeyState) : Bool × PokeyState :=
  let s := { s with p4 := (s.p4 + 1) % 15, p5 := (s.p5 + 1) % 31,
                    p9 := (s.p9 + 1) % 511, p17 := (s.p17 + 1) % 131071 }
  let cnt28 := s.clockCnt1 + 1
  let clk28 : Bool := decide (28 ≤ cnt28)
  let s := { s with clockCnt1 := if 28 ≤ cnt28 then 0 else cnt28 }
  let cnt114 := s.clockCnt2 + 1
  let clk114 : Bool := decide (114 ≤ cnt114)
  let s := { s with clockCnt2 := if 114 ≤ cnt114 then 0 else cnt114 }
  let baseClk : Bool := if s.audctl &&& 0x01 ≠ 0 then clk114 else clk28
  (baseClk, s)

/-- Counter-increment part of `_step_one_clock` (lines 698-716): channels 1 and 3
run at 1.79 MHz when fast-clocked, otherwise on the base clock. -/
def stepCounters (baseClk : Bool) (s : PokeyState) : PokeyState :=
  let s :=
    if s.audctl &&& 0x40 ≠ 0 then
      incChan s 0 (if s.audctl &&& 0x10 ≠ 0 then 7 else 4)
    else s
  let s :=
    if s.audctl &&& 0x40 = 0 ∧ baseClk then incChan s 0 1 else s
  let s :=
    if s.audctl &&& 0x20 ≠ 0 then
      incChan s 2 (if s.audctl &&& 0x08 ≠ 0 then 7 else 4)
    else s
  let s :=
    if s.audctl &&& 0x20 = 0 ∧ baseClk then incChan s 2 1 else s
  if baseClk then
    let s := if s.audctl &&& 0x10 = 0 then incChan s 1 1 else s
    if s.audctl &&& 0x08 = 0 then incChan s 3 1 else s
  else s

/-- Borrow handling for channel 3 (lines 718-728), including the high-pass
filter sample update for channel 1. -/
def borrow3Block (s : PokeyState) : PokeyState :=
  let r := checkBorrowVal s 2
  let s := r.2
  if r.1 then
    let s :=
      if s.audctl &&& 0x08 ≠ 0 then incChan s 3 1 else resetChannel s 2
    let s := processChannel s 2
    let s :=
      if s.audctl &&& 0x04 ≠ 0 then
        { s with filterSample := setAt s.filterSample 0 (s.output 0) }
      else { s with filterSample := setAt s.filterSample 0 1 }
    { s with oldRawInval := true }
  else s

/-- Borrow handling for channel 4 (lines 730-740). -/
def borrow4Block (s : PokeyState) : PokeyState :=
  let r := checkBorrowVal s 3
  let s := r.2
  if r.1 then
    let s := if s.audctl &&& 0x08 ≠ 0 then resetChannel s 2 else s
    let s := resetChannel s 3
    let s := processChannel s 3
    let s :=
      if s.audctl &&& 0x02 ≠ 0 then
        { s with filterSample := setAt s.filterSample 1 (s.output 1) }
      else { s with filterSample := setAt s.filterSample 1 1 }
    { s with oldRawInval := true }
  else s

/-- Borrow handling for channel 1 (lines 742-745). -/
def borrow1Block (s : PokeyState) : PokeyState :=
  let r := checkBorrowVal s 0
  let s := r.2
  if r.1 then
    let s :=
      if s.audctl &&& 0x10 ≠ 0 then incChan s 1 1 else resetChannel s 0
    processChannel s 0
  else s

/-- Borrow handling for channel 2 (lines 746-749). -/
def borrow2Block (s : PokeyState) : PokeyState :=
  let r := checkBorrowVal s 1
  let s := r.2
  if r.1 then
    let s := if s.audctl &&& 0x10 ≠ 0 then resetChannel s 0 else s
    let s := resetChannel s 1
    processChannel s 1
  else s

/-- Raw-output refresh at the end of `_step_one_clock`. -/
def stepRaw (s : PokeyState) : PokeyState :=
  if s.oldRawInval then
    { s with outRaw := pokeyRawOf s, oldRawInval := false }
  else s

/-- `POKEYEmulator._step_one_clock` (lines 662-760): a no-op while SKCTL
holds the reset bits (skctl & 3 == 0), as it does after reset. -/
def stepOneClock (s : PokeyState) : PokeyState :=
  if s.skctl &&& 0x03 = 0 then s
  else
    let r := stepTimers s
    stepRaw (borrow2Block (borrow1Block (borrow4Block (borrow3Block
      (stepCounters r.1 r.2)))))

/-- Sum of the four 4-bit volumes packed in the raw output word. -/
def pokeyVolOf (raw : ℕ) : ℕ :=
  (raw &&& 0xF) + ((raw >>> 4) &&& 0xF) + ((raw >>> 8) &&& 0xF) +
    ((raw >>> 12) &&& 0xF)

/-- Clamp to the int16 range, as in render.'s sample clipping. -/
def clamp16 (x : ℤ) : ℤ := max (-32768) (min 32767 x)

/-- The inner clock loop of `POKEYEmulator.render` (lines 1047-1056):
accumulate `vol * DEFAULT_GAIN` over the clocks of one output sample. -/
def runClocks : ℕ → PokeyState → ℤ → ℤ × PokeyState
  | 0, s, total => (total, s)
  | k + 1, s, total =>
    let s := stepOneClock s
    runClocks k s (total + (pokeyVolOf s.outRaw * DEFAULT_GAIN : ℕ))

/-- The per-sample loop of `POKEYEmulator.render` (lines 1032-1076): a rational
clock accumulator dispenses whole clocks per sample; `total // clocks_this`
(Python floor division, `Int.fdiv`) averages the accumulated volume. -/
def pokeyRenderAux (clocksPerSample : ℚ) :
    ℕ → PokeyState → ℚ → List ℤ × PokeyState
  | 0, s, _ => ([], s)
  | n + 1, s, accum =>
    let accum := accum + clocksPerSample
    let clocksThis := ⌊accum⌋.toNat
    let accum := accum - clocksThis
    if s.skctl &&& 0x03 = 0 then
      let sample := clamp16 ((pokeyVolOf s.outRaw * DEFAULT_GAIN : ℕ) : ℤ)
      let (rest, sF) := pokeyRenderAux clocksPerSample n s accum
      (sample :: rest, sF)
    else
      let (total, s) := runClocks clocksThis s 0
      let sample :=
        if 0 < clocksThis then clamp16 (Int.fdiv total clocksThis)
        else clamp16 ((pokeyVolOf s.outRaw * DEFAULT_GAIN : ℕ) : ℤ)
      let (rest, sF) := pokeyRenderAux clocksPerSample n s accum
      (sample :: rest, sF)

/-- `POKEYEmulator.render(n, sample_rate)` (lines 797-1084): 1 789 790 clocks
per second; returns the sample list and the final state. -/
def pokeyRender (s : PokeyState) (numSamples sampleRate : ℕ) :
    List ℤ × PokeyState :=
  pokeyRenderAux ((1789790 : ℚ) / sampleRate) numSamples s 0


theorem incChan_audc (s : PokeyState) (ch b : ℕ) :
    (incChan s ch b).audc = s.audc := by
  unfold incChan
  dsimp only
  split <;> rfl

theorem incChan_outRaw (s : PokeyState) (ch b : ℕ) :
    (incChan s ch b).outRaw = s.outRaw := by
  unfold incChan
  dsimp only
  split <;> rfl

theorem resetChannel_audc (s : PokeyState) (ch : ℕ) :
    (resetChannel s ch).audc = s.audc := rfl

theorem resetChannel_outRaw (s : PokeyState) (ch : ℕ) :
    (resetChannel s ch).outRaw = s.outRaw := rfl

theorem processChannel_audc (s : PokeyState) (ch : ℕ) :
    (processChannel s ch).audc = s.audc := by
  unfold processChannel
  dsimp only
  split_ifs <;> rfl

theorem processChannel_outRaw (s : PokeyState) (ch : ℕ) :
    (processChannel s ch).outRaw = s.outRaw := by
  unfold processChannel
  dsimp only
  split_ifs <;> rfl

theorem checkBorrowVal_audc (s : PokeyState) (ch : ℕ) :
    (checkBorrowVal s ch).2.audc = s.audc := by
  unfold checkBorrowVal
  dsimp only
  split <;> rfl

theorem checkBorrowVal_outRaw (s : PokeyState) (ch : ℕ) :
    (checkBorrowVal s ch).2.outRaw = s.outRaw := by
  unfold checkBorrowVal
  dsimp only
  split <;> rfl

theorem stepTimers_audc (s : PokeyState) : (stepTimers s).2.audc = s.audc := rfl

theorem stepTimers_outRaw (s : PokeyState) :
    (stepTimers s).2.outRaw = s.outRaw := rfl

theorem stepCounters_audc (b : Bool) (s : PokeyState) :
    (stepCounters b s).audc = s.audc := by
  simp only [stepCounters, apply_ite PokeyState.audc, incChan_audc, ite_self]

theorem stepCounters_outRaw (b : Bool) (s : PokeyState) :
    (stepCounters b s).outRaw = s.outRaw := by
  simp only [stepCounters, apply_ite PokeyState.outRaw, incChan_outRaw,
    ite_self]

theorem borrow3Block_audc (s : PokeyState) :
    (borrow3Block s).audc = s.audc := by
  simp only [borrow3Block, apply_ite PokeyState.audc, incChan_audc,
    resetChannel_audc, processChannel_audc, checkBorrowVal_audc,
    ite_self]

theorem borrow3Block_outRaw (s : PokeyState) :
    (borrow3Block s).outRaw = s.outRaw := by
  simp only [borrow3Block, apply_ite PokeyState.outRaw, incChan_outRaw,
    resetChannel_outRaw, processChannel_outRaw, checkBorrowVal_outRaw,
    ite_self]

theorem borrow4Block_audc (s : PokeyState) :
    (borrow4Block s).audc = s.audc := by
  simp only [borrow4Block, apply_ite PokeyState.audc, incChan_audc,
    resetChannel_audc, processChannel_audc, checkBorrowVal_audc,
    ite_self]

theorem borrow4Block_outRaw (s : PokeyState) :
    (borrow4Block s).outRaw = s.outRaw := by
  simp only [borrow4Block, apply_ite PokeyState.outRaw, incChan_outRaw,
    resetChannel_outRaw, processChannel_outRaw, checkBorrowVal_outRaw,
    ite_self]

theorem borrow1Block_audc (s : PokeyState) :
    (borrow1Block s).audc = s.audc := by
  simp only [borrow1Block, apply_ite PokeyState.audc, incChan_audc,
    resetChannel_audc, processChannel_audc, checkBorrowVal_audc,
    ite_self]

theorem borrow1Block_outRaw (s : PokeyState) :
    (borrow1Block s).outRaw = s.outRaw := by
  simp only [borrow1Block, apply_ite PokeyState.outRaw, incChan_outRaw,
    resetChannel_outRaw, processChannel_outRaw, checkBorrowVal_outRaw,
    ite_self]

theorem borrow2Block_audc (s : PokeyState) :
    (borrow2Block s).audc = s.audc := by
  simp only [borrow2Block, apply_ite PokeyState.audc, incChan_audc,
    resetChannel_audc, processChannel_audc, checkBorrowVal_audc,
    ite_self]

theorem borrow2Block_outRaw (s : PokeyState) :
    (borrow2Block s).outRaw = s.outRaw := by
  simp only [borrow2Block, apply_ite PokeyState.outRaw, incChan_outRaw,
    resetChannel_outRaw, processChannel_outRaw, checkBorrowVal_outRaw,
    ite_self]

theorem pokeyRawOf_muted (s : PokeyState)
    (hv : ∀ ch, s.audc ch &&& 0x0F = 0) : pokeyRawOf s = 0 := by
  simp [pokeyRawOf, hv, Nat.zero_shiftLeft]

theorem stepOneClock_muted (s : PokeyState)
    (h : ∀ ch, s.audc ch &&& 0x0F = 0) (h0 : s.outRaw = 0) :
    (∀ ch, (stepOneClock s).audc ch &&& 0x0F = 0) ∧
    (stepOneClock s).outRaw = 0 := by
  unfold stepOneClock
  split
  · exact ⟨h, h0⟩
  · set y := borrow2Block (borrow1Block (borrow4Block (borrow3Block
      (stepCounters (stepTimers s).1 (stepTimers s).2)))) with hy
    have hau : y.audc = s.audc := by
      rw [hy, borrow2Block_audc, borrow1Block_audc, borrow4Block_audc,
        borrow3Block_audc, stepCounters_audc, stepTimers_audc]
    have hor : y.outRaw = s.outRaw := by
      rw [hy, borrow2Block_outRaw, borrow1Block_outRaw, borrow4Block_outRaw,
        borrow3Block_outRaw, stepCounters_outRaw, stepTimers_outRaw]
    unfold stepRaw
    by_cases hb : y.oldRawInval = true
    · rw [if_pos hb]
      refine ⟨fun ch => ?_, ?_⟩
      · have hpr : ({ y with outRaw := pokeyRawOf y, oldRawInval := false } : PokeyState).audc = y.audc := rfl
        rw [hpr, hau]
        exact h ch
      · have hpr : ({ y with outRaw := pokeyRawOf y, oldRawInval := false } : PokeyState).outRaw = pokeyRawOf y := rfl
        rw [hpr]
        apply pokeyRawOf_muted
        intro ch
        rw [hau]
        exact h ch
    · rw [if_neg hb]
      refine ⟨fun ch => ?_, ?_⟩
      · rw [hau]
        exact h ch
      · rw [hor]
        exact h0

theorem runClocks_muted :
    ∀ (k : ℕ) (s : PokeyState) (total : ℤ),
      (∀ ch, s.audc ch &&& 0x0F = 0) → s.outRaw = 0 →
      (runClocks k s total).1 = total ∧
      (∀ ch, (runClocks k s total).2.audc ch &&& 0x0F = 0) ∧
      (runClocks k s total).2.outRaw = 0 := by
  intro k
  induction k with
  | zero =>
    intro s total h h0
    exact ⟨rfl, h, h0⟩
  | succ m ih =>
    intro s total h h0
    obtain ⟨h1, h2⟩ := stepOneClock_muted s h h0
    simp only [runClocks]
    have hz : total + ((pokeyVolOf (stepOneClock s).outRaw * DEFAULT_GAIN : ℕ) : ℤ) = total := by
      rw [h2]
      norm_num [pokeyVolOf]
    rw [hz]
    exact ih (stepOneClock s) total h1 h2

theorem pokeyRenderAux_muted (cps : ℚ) :
    ∀ (n : ℕ) (s : PokeyState) (accum : ℚ),
      (∀ ch, s.audc ch &&& 0x0F = 0) → s.outRaw = 0 →
      (pokeyRenderAux cps n s accum).1 = List.replicate n 0 := by
  intro n
  induction n with
  | zero =>
    intro s accum h h0
    rfl
  | succ m ih =>
    intro s accum h h0
    simp only [pokeyRenderAux]
    split
    · have hz : clamp16 ((pokeyVolOf s.outRaw * DEFAULT_GAIN : ℕ) : ℤ) = 0 := by
        rw [h0]
        decide
      rw [hz, ih s _ h h0]
      rfl
    · obtain ⟨ht, h1, h2⟩ := runClocks_muted (⌊accum + cps⌋.toNat) s 0 h h0
      rw [ht]
      split
      · have hz : clamp16 (Int.fdiv (0 : ℤ) (⌊accum + cps⌋.toNat : ℤ)) = 0 := by
          rw [Int.zero_fdiv]
          decide
        rw [hz, ih _ _ h1 h2]
        rfl
      · have hz : clamp16 ((pokeyVolOf (runClocks (⌊accum + cps⌋.toNat) s 0).2.outRaw * DEFAULT_GAIN : ℕ) : ℤ) = 0 := by
          rw [h2]
          decide
        rw [hz, ih _ _ h1 h2]
        rfl

theorem pokeyRender_reset_zero (n sr : ℕ) :
    (pokeyRender pokeyReset n sr).1 = List.replicate n 0 := by
  apply pokeyRenderAux_muted
  · intro ch
    show (0xB0 &&& 0x0F : ℕ) = 0
    decide
  · rfl


/-- Python `%` on rationals (sign of the divisor), used for phase wrapping. -/
def qmod (a m : ℚ) : ℚ := a - m * ⌊a / m⌋

/-- Python `%` on reals. -/
noncomputable def rmod (x m : ℝ) : ℝ := x - m * ⌊x / m⌋

/-- `YM2151Emulator._calc_phase_incs_all` at reset (lines 1313-1337): KC=0 maps
to note frequency 16.35 Hz; `mul == 0` contributes a factor 0.5; the phase
increment is `freq * mul_eff / RATE * 1024` with RATE = 55 930. -/
def ymResetInc : ℚ := 16.35 * 0.5 / 55930 * 1024

/-- Operator phase after `n+1` native samples of `YM2151Emulator.render` from
reset: phase starts at 0 and advances by `ymResetInc` mod 1024 each sample
(all 32 operators behave identically at reset). -/
def ymPhase : ℕ → ℚ
  | 0 => qmod (0 + ymResetInc) 1024
  | n + 1 => qmod (ymPhase n + ymResetInc) 1024

/-- Attenuation index `int((tl * 0.75 + eg_level * 0.046875) * 10.0)` (line 1491);
nonnegative here, so Python `int` truncation is the floor. -/
def opAidx (tl egLevel : ℚ) : ℤ := ⌊(tl * 0.75 + egLevel * 0.046875) * 10⌋

/-- `atten_table[i] = 10 ** (-(i / 10) / 20)` for `i ≤ 960`, 0 past the table
(the code clamps `aidx` to the table length; only `aidx = 479` occurs here). -/
noncomputable def attenTable (i : ℕ) : ℝ :=
  if i ≤ 960 then (10 : ℝ) ^ (-((i : ℝ) / 10) / 20) else 0

/-- One operator evaluation in the `con == 0` chain (lines 1489-1500): phase
plus modulation wrapped into [0, 1024), sine table lookup at the truncated
index, scaled by the attenuation table entry. -/
noncomputable def ymOpOut (tl egLevel : ℚ) (phase : ℚ) (modIn : ℝ) : ℝ :=
  let pv : ℝ := rmod ((phase : ℝ) + modIn) 1024
  let idx : ℤ := ⌊pv⌋ % 1024
  let aidx := opAidx tl egLevel
  if 960 < aidx then 0
  else Real.sin (2 * Real.pi * (idx : ℝ) / 1024) * attenTable aidx.toNat

/-- One channel sample of `YM2151Emulator.render` from reset at native index
`n`: the M1 → C1 → M2 → C2 chain with `con = 0`, TL = 0, EG level 1023,
feedback contribution 0 at reset. -/
noncomputable def ymCon0ResetSample (n : ℕ) : ℝ :=
  let p := ymPhase n
  let m1 := ymOpOut 0 1023 p 0
  let c1 := ymOpOut 0 1023 p (m1 * 512)
  let m2 := ymOpOut 0 1023 p (c1 * 512)
  ymOpOut 0 1023 p (m2 * 512)

/-- Left native mix: all 8 channels are identical at reset and `lr & 2` is set
(`self.ch_lr` resets to 0xC0 >> 6 = 3), so the left sum is 8 times one channel. -/
noncomputable def ymResetNativeLeft (n : ℕ) : ℝ := 8 * ymCon0ResetSample n

/-- `ratio = RATE / sample_rate` for the default 44 100 Hz output. -/
def ymRatio : ℚ := 55930 / 44100

/-- `np.interp` resampling of the native left channel at output index `k`
(line 1676): linear interpolation between native samples `⌊k * ratio⌋` and
`⌊k * ratio⌋ + 1`. -/
noncomputable def ymResetOutLeft (k : ℕ) : ℝ :=
  ymResetNativeLeft ⌊(k : ℚ) * ymRatio⌋.toNat +
    (((k : ℚ) * ymRatio : ℚ) - (⌊(k : ℚ) * ymRatio⌋.toNat : ℝ)) *
      (ymResetNativeLeft (⌊(k : ℚ) * ymRatio⌋.toNat + 1) -
        ymResetNativeLeft ⌊(k : ℚ) * ymRatio⌋.toNat)

/-- Output sample `k` of the left channel after `np.clip(out * 24000, -32768,
32767).astype(np.int16)` (lines 1684-1688): clip, then truncate toward zero. -/
noncomputable def ymResetInt16Left (k : ℕ) : ℤ :=
  if max (-32768) (min 32767 (ymResetOutLeft k * 24000)) < 0 then
    -⌊-(max (-32768 : ℝ) (min 32767 (ymResetOutLeft k * 24000)))⌋
  else ⌊max (-32768 : ℝ) (min 32767 (ymResetOutLeft k * 24000))⌋

/-- Effective release rate `min(63, rr*4 + 2 + (ks >> 1))` (lines 1457-1460). -/
def egReleaseEff (rr ks : ℕ) : ℕ := min 63 (rr * 4 + 2 + ks / 2)

/-- One release-phase envelope step (lines 1461-1469): when the period fires,
the level moves to `min(1023, lev + 2 + (eff & 3))`. -/
def egReleaseLevel (rr ks lev : ℕ) : ℕ :=
  min 1023 (lev + 2 + egReleaseEff rr ks % 4)

theorem egRelease_stays_silent : egReleaseLevel 0 0 1023 = 1023 := by decide

theorem ymResetInc_eq : ymResetInc = 20928 / 139825 := by
  norm_num [ymResetInc]

theorem qmod_qmod_add (a b m : ℚ) (hm : m ≠ 0) :
    qmod (qmod a m + b) m = qmod (a + b) m := by
  unfold qmod
  have hdiv : (a - m * ⌊a / m⌋ + b) / m = (a + b) / m - (⌊a / m⌋ : ℚ) := by
    field_simp
    ring
  rw [hdiv, Int.floor_sub_int]
  push_cast
  ring

theorem ymPhase_eq : ∀ n : ℕ, ymPhase n = qmod ((n + 1) * ymResetInc) 1024 := by
  intro n
  induction n with
  | zero =>
    show qmod (0 + ymResetInc) 1024 = qmod ((0 + 1) * ymResetInc) 1024
    norm_num
  | succ m ih =>
    show qmod (ymPhase m + ymResetInc) 1024 = _
    rw [ih, qmod_qmod_add _ _ _ (by norm_num)]
    congr 1
    push_cast
    ring

theorem qmod_eq_self (q m : ℚ) (h0 : 0 ≤ q) (hm : q < m) (hmp : 0 < m) :
    qmod q m = q := by
  unfold qmod
  have : ⌊q / m⌋ = 0 := by
    rw [Int.floor_eq_zero_iff]
    constructor
    · positivity
    · rw [div_lt_one hmp]
      exact hm
  rw [this]
  push_cast
  ring

theorem ymPhase_1703 : ymPhase 1703 = 35661312 / 139825 := by
  rw [ymPhase_eq, ymResetInc_eq]
  rw [qmod_eq_self _ _ (by norm_num) (by norm_num) (by norm_num)]
  norm_num

theorem ymPhase_1704 : ymPhase 1704 = 35682240 / 139825 := by
  rw [ymPhase_eq, ymResetInc_eq]
  rw [qmod_eq_self _ _ (by norm_num) (by norm_num) (by norm_num)]
  norm_num


theorem attenTable_479_bounds :
    (1 / 250 : ℝ) ≤ attenTable 479 ∧ attenTable 479 ≤ 41 / 10000 := by
  unfold attenTable
  rw [if_pos (by norm_num)]
  have hexp : (-(((479 : ℕ) : ℝ) / 10) / 20) = (-(479 / 200 : ℝ)) := by
    norm_num
  rw [hexp]
  have ha_pos : (0 : ℝ) < (10 : ℝ) ^ (-(479 / 200 : ℝ)) :=
    Real.rpow_pos_of_pos (by norm_num) _
  have hpow : ((10 : ℝ) ^ (-(479 / 200 : ℝ))) ^ (200 : ℕ) =
      ((10 : ℝ) ^ (479 : ℕ))⁻¹ := by
    rw [← Real.rpow_natCast ((10 : ℝ) ^ (-(479 / 200 : ℝ))) 200,
      ← Real.rpow_mul (by norm_num : (0 : ℝ) ≤ 10)]
    rw [show ((-(479 / 200 : ℝ)) * (200 : ℕ)) = -((479 : ℕ) : ℝ) by push_cast; ring]
    rw [Real.rpow_neg (by norm_num), Real.rpow_natCast]
  constructor
  · refine le_of_pow_le_pow_left (n := 200) (by norm_num) (le_of_lt ha_pos) ?_
    rw [hpow, div_pow, one_pow]
    rw [div_eq_mul_inv, one_mul]
    refine inv_le_inv_of_le (by positivity) ?_
    exact_mod_cast (by norm_num : (10 : ℕ) ^ 479 ≤ 250 ^ 200)
  · refine le_of_pow_le_pow_left (n := 200) (by norm_num) (by norm_num) ?_
    rw [hpow, div_pow]
    rw [inv_eq_one_div, div_le_div_iff (by positivity) (by positivity)]
    rw [one_mul]
    exact_mod_cast (by norm_num : (10000 : ℕ) ^ 200 ≤ 41 ^ 200 * 10 ^ 479)

theorem cos_pi_div_512_bounds :
    (9999 / 10000 : ℝ) ≤ Real.cos (Real.pi / 512) ∧
    Real.cos (Real.pi / 512) ≤ 1 := by
  constructor
  · have hlb := Real.one_sub_sq_div_two_le_cos (x := Real.pi / 512)
    have hpi : Real.pi ≤ 3.15 := le_of_lt Real.pi_lt_315
    have hpi0 : 0 ≤ Real.pi := Real.pi_pos.le
    have hsq : (Real.pi / 512) ^ 2 ≤ (3.15 / 512 : ℝ) ^ 2 := by
      have h1 : Real.pi / 512 ≤ 3.15 / 512 := by linarith
      have h2 : (0 : ℝ) ≤ Real.pi / 512 := by positivity
      exact pow_le_pow_left h2 h1 2
    nlinarith [hlb, hsq]
  · exact Real.cos_le_one _

theorem ym_sin_255 :
    Real.sin (2 * Real.pi * ((255 : ℤ) : ℝ) / 1024) =
      Real.cos (Real.pi / 512) := by
  rw [show (2 * Real.pi * ((255 : ℤ) : ℝ) / 1024 : ℝ) =
      Real.pi / 2 - Real.pi / 512 by push_cast; ring]
  exact Real.sin_pi_div_two_sub _

theorem ym_sin_257 :
    Real.sin (2 * Real.pi * ((257 : ℤ) : ℝ) / 1024) =
      Real.cos (Real.pi / 512) := by
  rw [show (2 * Real.pi * ((257 : ℤ) : ℝ) / 1024 : ℝ) =
      Real.pi / 512 + Real.pi / 2 by push_cast; ring]
  exact Real.sin_add_pi_div_two _


theorem opAidx_reset : opAidx 0 1023 = 479 := by decide

theorem rmod_eq_self (x m : ℝ) (h0 : 0 ≤ x) (hm : x < m) (hmp : 0 < m) :
    rmod x m = x := by
  unfold rmod
  have : ⌊x / m⌋ = 0 := by
    rw [Int.floor_eq_zero_iff]
    constructor
    · positivity
    · rw [div_lt_one hmp]
      exact hm
  rw [this]
  push_cast
  ring

theorem ymOpOut_idx (p : ℚ) (m : ℝ) (j : ℤ) (hj : 0 ≤ j) (hj2 : j < 1024)
    (h1 : (j : ℝ) ≤ (p : ℝ) + m) (h2 : (p : ℝ) + m < (j : ℝ) + 1) :
    ymOpOut 0 1023 p m =
      Real.sin (2 * Real.pi * (j : ℝ) / 1024) * attenTable 479 := by
  unfold ymOpOut
  rw [opAidx_reset]
  rw [if_neg (by norm_num)]
  have hmv : rmod ((p : ℝ) + m) 1024 = (p : ℝ) + m := by
    refine rmod_eq_self _ _ ?_ ?_ (by norm_num)
    · have : ((j : ℝ)) ≥ 0 := by exact_mod_cast hj
      linarith
    · have hj3 : j ≤ 1023 := by omega
      have : (j : ℝ) ≤ 1023 := by exact_mod_cast hj3
      linarith
  rw [hmv]
  have hfl : ⌊(p : ℝ) + m⌋ = j := by
    rw [Int.floor_eq_iff]
    exact ⟨h1, h2⟩
  rw [hfl]
  rw [Int.emod_eq_of_lt hj hj2]
  rfl


theorem ymOp_base (p : ℚ) (hp1 : (25504 / 100 : ℚ) ≤ p)
    (hp2 : p ≤ 25520 / 100) :
    (9999 / 2500000 : ℝ) ≤ ymOpOut 0 1023 p 0 ∧
    ymOpOut 0 1023 p 0 ≤ 41 / 10000 := by
  have hp1R : (25504 / 100 : ℝ) ≤ (p : ℝ) := by
    have h : ((25504 / 100 : ℚ) : ℝ) ≤ ((p : ℚ) : ℝ) := Rat.cast_le.mpr hp1
    push_cast at h
    exact h
  have hp2R : (p : ℝ) ≤ 25520 / 100 := by
    have h : ((p : ℚ) : ℝ) ≤ ((25520 / 100 : ℚ) : ℝ) := Rat.cast_le.mpr hp2
    push_cast at h
    exact h
  have hidx := ymOpOut_idx p 0 255 (by norm_num) (by norm_num)
    (by push_cast; linarith) (by push_cast; linarith)
  rw [hidx, ym_sin_255]
  have hA := attenTable_479_bounds
  have hc := cos_pi_div_512_bounds
  constructor
  · have h1 : (9999 / 10000 : ℝ) * (1 / 250) ≤
        Real.cos (Real.pi / 512) * attenTable 479 :=
      mul_le_mul hc.1 hA.1 (by norm_num) (by linarith [hc.1])
    linarith
  · have h1 : Real.cos (Real.pi / 512) * attenTable 479 ≤ 1 * (41 / 10000) :=
      mul_le_mul hc.2 hA.2 (by linarith [hA.1]) (by norm_num)
    linarith

theorem ymOp_step (p : ℚ) (hp1 : (25504 / 100 : ℚ) ≤ p)
    (hp2 : p ≤ 25520 / 100) (x : ℝ) (hx1 : (9999 / 2500000 : ℝ) ≤ x)
    (hx2 : x ≤ 41 / 10000) :
    (9999 / 2500000 : ℝ) ≤ ymOpOut 0 1023 p (x * 512) ∧
    ymOpOut 0 1023 p (x * 512) ≤ 41 / 10000 := by
  have hp1R : (25504 / 100 : ℝ) ≤ (p : ℝ) := by
    have h : ((25504 / 100 : ℚ) : ℝ) ≤ ((p : ℚ) : ℝ) := Rat.cast_le.mpr hp1
    push_cast at h
    exact h
  have hp2R : (p : ℝ) ≤ 25520 / 100 := by
    have h : ((p : ℚ) : ℝ) ≤ ((25520 / 100 : ℚ) : ℝ) := Rat.cast_le.mpr hp2
    push_cast at h
    exact h
  have hidx := ymOpOut_idx p (x * 512) 257 (by norm_num) (by norm_num)
    (by push_cast; linarith) (by push_cast; linarith)
  rw [hidx, ym_sin_257]
  have hA := attenTable_479_bounds
  have hc := cos_pi_div_512_bounds
  constructor
  · have h1 : (9999 / 10000 : ℝ) * (1 / 250) ≤
        Real.cos (Real.pi / 512) * attenTable 479 :=
      mul_le_mul hc.1 hA.1 (by norm_num) (by linarith [hc.1])
    linarith
  · have h1 : Real.cos (Real.pi / 512) * attenTable 479 ≤ 1 * (41 / 10000) :=
      mul_le_mul hc.2 hA.2 (by linarith [hA.1]) (by norm_num)
    linarith

theorem ymNative_bounds (n : ℕ) (hn : n = 1703 ∨ n = 1704) :
    (8 * (9999 / 2500000) : ℝ) ≤ ymResetNativeLeft n ∧
    ymResetNativeLeft n ≤ 8 * (41 / 10000) := by
  have hp : (25504 / 100 : ℚ) ≤ ymPhase n ∧ ymPhase n ≤ 25520 / 100 := by
    rcases hn with rfl | rfl
    · rw [ymPhase_1703]
      constructor <;> norm_num
    · rw [ymPhase_1704]
      constructor <;> norm_num
  unfold ymResetNativeLeft ymCon0ResetSample
  have hb := ymOp_base (ymPhase n) hp.1 hp.2
  have h1 := ymOp_step (ymPhase n) hp.1 hp.2 _ hb.1 hb.2
  have h2 := ymOp_step (ymPhase n) hp.1 hp.2 _ h1.1 h1.2
  have h3 := ymOp_step (ymPhase n) hp.1 hp.2 _ h2.1 h2.2
  exact ⟨by linarith [h3.1], by linarith [h3.2]⟩

theorem ymPos_1343 : (1343 * ymRatio : ℚ) = 7511399 / 4410 := by
  rw [ymRatio]
  norm_num

theorem ymFloor_1343 : ⌊((1343 : ℕ) : ℚ) * ymRatio⌋.toNat = 1703 := by
  have h : ((1343 : ℕ) : ℚ) * ymRatio = 7511399 / 4410 := by
    push_cast
    exact ymPos_1343
  rw [h]
  have hfl : ⌊(7511399 / 4410 : ℚ)⌋ = 1703 := by
    rw [Int.floor_eq_iff]
    constructor <;> norm_num
  rw [hfl]
  rfl

/-- C4 (counterexample): on the FM chip, reset() followed by render with no
register writes does NOT return all-(0,0) samples. In the real-valued model of
`YM2151Emulator.render` from reset, output sample 1343 of the left channel is
at least 767 (so in particular nonzero): every operator idles in release phase
at EG level 1023, which the code maps to only about 48 dB of attenuation
(atten_table[479] ≥ 1/250) instead of silence, while the phase accumulators
run at the KC=0 frequency. -/
theorem claim_C4_fm_counterexample :
    (767 : ℤ) ≤ ymResetInt16Left 1343 ∧ ymResetInt16Left 1343 ≠ 0 := by
  have hL := ymNative_bounds 1703 (Or.inl rfl)
  have hR := ymNative_bounds 1704 (Or.inr rfl)
  have hj : ⌊((1343 : ℕ) : ℚ) * ymRatio⌋.toNat = 1703 := ymFloor_1343
  have hfq : (((1343 : ℕ) : ℚ) * ymRatio : ℚ) = 7511399 / 4410 := by
    push_cast
    exact ymPos_1343
  have hout : ymResetOutLeft 1343 =
      ymResetNativeLeft 1703 +
        ((7511399 / 4410 : ℝ) - 1703) *
          (ymResetNativeLeft 1704 - ymResetNativeLeft 1703) := by
    unfold ymResetOutLeft
    rw [hj, hfq]
    norm_num
  have hf1 : (0 : ℝ) ≤ (7511399 / 4410 : ℝ) - 1703 := by norm_num
  have hf2 : (7511399 / 4410 : ℝ) - 1703 ≤ 1 := by norm_num
  have hlo : (8 * (9999 / 2500000) : ℝ) ≤ ymResetOutLeft 1343 := by
    rw [hout]
    nlinarith [mul_le_mul_of_nonneg_left hL.1 hf1,
      mul_le_mul_of_nonneg_left hR.1 hf1, hL.1, hR.1, hL.2, hR.2]
  have hhi : ymResetOutLeft 1343 ≤ 8 * (41 / 10000) := by
    rw [hout]
    nlinarith [hL.1, hR.1, hL.2, hR.2, hf1, hf2]
  have hx1 : (767 : ℝ) ≤ ymResetOutLeft 1343 * 24000 := by linarith
  have hx2 : ymResetOutLeft 1343 * 24000 ≤ 32767 := by linarith
  have hmin : min (32767 : ℝ) (ymResetOutLeft 1343 * 24000) =
      ymResetOutLeft 1343 * 24000 := min_eq_right hx2
  unfold ymResetInt16Left
  rw [hmin]
  have hmax : max (-32768 : ℝ) (ymResetOutLeft 1343 * 24000) =
      ymResetOutLeft 1343 * 24000 := max_eq_right (by linarith)
  rw [hmax]
  rw [if_neg (by linarith)]
  have hfl : (767 : ℤ) ≤ ⌊ymResetOutLeft 1343 * 24000⌋ := by
    apply Int.le_floor.mpr
    push_cast
    linarith
  exact ⟨hfl, by omega⟩


/-- C4 (amended): after `POKEYEmulator.reset()`, `render(n, r)` returns exactly
`n` samples and every sample is zero (SKCTL & 3 = 0 freezes the clock and AUDC
= 0xB0 gives volume 0). The FM chip is NOT silent after reset — see the
counterexample — because the release-phase envelope step keeps EG level 1023
fixed (`egReleaseLevel 0 0 1023 = 1023`) yet 1023 maps to nonzero gain. The
speech chip exposes no render method, so the claim is not statable for it. -/
theorem claim_C4_render_from_reset :
    (∀ n sr : ℕ, (pokeyRender pokeyReset n sr).1 = List.replicate n 0) ∧
    (∀ n sr : ℕ, (pokeyRender pokeyReset n sr).1.length = n) ∧
    egReleaseLevel 0 0 1023 = 1023 :=
  ⟨pokeyRender_reset_zero,
   fun n sr => by rw [pokeyRender_reset_zero]; exact List.length_replicate n 0,
   by decide⟩

end Gauntlet
